import Mathlib

/-!
# Publication protocol, reaction state machine and counter reconciliation of the `hifi` backend

Shallow embedding of the HTTP handlers of `Events/Videos/Videos.go` and
`Events/Social/SocialVideos.go`, of `ResyncCounters` and `GetCounters` of
`Events/Admin/Admin.go`, of `UpdateUser` of `Events/Users/Users.go` with the
validators of `Events/Users/utils.go`, of the type `StringArray` of
`Events/Videos/schema.go` and of the storage helpers of
`Services/Storage/Storage.go`.

Conventions of the embedding.

* The PostgreSQL database reached through `Mdb.DB` is an explicit `Store`
  value: one list of rows per table.  Every handler takes the store and
  returns the store it leaves behind.
* `Mdb.DB` runs each statement on its own (the handlers of `Events/Videos` and
  `Events/Social` open no transaction), so a statement either takes its full
  effect or fails and changes nothing.  Which statements fail is an input of
  the handler: a record of booleans, one per statement of the handler, `true`
  meaning that the call returned a non-nil error (for a `QueryRowContext`, an
  error other than `sql.ErrNoRows`).  `ResyncCounters` runs its two statements
  in a transaction, which takes effect only when `Commit` succeeds.
* `time.Now()` is an input (`now`), and so are the digests computed for new
  video, comment and reply ids.
* The serial `id` column is assigned by the database and is never read by the
  handlers; rows carry the remaining columns.
* `log.Printf` lines are collected, without the formatted error text, in the
  `log` field of the outcome.
* Functions of the Go standard library whose tables are not part of the
  sources (`unicode.ToLower`, `unicode.IsSpace`, the compiled email pattern,
  `json.Unmarshal` on a `StringArray`) are parameters of the definitions that
  call them.
* A Go string that is inspected byte by byte (`StringArray`) is the list of its
  bytes; a slice expression carries its run-time bounds check.
* The `video_tags` column of a row is the slice it was written from; when a
  handler reads the row, the driver hands `StringArray.Scan` the text
  `StringArray.Value` returned for that slice.  On such a text `Scan` always
  returns nil, so the lookups never fail on it; what it returns matters only
  to `UploadACK`, the one handler that writes the scanned tags back.
* Concurrent calls of a handler are a list of calls, each standing between two
  of its database statements, and a schedule that names the call to issue the
  next statement; every statement runs atomically on the shared store.
-/

namespace Hifi

/-! ## `StringArray` (`Events/Videos/schema.go`) -/

/-- A Go `string` or `[]byte`: the sequence of its bytes, each below 256. -/
abbrev Bytes := List Nat

/-- The UTF-8 encoding of a rune. -/
def utf8Rune (c : Char) : Bytes :=
  let n := c.toNat
  if n < 128 then [n]
  else if n < 2048 then [192 + n / 64, 128 + n % 64]
  else if n < 65536 then [224 + n / 4096, 128 + n / 64 % 64, 128 + n % 64]
  else [240 + n / 262144, 128 + n / 4096 % 64, 128 + n / 64 % 64, 128 + n % 64]

/-- The bytes of a text in UTF-8, to write Go string literals. -/
def utf8 (s : String) : Bytes := s.data.flatMap utf8Rune

/-- Type `StringArray`: a slice of Go strings. -/
abbrev StringArray := List Bytes

/-- The byte `"`. -/
def quoteByte : Nat := 34

/-- The byte `,`. -/
def commaByte : Nat := 44

/-- The byte `{`. -/
def openBrace : Nat := 123

/-- The byte `}`. -/
def closeBrace : Nat := 125

/-- The call ``strings.ReplaceAll(item, `"`, `""`)``. -/
def escapeQuotes (item : Bytes) : Bytes :=
  item.flatMap (fun c => if c = quoteByte then [quoteByte, quoteByte] else [c])

/-- Method `StringArray.Value`: the string returned; the error is always nil. -/
def StringArray.Value (a : StringArray) : Bytes :=
  if a.length = 0 then [openBrace, closeBrace]
  else
    let quoted := a.map (fun item => [quoteByte] ++ escapeQuotes item ++ [quoteByte])
    [openBrace] ++ List.intercalate [commaByte] quoted ++ [closeBrace]

/-- The `interface{}` argument of `Scan`: nil, a `[]byte`, a `string`, or a
value of another type. -/
inductive ScanValue where
  | null
  | bytes (b : Bytes)
  | string (s : Bytes)
  | other
deriving DecidableEq, Repr

/-- How a call of `Scan` ends: it returns nil with `*a` set, it returns an
error, or a run-time bounds check fails and the goroutine panics. -/
inductive ScanResult where
  | ok (a : StringArray)
  | error (message : String)
  | outOfBounds (low high : Nat)
deriving DecidableEq, Repr

/-- The Go slice expression `b[low:high]`: `none` when the run-time check
`low ≤ high ≤ len(b)` fails. -/
def sliceBytes (b : Bytes) (low high : Nat) : Option Bytes :=
  if low ≤ high ∧ high ≤ b.length then some ((b.take high).drop low) else none

/-- The Go conversion `string(c)` of a byte `c`: the UTF-8 encoding of the
rune whose value is `c`, one byte below 128 and two bytes from 128 on. -/
def byteToString (c : Nat) : Bytes := utf8Rune (Char.ofNat c)

/-- The variables `parts`, `current` and `inQuotes` of the loop of `Scan`. -/
structure ScanState where
  parts : StringArray
  current : Bytes
  inQuotes : Bool
deriving DecidableEq, Repr

/-- One iteration of the loop of `Scan` (lines 57-68), on the byte `c`. -/
def scanStep (st : ScanState) (c : Nat) : ScanState :=
  if c = quoteByte then { st with inQuotes := !st.inQuotes }
  else if c = commaByte ∧ st.inQuotes = false then
    if st.current ≠ [] then { st with parts := st.parts ++ [st.current], current := [] }
    else st
  else { st with current := st.current ++ byteToString c }

/-- Method `StringArray.Scan`.  `unmarshal` is `json.Unmarshal(bytes, a)` of
the standard library: the error it returns, or the slice it leaves in `*a`. -/
def StringArray.Scan (unmarshal : Bytes → Except String StringArray) (value : ScanValue) :
    ScanResult :=
  match (match value with
      | ScanValue.null => Except.error (ScanResult.ok [])
      | ScanValue.bytes v => Except.ok v
      | ScanValue.string v => Except.ok v
      | ScanValue.other =>
        Except.error (ScanResult.error "cannot scan non-string value into StringArray")
      : Except ScanResult Bytes) with
  | Except.error r => r
  | Except.ok bytes =>
    if bytes.length > 0 ∧ bytes.head? = some openBrace then
      match sliceBytes bytes 1 (bytes.length - 1) with
      | none => ScanResult.outOfBounds 1 (bytes.length - 1)
      | some str =>
        if str = [] then ScanResult.ok []
        else
          let st := str.foldl scanStep { parts := [], current := [], inQuotes := false }
          if st.current ≠ [] then ScanResult.ok (st.parts ++ [st.current])
          else ScanResult.ok st.parts
    else
      match unmarshal bytes with
      | Except.error message => ScanResult.error message
      | Except.ok a => ScanResult.ok a

/-- A stand-in for `json.Unmarshal` that rejects every input. -/
def unmarshalNothing : Bytes → Except String StringArray :=
  fun _ => Except.error "invalid character"

/-- An element of a `StringArray` that survives `Value` followed by `Scan`: it
is not empty, holds no `"` and only bytes below 128. -/
def plainItem (item : Bytes) : Prop := item ≠ [] ∧ ∀ c ∈ item, c ≠ quoteByte ∧ c < 128

instance (item : Bytes) : Decidable (plainItem item) := by
  unfold plainItem; infer_instance

/-- The value left in `VideoTags` by the `Scan` of a row whose `video_tags`
column was written from `tags`.  The driver hands `Scan` the text of the
column, taken to be the text `Value` returned when the row was written.  That
text starts with `{` and ends with `}`, so `Scan` neither consults
`json.Unmarshal` nor fails (`Scan_Value_scannedTags`), and the two other
branches below are never taken. -/
def scannedTags (tags : StringArray) : StringArray :=
  match StringArray.Scan unmarshalNothing (ScanValue.bytes tags.Value) with
  | ScanResult.ok a => a
  | ScanResult.error _ => []
  | ScanResult.outOfBounds _ _ => []

/-! ## Rows and tables -/

/-- Struct `Videos` of `Events/Videos/schema.go`: a row of `video_on_upload`
or of `videos`.  In a row of the store, `VideoTags` is the slice the
`video_tags` column was written from. -/
structure Videos where
  VideoID : String
  VideoURL : String
  VideoThumbnail : String
  VideoTitle : String
  VideoDescription : String
  VideoTags : StringArray
  VideoViews : Int
  VideoUpvotes : Int
  VideoDownvotes : Int
  VideoComments : Int
  UserUID : String
  UserUsername : String
  CreatedAt : Nat
  UpdatedAt : Nat
deriving DecidableEq, Repr

/-- Struct `User` of `Events/Users/schema.go`, restricted to the columns the
handlers below read or write. -/
structure User where
  UID : String
  Username : String
  Role : String
  TotalVideos : Int
  Name : String := ""
  ProfilePicture : String := ""
  Bio : Option String := none
  Email : Option String := none
  UpdatedAt : Nat := 0
deriving DecidableEq, Repr

/-- Struct `Upvotes` of `Events/Social/schema.go`. -/
structure Upvotes where
  UpvotedBy : String
  UpvotedTo : String
  UpvotedAt : Nat
deriving DecidableEq, Repr

/-- Struct `Downvotes` of `Events/Social/schema.go`. -/
structure Downvotes where
  DownvotedBy : String
  DownvotedTo : String
  DownvotedAt : Nat
deriving DecidableEq, Repr

/-- Struct `Comments` of `Events/Social/schema.go`. -/
structure Comments where
  CommentID : String
  CommentedBy : String
  CommentedTo : String
  CommentedAt : Nat
  Comment : String
  CommentByUsername : String
  TotalReplies : Int
deriving DecidableEq, Repr

/-- Struct `Replies` of `Events/Social/schema.go`. -/
structure Replies where
  ReplyID : String
  RepliedBy : String
  RepliedTo : String
  RepliedAt : Nat
  Reply : String
  ReplyByUsername : String
deriving DecidableEq, Repr

/-- Struct `Views` of `Events/Social/schema.go`. -/
structure Views where
  ViewedBy : String
  ViewedTo : String
  ViewedAt : Nat
deriving DecidableEq, Repr

/-- The tables of the database the handlers touch. -/
structure Store where
  users : List User
  video_on_upload : List Videos
  videos : List Videos
  upvotes : List Upvotes
  downvotes : List Downvotes
  comments : List Comments := []
  replies : List Replies := []
  views : List Views := []
deriving DecidableEq, Repr

/-- What a handler writes to the `http.ResponseWriter`:
`Utils.SendErrorResponse w status message` or `Utils.SendSuccessResponse w data`
(status 200), the data being a flat map of strings. -/
inductive Response where
  | error (status : Nat) (message : String)
  | success (data : List (String × String))
deriving DecidableEq, Repr

/-- Result of a `QueryRowContext(...).Scan(...)`. -/
inductive QueryRow (α : Type) where
  | row (r : α)
  | errNoRows
  | dbError
deriving DecidableEq, Repr

/-- `QueryRowContext` followed by `Scan`: a failing statement gives an error,
otherwise the first matching row or `sql.ErrNoRows`. -/
def queryRow {α : Type} (fails : Bool) (p : α → Bool) (table : List α) : QueryRow α :=
  if fails then QueryRow.dbError
  else match table.find? p with
    | some r => QueryRow.row r
    | none => QueryRow.errNoRows

/-! ## Object storage (`Services/Storage/Storage.go`) -/

/-- The bucket behind `S3Client`.  `S3Client` is `false` when the Go variable
is nil; `objects` are the keys present in the bucket; `headFails k` and
`deleteFails k` tell whether `HeadObject` and `DeleteObject` on `k` fail for a
reason of their own (network, credentials); `presignFails k` whether
`PresignPutObject` fails. -/
structure S3 where
  S3Client : Bool
  objects : List String
  headFails : String → Bool
  deleteFails : String → Bool
  presignFails : String → Bool

/-- `IsFileExists`: `HeadObject` errs on an absent key, so the function
returns `(true, nil)` or `(false, err)`. -/
def IsFileExists (s3 : S3) (objectKey : String) : Bool × Option String :=
  if !s3.S3Client then
    (false, some "storage client not initialized. Call InitStorage() first")
  else if s3.headFails objectKey || !s3.objects.contains objectKey then
    (false, some "failed to check if file exists")
  else (true, none)

/-- `DeleteFile`: the error, if any, and the bucket afterwards. -/
def DeleteFile (s3 : S3) (objectKey : String) : Option String × S3 :=
  if !s3.S3Client then
    (some "storage client not initialized. Call InitStorage() first", s3)
  else if objectKey = "" then (some "object key cannot be empty", s3)
  else if s3.deleteFails objectKey then (some "failed to delete file", s3)
  else (none, { s3 with objects := s3.objects.filter (fun k => k ≠ objectKey) })

/-- `GeneratePresignedUploadURL`: the URL or an error.  The signed URL is
computed by the SDK; the model keeps the object key it was signed for. -/
def GeneratePresignedUploadURL (s3 : S3) (objectKey : String) : Except String String :=
  if !s3.S3Client then
    Except.error "storage client not initialized. Call InitStorage() first"
  else if s3.presignFails objectKey then Except.error "failed to generate presigned URL"
  else Except.ok ("presigned-put:" ++ objectKey)

/-! ## Outcome of a handler -/

/-- What a handler of `Events/Videos` leaves behind. -/
structure Outcome where
  response : Response
  store : Store
  s3 : S3
  log : List String

/-! ## `Upload` (BeginUpload) -/

/-- Failure of the statements of `Upload`, in source order. -/
structure UploadFaults where
  userSelectErr : Bool
  insertErr : Bool
deriving DecidableEq, Repr

/-- Handler `Upload` of `Events/Videos/Videos.go`.  `claims` is the result of
`Auth.GetClaims` (`none` when `auth` is false), `videoID` the hex digest
computed at line 81 and `body` the struct decoded from the request (`none`
when `json.NewDecoder(r.Body).Decode` fails). -/
def Upload (f : UploadFaults) (s3 : S3) (now : Nat) (videoID : String)
    (claims : Option String) (body : Option Videos) (db : Store) : Outcome :=
  match claims with
  | none => ⟨Response.error 401 "Unauthorized", db, s3, []⟩
  | some uid =>
    match queryRow f.userSelectErr (fun u => decide (u.UID = uid)) db.users with
    | QueryRow.errNoRows => ⟨Response.error 404 "User not found", db, s3, []⟩
    | QueryRow.dbError =>
      ⟨Response.error 500 "Failed to fetch user", db, s3, ["Upload: failed to fetch user"]⟩
    | QueryRow.row user =>
      match body with
      | none =>
        ⟨Response.error 400 "Failed to decode video", db, s3, ["Upload: failed to decode video"]⟩
      | some decoded =>
        let video : Videos :=
          { decoded with
            VideoID := videoID
            VideoURL := "videos/" ++ videoID
            VideoThumbnail := "thumbnails/videos/" ++ videoID ++ ".jpg"
            UserUID := uid
            UserUsername := user.Username
            CreatedAt := now
            UpdatedAt := now }
        if f.insertErr then
          ⟨Response.error 500 "Failed to insert video on upload", db, s3,
            ["Upload: failed to insert video on upload"]⟩
        else
          let db1 : Store := { db with video_on_upload := db.video_on_upload ++ [video] }
          match GeneratePresignedUploadURL s3 video.VideoURL with
          | Except.error _ =>
            ⟨Response.error 500 "Failed to generate presigned upload URL", db1, s3,
              ["Upload: failed to generate presigned upload URL"]⟩
          | Except.ok gatewayURL =>
            match GeneratePresignedUploadURL s3 video.VideoThumbnail with
            | Except.error _ =>
              ⟨Response.error 500 "Failed to generate presigned upload URL for thumbnail", db1, s3,
                ["Upload: failed to generate presigned upload URL for thumbnail"]⟩
            | Except.ok gatewayURL_thumbnail =>
              ⟨Response.success
                [("message", "bridge created"), ("bridge_id", videoID),
                 ("gateway_url", gatewayURL), ("gateway_url_thumbnail", gatewayURL_thumbnail)],
               db1, s3, []⟩

/-! ## `UploadACK` (Acknowledge) -/

/-- Failure of the statements of `UploadACK`, in source order, and of the
detached `Search.IndexVideo` call. -/
structure AckFaults where
  selectErr : Bool
  deleteErr : Bool
  insertErr : Bool
  updateErr : Bool
  indexErr : Bool
deriving DecidableEq, Repr

/-- `UPDATE users SET total_videos = total_videos + d WHERE uid = $1`. -/
def addTotalVideos (uid : String) (d : Int) (users : List User) : List User :=
  users.map (fun u => if u.UID = uid then { u with TotalVideos := u.TotalVideos + d } else u)

/-- Handler `UploadACK` of `Events/Videos/Videos.go`.  The staged row is read
into `temp_video` with `video_tags` going through `StringArray.Scan` (lines
174-176), and `temp_video.VideoTags` is written to `videos` through
`StringArray.Value` (lines 212-213): the published row holds the tags as
scanned, not as staged. -/
def UploadACK (f : AckFaults) (s3 : S3) (now : Nat)
    (claims : Option String) (videoID : String) (db : Store) : Outcome :=
  match claims with
  | none => ⟨Response.error 401 "Unauthorized", db, s3, []⟩
  | some uid =>
    if videoID = "" then ⟨Response.error 400 "Video ID is required", db, s3, []⟩
    else
      let video_obj_key := "videos/" ++ videoID
      let thumbnail_obj_key := "thumbnails/videos/" ++ videoID ++ ".jpg"
      let video_exists := IsFileExists s3 video_obj_key
      if video_exists.2.isSome || !video_exists.1 then
        ⟨Response.error 404 "Video file not found", db, s3, ["UploadACK: video file not found"]⟩
      else
        let thumbnail_exists := IsFileExists s3 thumbnail_obj_key
        if thumbnail_exists.2.isSome || !thumbnail_exists.1 then
          ⟨Response.error 404 "Thumbnail file not found", db, s3,
            ["UploadACK: thumbnail file not found"]⟩
        else
          match queryRow f.selectErr (fun v => decide (v.VideoID = videoID)) db.video_on_upload with
          | QueryRow.errNoRows => ⟨Response.error 404 "Video not found", db, s3, []⟩
          | QueryRow.dbError =>
            ⟨Response.error 500 "Failed to fetch video", db, s3, ["UploadACK: failed to fetch video"]⟩
          | QueryRow.row fetched =>
            if fetched.UserUID ≠ uid then
              ⟨Response.error 403 "Forbidden: you do not own this video", db, s3, []⟩
            else if f.deleteErr then
              ⟨Response.error 500 "Failed to delete video on upload", db, s3,
                ["UploadACK: failed to delete video on upload"]⟩
            else
              let db1 : Store :=
                { db with video_on_upload := db.video_on_upload.filter (fun v => v.VideoID ≠ videoID) }
              let temp_video : Videos :=
                { fetched with
                  VideoTags := scannedTags fetched.VideoTags
                  UpdatedAt := now
                  VideoURL := video_obj_key }
              if f.insertErr then
                ⟨Response.error 500 "Failed to insert video", db1, s3,
                  ["UploadACK: failed to insert video"]⟩
              else
                let db2 : Store := { db1 with videos := db1.videos ++ [temp_video] }
                if f.updateErr then
                  ⟨Response.error 500 "Failed to update user", db2, s3,
                    ["UploadACK: failed to update user total_videos"]⟩
                else
                  let db3 : Store :=
                    { db2 with users := addTotalVideos temp_video.UserUID 1 db2.users }
                  ⟨Response.success [("message", "video uploaded")], db3, s3,
                    if f.indexErr then ["UploadACK: failed to index video in Elasticsearch"] else []⟩

/-! ## `Delete` -/

/-- Failure of the statements of `Delete`, in source order, and of the
detached `Search.DeleteVideo` call. -/
structure DeleteFaults where
  selectErr : Bool
  deleteErr : Bool
  updateErr : Bool
  indexErr : Bool
deriving DecidableEq, Repr

/-- The block of `Delete` that removes one asset (lines 305-320 for the video,
323-338 for the thumbnail): `present` is the result of the earlier
`IsFileExists`; the bucket afterwards and the lines logged. -/
def deleteAsset (s3 : S3) (present : Bool) (objectKey : String) (what : String) :
    S3 × List String :=
  if present then
    match DeleteFile s3 objectKey with
    | (some _, s3a) =>
      (s3a, ["Delete: CRITICAL ERROR - failed to delete " ++ what ++ " file from storage"])
    | (none, s3a) =>
      let check := IsFileExists s3a objectKey
      if check.2.isNone && check.1 then
        (s3a, ["Delete: CRITICAL WARNING - " ++ what ++ " file still exists after deletion attempt"])
      else (s3a, ["Delete: successfully deleted and verified " ++ what ++ " file"])
  else (s3, ["Delete: " ++ what ++ " file does not exist in R2, skipping deletion"])

/-- `DELETE FROM videos WHERE video_id = $1`.  The foreign keys of `upvotes`,
`downvotes`, `comments` and `views` are `ON DELETE CASCADE`, and so is the one
of `replies` on `comments` (comment at lines 341-345 of `Videos.go`), so the
reactions, comments, replies to these comments and views of the video go with
it. -/
def deleteVideoCascade (videoID : String) (db : Store) : Store :=
  { db with
    videos := db.videos.filter (fun v => v.VideoID ≠ videoID)
    upvotes := db.upvotes.filter (fun u => u.UpvotedTo ≠ videoID)
    downvotes := db.downvotes.filter (fun d => d.DownvotedTo ≠ videoID)
    comments := db.comments.filter (fun c => c.CommentedTo ≠ videoID)
    replies := db.replies.filter (fun r =>
      !db.comments.any (fun c =>
        decide (c.CommentID = r.RepliedTo) && decide (c.CommentedTo = videoID)))
    views := db.views.filter (fun v => v.ViewedTo ≠ videoID) }

/-- Handler `Delete` of `Events/Videos/Videos.go`. -/
def Delete (f : DeleteFaults) (s3 : S3) (claims : Option String) (videoID : String)
    (db : Store) : Outcome :=
  match claims with
  | none => ⟨Response.error 401 "Unauthorized", db, s3, []⟩
  | some uid =>
    if videoID = "" then ⟨Response.error 400 "Video ID is required", db, s3, []⟩
    else
      match queryRow f.selectErr (fun v => decide (v.VideoID = videoID)) db.videos with
      | QueryRow.errNoRows => ⟨Response.error 404 "Video not found", db, s3, []⟩
      | QueryRow.dbError =>
        ⟨Response.error 500 "Failed to fetch video", db, s3, ["Delete: failed to fetch video"]⟩
      | QueryRow.row video =>
        if video.UserUID ≠ uid then
          ⟨Response.error 403 "Forbidden: you do not own this video", db, s3, []⟩
        else
          let video_obj_key := video.VideoURL
          let thumbnail_obj_key := video.VideoThumbnail
          let log0 := ["Delete: Video URL from DB", "Delete: Thumbnail URL from DB"]
          let videoExists := (IsFileExists s3 video_obj_key).1
          let thumbnailExists := (IsFileExists s3 thumbnail_obj_key).1
          let log1 := log0 ++ ["Delete: Video exists in R2, Thumbnail exists in R2"]
          let a := deleteAsset s3 videoExists video_obj_key "video"
          let b := deleteAsset a.1 thumbnailExists thumbnail_obj_key "thumbnail"
          let log2 := log1 ++ a.2 ++ b.2
          if f.deleteErr then
            ⟨Response.error 500 "Failed to delete video", db, b.1,
              log2 ++ ["Delete: failed to delete video"]⟩
          else
            let db1 := deleteVideoCascade videoID db
            let db2 : Store :=
              if f.updateErr then db1
              else { db1 with users := addTotalVideos video.UserUID (-1) db1.users }
            let log3 :=
              if f.updateErr then log2 ++ ["Delete: warning - failed to update user total_videos"]
              else log2
            ⟨Response.success [("message", "video deleted")], db2, b.1,
              if f.indexErr then log3 ++ ["Delete: failed to delete video from Elasticsearch"]
              else log3⟩

/-! ## `Upvote` and `Downvote` (SetUpvote, SetDownvote) -/

/-- What a handler of `Events/Social` leaves behind. -/
structure SocialOutcome where
  response : Response
  store : Store
  log : List String

/-- Failure of the statements of `Upvote` (and of `Downvote`), in source
order: the video lookup, the lookup of the same-kind vote, the `DELETE` of the
opposite vote, the `UPDATE` that decrements the opposite counter, the `INSERT`
of the vote and the `UPDATE` that increments its counter.  The `DELETE` and the
decrement occur twice in the source (lines 91-101 and 119-133); one call
executes at most one of each.  `result.RowsAffected()` is the number of rows
the `DELETE` removed (the `lib/pq` result never returns an error there). -/
structure VoteFaults where
  videoSelectErr : Bool
  voteSelectErr : Bool
  delErr : Bool
  updErr : Bool
  insertErr : Bool
  updateErr : Bool
deriving DecidableEq, Repr

/-- `UPDATE videos SET video_upvotes = video_upvotes + d WHERE video_id = $1`. -/
def addVideoUpvotes (videoID : String) (d : Int) (videos : List Videos) : List Videos :=
  videos.map (fun v =>
    if v.VideoID = videoID then { v with VideoUpvotes := v.VideoUpvotes + d } else v)

/-- `UPDATE videos SET video_downvotes = video_downvotes + d WHERE video_id = $1`. -/
def addVideoDownvotes (videoID : String) (d : Int) (videos : List Videos) : List Videos :=
  videos.map (fun v =>
    if v.VideoID = videoID then { v with VideoDownvotes := v.VideoDownvotes + d } else v)

/-- `DELETE FROM upvotes WHERE upvoted_by = $1 AND upvoted_to = $2`. -/
def deleteUpvotes (uid videoID : String) (t : List Upvotes) : List Upvotes :=
  t.filter (fun u => !(decide (u.UpvotedBy = uid) && decide (u.UpvotedTo = videoID)))

/-- `DELETE FROM downvotes WHERE downvoted_by = $1 AND downvoted_to = $2`. -/
def deleteDownvotes (uid videoID : String) (t : List Downvotes) : List Downvotes :=
  t.filter (fun d => !(decide (d.DownvotedBy = uid) && decide (d.DownvotedTo = videoID)))

/-- `INSERT INTO upvotes ... ON CONFLICT DO NOTHING`.  The conflict target is
the `UNIQUE (upvoted_by, upvoted_to)` constraint of the migrations (named by
the comment at line 141 of `SocialVideos.go`). -/
def insertUpvote (uid videoID : String) (now : Nat) (t : List Upvotes) : List Upvotes :=
  if t.any (fun u => decide (u.UpvotedBy = uid) && decide (u.UpvotedTo = videoID)) then t
  else t ++ [{ UpvotedBy := uid, UpvotedTo := videoID, UpvotedAt := now }]

/-- `INSERT INTO downvotes ... ON CONFLICT DO NOTHING`, on the
`UNIQUE (downvoted_by, downvoted_to)` constraint. -/
def insertDownvote (uid videoID : String) (now : Nat) (t : List Downvotes) : List Downvotes :=
  if t.any (fun d => decide (d.DownvotedBy = uid) && decide (d.DownvotedTo = videoID)) then t
  else t ++ [{ DownvotedBy := uid, DownvotedTo := videoID, DownvotedAt := now }]

/-- Handler `Upvote` of `Events/Social/SocialVideos.go`. -/
def Upvote (f : VoteFaults) (now : Nat) (claims : Option String) (videoID : String)
    (db : Store) : SocialOutcome :=
  match claims with
  | none => ⟨Response.error 401 "Unauthorized", db, []⟩
  | some uid =>
    if videoID = "" then ⟨Response.error 400 "Video ID is required", db, []⟩
    else
      match queryRow f.videoSelectErr (fun v => decide (v.VideoID = videoID)) db.videos with
      | QueryRow.errNoRows => ⟨Response.error 404 "Video not found", db, []⟩
      | QueryRow.dbError =>
        ⟨Response.error 500 "Failed to fetch video", db, ["Upvote: failed to fetch video"]⟩
      | QueryRow.row _ =>
        let db1 : Store := { db with downvotes := deleteDownvotes uid videoID db.downvotes }
        let rowsAffected := db.downvotes.length - db1.downvotes.length
        match queryRow f.voteSelectErr
            (fun u => decide (u.UpvotedBy = uid) && decide (u.UpvotedTo = videoID)) db.upvotes with
        | QueryRow.row _ =>
          if f.delErr then
            ⟨Response.success [("message", "Already upvoted, downvote removed if existed")], db, []⟩
          else if rowsAffected > 0 then
            if f.updErr then
              ⟨Response.error 500 "Failed to update video downvotes", db1,
                ["Upvote: failed to update video downvotes"]⟩
            else
              ⟨Response.success [("message", "Already upvoted, downvote removed if existed")],
                { db1 with videos := addVideoDownvotes videoID (-1) db1.videos }, []⟩
          else
            ⟨Response.success [("message", "Already upvoted, downvote removed if existed")], db1, []⟩
        | QueryRow.dbError =>
          ⟨Response.error 500 "Failed to check existing upvote", db,
            ["Upvote: failed to check existing upvote"]⟩
        | QueryRow.errNoRows =>
          if f.delErr then
            ⟨Response.error 500 "Failed to remove previous downvote", db,
              ["Upvote: failed to remove previous downvote"]⟩
          else if decide (rowsAffected > 0) && f.updErr then
            ⟨Response.error 500 "Failed to update video downvotes", db1,
              ["Upvote: failed to update video downvotes"]⟩
          else
            let db2 : Store :=
              if rowsAffected > 0 then
                { db1 with videos := addVideoDownvotes videoID (-1) db1.videos }
              else db1
            if f.insertErr then
              ⟨Response.error 500 "Failed to upvote video", db2, ["Upvote: failed to upvote video"]⟩
            else
              let db3 : Store := { db2 with upvotes := insertUpvote uid videoID now db2.upvotes }
              if f.updateErr then
                ⟨Response.error 500 "Failed to update video", db3, ["Upvote: failed to update video"]⟩
              else
                ⟨Response.success [("message", "Video upvoted")],
                  { db3 with videos := addVideoUpvotes videoID 1 db3.videos }, []⟩

/-- Handler `Downvote` of `Events/Social/SocialVideos.go`. -/
def Downvote (f : VoteFaults) (now : Nat) (claims : Option String) (videoID : String)
    (db : Store) : SocialOutcome :=
  match claims with
  | none => ⟨Response.error 401 "Unauthorized", db, []⟩
  | some uid =>
    if videoID = "" then ⟨Response.error 400 "Video ID is required", db, []⟩
    else
      match queryRow f.videoSelectErr (fun v => decide (v.VideoID = videoID)) db.videos with
      | QueryRow.errNoRows => ⟨Response.error 404 "Video not found", db, []⟩
      | QueryRow.dbError =>
        ⟨Response.error 500 "Failed to fetch video", db, ["Downvote: failed to fetch video"]⟩
      | QueryRow.row _ =>
        let db1 : Store := { db with upvotes := deleteUpvotes uid videoID db.upvotes }
        let rowsAffected := db.upvotes.length - db1.upvotes.length
        match queryRow f.voteSelectErr
            (fun d => decide (d.DownvotedBy = uid) && decide (d.DownvotedTo = videoID))
            db.downvotes with
        | QueryRow.row _ =>
          if f.delErr then
            ⟨Response.success [("message", "Already downvoted, upvote removed if existed")], db, []⟩
          else if rowsAffected > 0 then
            if f.updErr then
              ⟨Response.error 500 "Failed to update video upvotes", db1,
                ["Downvote: failed to update video upvotes"]⟩
            else
              ⟨Response.success [("message", "Already downvoted, upvote removed if existed")],
                { db1 with videos := addVideoUpvotes videoID (-1) db1.videos }, []⟩
          else
            ⟨Response.success [("message", "Already downvoted, upvote removed if existed")], db1, []⟩
        | QueryRow.dbError =>
          ⟨Response.error 500 "Failed to check existing downvote", db,
            ["Downvote: failed to check existing downvote"]⟩
        | QueryRow.errNoRows =>
          if f.delErr then
            ⟨Response.error 500 "Failed to remove previous upvote", db,
              ["Downvote: failed to remove previous upvote"]⟩
          else if decide (rowsAffected > 0) && f.updErr then
            ⟨Response.error 500 "Failed to update video upvotes", db1,
              ["Downvote: failed to update video upvotes"]⟩
          else
            let db2 : Store :=
              if rowsAffected > 0 then
                { db1 with videos := addVideoUpvotes videoID (-1) db1.videos }
              else db1
            if f.insertErr then
              ⟨Response.error 500 "Failed to downvote video", db2,
                ["Downvote: failed to downvote video"]⟩
            else
              let db3 : Store :=
                { db2 with downvotes := insertDownvote uid videoID now db2.downvotes }
              if f.updateErr then
                ⟨Response.error 500 "Failed to update video", db3,
                  ["Downvote: failed to update video"]⟩
              else
                ⟨Response.success [("message", "Video downvoted")],
                  { db3 with videos := addVideoDownvotes videoID 1 db3.videos }, []⟩

/-! ## `Comment` and `Reply` -/

/-- The request body as `Comment` and `Reply` see it: `io.ReadAll` may fail,
`json.Unmarshal` into a `map[string]interface{}` may fail, and otherwise the
body is a map.  Of each value the handlers only use the type assertion
`.(string)`, so a key is mapped to `some s` when its value is the JSON string
`s` and to `none` when it is any other JSON value. -/
inductive Body where
  | unreadable
  | malformed
  | object (fields : List (String × Option String))
deriving DecidableEq, Repr

/-- The Go expression `m[key].(string)`: the string, when the key is present
and its value is a string (`ok` is true), `none` otherwise. -/
def stringField (fields : List (String × Option String)) (key : String) : Option String :=
  match fields.lookup key with
  | some (some text) => some text
  | _ => none

/-- Failure of the statements of `Comment`, in source order. -/
structure CommentFaults where
  videoSelectErr : Bool
  userSelectErr : Bool
  insertErr : Bool
  updateErr : Bool
deriving DecidableEq, Repr

/-- `UPDATE videos SET video_comments = video_comments + d WHERE video_id = $1`. -/
def addVideoComments (videoID : String) (d : Int) (videos : List Videos) : List Videos :=
  videos.map (fun v =>
    if v.VideoID = videoID then { v with VideoComments := v.VideoComments + d } else v)

/-- Handler `Comment` of `Events/Social/SocialVideos.go`.  `commentID` is the
hex digest computed at line 367. -/
def Comment (f : CommentFaults) (now : Nat) (commentID : String) (claims : Option String)
    (videoID : String) (body : Body) (db : Store) : SocialOutcome :=
  match claims with
  | none => ⟨Response.error 401 "Unauthorized", db, []⟩
  | some uid =>
    if videoID = "" then ⟨Response.error 400 "Video ID is required", db, []⟩
    else
      match body with
      | Body.unreadable =>
        ⟨Response.error 500 "Failed to read body", db, ["Comment: failed to read body"]⟩
      | Body.malformed => ⟨Response.error 400 "Failed to unmarshal body", db, []⟩
      | Body.object comment =>
        match queryRow f.videoSelectErr (fun v => decide (v.VideoID = videoID)) db.videos with
        | QueryRow.errNoRows => ⟨Response.error 404 "Video not found", db, []⟩
        | QueryRow.dbError =>
          ⟨Response.error 500 "Failed to fetch video", db, ["Comment: failed to fetch video"]⟩
        | QueryRow.row _ =>
          match queryRow f.userSelectErr (fun u => decide (u.UID = uid)) db.users with
          | QueryRow.errNoRows => ⟨Response.error 404 "User not found", db, []⟩
          | QueryRow.dbError =>
            ⟨Response.error 500 "Failed to fetch user", db, ["Comment: failed to fetch user"]⟩
          | QueryRow.row user =>
            match stringField comment "comment" with
            | none => ⟨Response.error 400 "Comment text is required", db, []⟩
            | some commentText =>
              if f.insertErr then
                ⟨Response.error 500 "Failed to comment on video", db,
                  ["Comment: failed to comment on video"]⟩
              else
                let db1 : Store :=
                  { db with
                    comments := db.comments ++
                      [{ CommentID := commentID, CommentedBy := uid, CommentedTo := videoID
                         CommentedAt := now, Comment := commentText
                         CommentByUsername := user.Username, TotalReplies := 0 }] }
                if f.updateErr then
                  ⟨Response.error 500 "Failed to update video", db1,
                    ["Comment: failed to update video"]⟩
                else
                  ⟨Response.success [("message", "Video commented")],
                    { db1 with videos := addVideoComments videoID 1 db1.videos }, []⟩

/-- Failure of the statements of `Reply`, in source order: the comment lookup,
the user lookup, the lookup of an existing reply, the `UPDATE replies`, the
`INSERT INTO replies` and the `UPDATE comments`. -/
structure ReplyFaults where
  commentSelectErr : Bool
  userSelectErr : Bool
  replySelectErr : Bool
  updateReplyErr : Bool
  insertErr : Bool
  updateErr : Bool
deriving DecidableEq, Repr

/-- `UPDATE replies SET reply = $1 WHERE replied_to = $2 AND replied_by = $3`. -/
def updateReply (replyText commentID uid : String) (t : List Replies) : List Replies :=
  t.map (fun r =>
    if r.RepliedTo = commentID ∧ r.RepliedBy = uid then { r with Reply := replyText } else r)

/-- `UPDATE comments SET total_replies = total_replies + d WHERE comment_id = $1`. -/
def addTotalReplies (commentID : String) (d : Int) (comments : List Comments) : List Comments :=
  comments.map (fun c =>
    if c.CommentID = commentID then { c with TotalReplies := c.TotalReplies + d } else c)

/-- Handler `Reply` of `Events/Social/SocialVideos.go`.  `replyID` is the hex
digest computed at line 505. -/
def Reply (f : ReplyFaults) (now : Nat) (replyID : String) (claims : Option String)
    (commentID : String) (body : Body) (db : Store) : SocialOutcome :=
  match claims with
  | none => ⟨Response.error 401 "Unauthorized", db, []⟩
  | some uid =>
    if commentID = "" then ⟨Response.error 400 "Comment ID is required", db, []⟩
    else
      match body with
      | Body.unreadable =>
        ⟨Response.error 500 "Failed to read body", db, ["Reply: failed to read body"]⟩
      | Body.malformed => ⟨Response.error 400 "Failed to unmarshal body", db, []⟩
      | Body.object reply =>
        match queryRow f.commentSelectErr (fun c => decide (c.CommentID = commentID))
            db.comments with
        | QueryRow.errNoRows => ⟨Response.error 404 "Comment not found", db, []⟩
        | QueryRow.dbError =>
          ⟨Response.error 500 "Failed to fetch comment", db, ["Reply: failed to fetch comment"]⟩
        | QueryRow.row _ =>
          match queryRow f.userSelectErr (fun u => decide (u.UID = uid)) db.users with
          | QueryRow.errNoRows => ⟨Response.error 404 "User not found", db, []⟩
          | QueryRow.dbError =>
            ⟨Response.error 500 "Failed to fetch user", db, ["Reply: failed to fetch user"]⟩
          | QueryRow.row user =>
            match stringField reply "reply" with
            | none => ⟨Response.error 400 "Reply text is required", db, []⟩
            | some replyText =>
              match queryRow f.replySelectErr
                  (fun r => decide (r.RepliedTo = commentID) && decide (r.RepliedBy = uid))
                  db.replies with
              | QueryRow.row _ =>
                if f.updateReplyErr then
                  ⟨Response.error 500 "Failed to update reply to comment", db,
                    ["Reply: failed to update reply"]⟩
                else
                  ⟨Response.success [("message", "Reply updated")],
                    { db with replies := updateReply replyText commentID uid db.replies }, []⟩
              | QueryRow.dbError =>
                ⟨Response.error 500 "Failed to check existing reply", db,
                  ["Reply: failed to check existing reply"]⟩
              | QueryRow.errNoRows =>
                if f.insertErr then
                  ⟨Response.error 500 "Failed to insert reply", db,
                    ["Reply: failed to insert reply"]⟩
                else
                  let db1 : Store :=
                    { db with
                      replies := db.replies ++
                        [{ ReplyID := replyID, RepliedBy := uid, RepliedTo := commentID
                           RepliedAt := now, Reply := replyText
                           ReplyByUsername := user.Username }] }
                  if f.updateErr then
                    ⟨Response.error 500 "Failed to update comment", db1,
                      ["Reply: failed to update comment"]⟩
                  else
                    ⟨Response.success [("message", "Reply added")],
                      { db1 with comments := addTotalReplies commentID 1 db1.comments }, []⟩

/-! ## `View` (RecordView) -/

/-- `UPDATE videos SET video_views = video_views + d WHERE video_id = $1`. -/
def addVideoViews (videoID : String) (d : Int) (videos : List Videos) : List Videos :=
  videos.map (fun v =>
    if v.VideoID = videoID then { v with VideoViews := v.VideoViews + d } else v)

/-- Function `View` of `Events/Social/SocialVideos.go`: the error it returns
(`none` for nil) and the store afterwards.  `fails` tells whether the `UPDATE`
returns an error; `_auth` and `_claims` are the arguments `auth` and `claims`,
which the function receives and never reads. -/
def View (fails : Bool) (_auth : Bool) (_claims : Option String) (videoID : String)
    (db : Store) : Option String × Store :=
  if fails then (some "UPDATE videos failed", db)
  else (none, { db with videos := addVideoViews videoID 1 db.videos })

/-! ## `ResyncCounters` (Reconcile) -/

/-- A row of `system_counters`, with the columns named by `GetCounters` and
`ResyncCounters` of `Events/Admin/Admin.go`.  The table is kept apart from
`Store`: by the comment at line 1353 it is also maintained by database
triggers, which are not part of the sources. -/
structure SystemCounters where
  ID : Int
  UsersCount : Int
  VideosCount : Int
  CommentsCount : Int
  RepliesCount : Int
  UpvotesCount : Int
  DownvotesCount : Int
  ViewsCount : Int
  UpdatedAt : Nat
deriving DecidableEq, Repr

/-- What a handler of `Events/Admin` leaves behind. -/
structure AdminOutcome where
  response : Response
  store : Store
  system_counters : List SystemCounters
  log : List String

/-- Function `requireAdmin` of `Events/Admin/Admin.go`: the user, or the error
response written. -/
def requireAdmin (userSelectErr : Bool) (claims : Option String) (db : Store) :
    Except (Response × List String) User :=
  match claims with
  | none => Except.error (Response.error 401 "Unauthorized", [])
  | some uid =>
    match queryRow userSelectErr (fun u => decide (u.UID = uid)) db.users with
    | QueryRow.errNoRows => Except.error (Response.error 404 "User not found", [])
    | QueryRow.dbError =>
      Except.error (Response.error 500 "Failed to fetch user", ["requireAdmin: failed to fetch user"])
    | QueryRow.row user =>
      if user.Role ≠ "admin" then
        Except.error (Response.error 403 "Forbidden: admin access required", [])
      else Except.ok user

/-- Failure of the steps of `ResyncCounters`, in source order: the user lookup
of `requireAdmin`, `BeginTx`, the `INSERT ... ON CONFLICT`, the `UPDATE` and
`Commit`. -/
structure ResyncFaults where
  userSelectErr : Bool
  beginErr : Bool
  insertErr : Bool
  updateErr : Bool
  commitErr : Bool
deriving DecidableEq, Repr

/-- `INSERT INTO system_counters (id, ...) VALUES (1, 0, 0, 0, 0, 0, 0, 0)
ON CONFLICT (id) DO NOTHING`.  `updated_at` is not listed and takes the column
default, the time of the transaction. -/
def ensureCounterRow (now : Nat) (t : List SystemCounters) : List SystemCounters :=
  if t.any (fun c => decide (c.ID = 1)) then t
  else t ++ [{ ID := 1, UsersCount := 0, VideosCount := 0, CommentsCount := 0, RepliesCount := 0
               UpvotesCount := 0, DownvotesCount := 0, ViewsCount := 0, UpdatedAt := now }]

/-- The `UPDATE system_counters SET users_count = (SELECT COUNT(*) FROM users),
... , updated_at = CURRENT_TIMESTAMP WHERE id = 1` of lines 1436-1447. -/
def resyncCounterRow (now : Nat) (db : Store) (t : List SystemCounters) : List SystemCounters :=
  t.map (fun c =>
    if c.ID = 1 then
      { c with
        UsersCount := db.users.length
        VideosCount := db.videos.length
        CommentsCount := db.comments.length
        RepliesCount := db.replies.length
        UpvotesCount := db.upvotes.length
        DownvotesCount := db.downvotes.length
        ViewsCount := db.views.length
        UpdatedAt := now }
    else c)

/-- Handler `ResyncCounters` of `Events/Admin/Admin.go`.  The two statements
run in one transaction: unless `Commit` succeeds, the deferred `Rollback`
leaves `system_counters` as it was. -/
def ResyncCounters (f : ResyncFaults) (now : Nat) (claims : Option String) (db : Store)
    (counters : List SystemCounters) : AdminOutcome :=
  match requireAdmin f.userSelectErr claims db with
  | Except.error e => ⟨e.1, db, counters, e.2⟩
  | Except.ok _ =>
    if f.beginErr then
      ⟨Response.error 500 "Failed to start transaction", db, counters,
        ["ResyncCounters: failed to begin transaction"]⟩
    else if f.insertErr then
      ⟨Response.error 500 "Failed to initialize counters", db, counters,
        ["ResyncCounters: failed to ensure counter row exists"]⟩
    else
      let tx1 := ensureCounterRow now counters
      if f.updateErr then
        ⟨Response.error 500 "Failed to resync counters", db, counters,
          ["ResyncCounters: failed to resync counters"]⟩
      else
        let tx2 := resyncCounterRow now db tx1
        if f.commitErr then
          ⟨Response.error 500 "Failed to complete resync", db, counters,
            ["ResyncCounters: failed to commit transaction"]⟩
        else
          ⟨Response.success [("message", "Counters resynced successfully")], db, tx2, []⟩

/-! ## Predicates on stores and storage used in the statements -/

/-- The outcome of one `IsFileExists` call as `UploadACK` reads it at lines 153
and 160: an error, or `false`. -/
def reportsMissing (r : Bool × Option String) : Bool := r.2.isSome || !r.1

/-- Both existence checks of `UploadACK` pass for `videoID`. -/
def assetsPresent (s3 : S3) (videoID : String) : Bool :=
  !reportsMissing (IsFileExists s3 ("videos/" ++ videoID)) &&
    !reportsMissing (IsFileExists s3 ("thumbnails/videos/" ++ videoID ++ ".jpg"))

/-- The response is `Utils.SendSuccessResponse`. -/
def Response.isSuccess : Response → Bool
  | Response.success _ => true
  | Response.error _ _ => false

/-- Some row of `video_on_upload` has this `video_id`. -/
def isStaged (videoID : String) (db : Store) : Prop :=
  ∃ v ∈ db.video_on_upload, v.VideoID = videoID

/-- Some row of `videos` has this `video_id`. -/
def isPublished (videoID : String) (db : Store) : Prop :=
  ∃ v ∈ db.videos, v.VideoID = videoID

instance (videoID : String) (db : Store) : Decidable (isStaged videoID db) := by
  unfold isStaged; infer_instance

instance (videoID : String) (db : Store) : Decidable (isPublished videoID db) := by
  unfold isPublished; infer_instance

/-- No `video_id` is in both `video_on_upload` and `videos`. -/
def NoIdInBoth (db : Store) : Prop :=
  ∀ s ∈ db.video_on_upload, ∀ p ∈ db.videos, s.VideoID ≠ p.VideoID

instance (db : Store) : Decidable (NoIdInBoth db) := by
  unfold NoIdInBoth; infer_instance

/-- One step of the publication protocol: a call of `Upload` whose generated
id is in neither table, a call of `UploadACK` or a call of `Delete`, with any
arguments, any bucket and any failing statements. -/
inductive PublicationStep (db : Store) : Store → Prop where
  | upload (f : UploadFaults) (s3 : S3) (now : Nat) (videoID : String)
      (claims : Option String) (body : Option Videos)
      (fresh : ¬ isStaged videoID db ∧ ¬ isPublished videoID db) :
      PublicationStep db (Upload f s3 now videoID claims body db).store
  | acknowledge (f : AckFaults) (s3 : S3) (now : Nat) (claims : Option String)
      (videoID : String) :
      PublicationStep db (UploadACK f s3 now claims videoID db).store
  | delete (f : DeleteFaults) (s3 : S3) (claims : Option String) (videoID : String) :
      PublicationStep db (Delete f s3 claims videoID db).store

/-- Number of `upvotes` rows of `uid` on `videoID`. -/
def upvoteEdges (uid videoID : String) (db : Store) : Nat :=
  db.upvotes.countP (fun u => decide (u.UpvotedBy = uid) && decide (u.UpvotedTo = videoID))

/-- Number of `downvotes` rows of `uid` on `videoID`. -/
def downvoteEdges (uid videoID : String) (db : Store) : Nat :=
  db.downvotes.countP (fun d => decide (d.DownvotedBy = uid) && decide (d.DownvotedTo = videoID))

/-- No (actor, target) pair has both an `upvotes` row and a `downvotes` row. -/
def MutualExclusion (db : Store) : Prop :=
  ∀ u ∈ db.upvotes, ∀ d ∈ db.downvotes,
    ¬ (u.UpvotedBy = d.DownvotedBy ∧ u.UpvotedTo = d.DownvotedTo)

instance (db : Store) : Decidable (MutualExclusion db) := by
  unfold MutualExclusion; infer_instance

/-- Number of `upvotes` rows targeting `videoID`. -/
def upvotesTo (videoID : String) (t : List Upvotes) : Nat :=
  t.countP (fun u => decide (u.UpvotedTo = videoID))

/-- Number of `downvotes` rows targeting `videoID`. -/
def downvotesTo (videoID : String) (t : List Downvotes) : Nat :=
  t.countP (fun d => decide (d.DownvotedTo = videoID))

/-- Every video's `video_upvotes` and `video_downvotes` equal the number of
`upvotes` and `downvotes` rows targeting it. -/
def CountersMatch (db : Store) : Prop :=
  ∀ v ∈ db.videos,
    v.VideoUpvotes = (upvotesTo v.VideoID db.upvotes : Int) ∧
    v.VideoDownvotes = (downvotesTo v.VideoID db.downvotes : Int)

instance (db : Store) : Decidable (CountersMatch db) := by
  unfold CountersMatch; infer_instance

/-- The `UNIQUE (upvoted_by, upvoted_to)` and `UNIQUE (downvoted_by,
downvoted_to)` constraints of the schema hold of the two tables. -/
def UniqueVotes (db : Store) : Prop :=
  (db.upvotes.map (fun u => (u.UpvotedBy, u.UpvotedTo))).Nodup ∧
  (db.downvotes.map (fun d => (d.DownvotedBy, d.DownvotedTo))).Nodup

instance (db : Store) : Decidable (UniqueVotes db) := by
  unfold UniqueVotes; infer_instance

/-- The two reaction kinds. -/
inductive VoteKind where
  | up
  | down
deriving DecidableEq, Repr

/-- One reaction call: `Upvote` or `Downvote`. -/
def SetVote (k : VoteKind) (f : VoteFaults) (now : Nat) (claims : Option String)
    (videoID : String) (db : Store) : SocialOutcome :=
  match k with
  | VoteKind.up => Upvote f now claims videoID db
  | VoteKind.down => Downvote f now claims videoID db

/-- Runs the calls one after the other, all by `uid` on `videoID`; the final
store when every call answered with success, `none` as soon as one did not. -/
def runVotes (uid videoID : String) : List (VoteKind × VoteFaults × Nat) → Store → Option Store
  | [], db => some db
  | (k, f, now) :: rest, db =>
    let out := SetVote k f now (some uid) videoID db
    if out.response.isSuccess then runVotes uid videoID rest out.store else none

/-- The other reaction kind. -/
def VoteKind.opposite : VoteKind → VoteKind
  | VoteKind.up => VoteKind.down
  | VoteKind.down => VoteKind.up

/-- Number of rows of kind `k` of `uid` on `videoID`. -/
def voteEdges (k : VoteKind) (uid videoID : String) (db : Store) : Nat :=
  match k with
  | VoteKind.up => upvoteEdges uid videoID db
  | VoteKind.down => downvoteEdges uid videoID db

/-- The store after the first `n` of the four writes a call of kind `k` by
`uid` on `videoID` makes when every statement succeeds and no vote of kind `k`
exists yet: the `DELETE` of the opposite vote, the decrement of the opposite
counter (issued when the `DELETE` removed a row), the `INSERT` of the vote and
the increment of its counter. -/
def voteWrites (k : VoteKind) (uid videoID : String) (now : Nat) : Nat → Store → Store
  | 0, db => db
  | 1, db =>
    match k with
    | VoteKind.up => { db with downvotes := deleteDownvotes uid videoID db.downvotes }
    | VoteKind.down => { db with upvotes := deleteUpvotes uid videoID db.upvotes }
  | 2, db =>
    let db1 := voteWrites k uid videoID now 1 db
    if voteEdges k.opposite uid videoID db > 0 then
      match k with
      | VoteKind.up => { db1 with videos := addVideoDownvotes videoID (-1) db1.videos }
      | VoteKind.down => { db1 with videos := addVideoUpvotes videoID (-1) db1.videos }
    else db1
  | 3, db =>
    let db2 := voteWrites k uid videoID now 2 db
    match k with
    | VoteKind.up => { db2 with upvotes := insertUpvote uid videoID now db2.upvotes }
    | VoteKind.down => { db2 with downvotes := insertDownvote uid videoID now db2.downvotes }
  | _ + 4, db =>
    let db3 := voteWrites k uid videoID now 3 db
    match k with
    | VoteKind.up => { db3 with videos := addVideoUpvotes videoID 1 db3.videos }
    | VoteKind.down => { db3 with videos := addVideoDownvotes videoID 1 db3.videos }

/-- Number of `replies` rows of `uid` on `commentID`. -/
def replyRows (uid commentID : String) (db : Store) : Nat :=
  db.replies.countP (fun r => decide (r.RepliedTo = commentID) && decide (r.RepliedBy = uid))

/-- Runs `View` on `videoID` once per element of `calls` (the failure flag of
the `UPDATE`, `auth` and `claims` of the call); the final store when every
call returned nil, `none` as soon as one returned an error. -/
def runViews (videoID : String) : List (Bool × Bool × Option String) → Store → Option Store
  | [], db => some db
  | (fails, auth, claims) :: rest, db =>
    match View fails auth claims videoID db with
    | (none, db1) => runViews videoID rest db1
    | (some _, _) => none

/-! ## Concrete stores used to evaluate the handlers -/

/-- A bucket holding both assets of video `c1`, with no failing call. -/
def bucketC1 : S3 :=
  { S3Client := true
    objects := ["videos/c1", "thumbnails/videos/c1.jpg"]
    headFails := fun _ => false
    deleteFails := fun _ => false
    presignFails := fun _ => false }

/-- An empty bucket with no failing call. -/
def bucketEmpty : S3 :=
  { S3Client := true
    objects := []
    headFails := fun _ => false
    deleteFails := fun _ => false
    presignFails := fun _ => false }

/-- User `alice`, owner of no video yet. -/
def alice : User := { UID := "alice", Username := "alice01", Role := "user", TotalVideos := 0 }

/-- The row `Upload` stages for `alice` under id `c1` at time 5 from a body
that only carries a title. -/
def stagedC1 : Videos :=
  { VideoID := "c1", VideoURL := "videos/c1", VideoThumbnail := "thumbnails/videos/c1.jpg"
    VideoTitle := "t", VideoDescription := "", VideoTags := []
    VideoViews := 0, VideoUpvotes := 0, VideoDownvotes := 0, VideoComments := 0
    UserUID := "alice", UserUsername := "alice01", CreatedAt := 5, UpdatedAt := 5 }

/-- A store with `alice` and her staged upload `c1`. -/
def storeStaged : Store :=
  { users := [alice], video_on_upload := [stagedC1], videos := [], upvotes := [], downvotes := [] }

/-- A store with `alice` and nothing else. -/
def storeAlice : Store :=
  { users := [alice], video_on_upload := [], videos := [], upvotes := [], downvotes := [] }

/-- The store `storeStaged` with the tags `go` and `a,b` on the staged row. -/
def storeStagedTagged : Store :=
  { storeStaged with
    video_on_upload := [{ stagedC1 with VideoTags := [utf8 "go", utf8 "a,b"] }] }

/-- The store `storeStaged` with the tags `a`, the empty string and `é` on
the staged row. -/
def storeStagedOddTags : Store :=
  { storeStaged with
    video_on_upload := [{ stagedC1 with VideoTags := [utf8 "a", utf8 "", utf8 "\u00e9"] }] }

/-- No statement of `UploadACK` fails. -/
def ackOk : AckFaults :=
  { selectErr := false, deleteErr := false, insertErr := false, updateErr := false,
    indexErr := false }

/-- Only the `INSERT INTO videos` of `UploadACK` fails. -/
def ackInsertFails : AckFaults := { ackOk with insertErr := true }

/-- Only the `UPDATE users` of `UploadACK` fails. -/
def ackUpdateFails : AckFaults := { ackOk with updateErr := true }

/-- A request body whose JSON sets the four counters. -/
def bodyWithCounters : Videos :=
  { VideoID := "", VideoURL := "", VideoThumbnail := ""
    VideoTitle := "t", VideoDescription := "", VideoTags := []
    VideoViews := 1000000, VideoUpvotes := 500, VideoDownvotes := 3, VideoComments := 7
    UserUID := "", UserUsername := "", CreatedAt := 0, UpdatedAt := 0 }

/-- User `bob`. -/
def bob : User := { UID := "bob", Username := "bob02", Role := "user", TotalVideos := 0 }

/-- Video `c1` of `alice` once published, holding one downvote. -/
def publishedC1 : Videos :=
  { VideoID := "c1", VideoURL := "videos/c1", VideoThumbnail := "thumbnails/videos/c1.jpg"
    VideoTitle := "t", VideoDescription := "", VideoTags := []
    VideoViews := 0, VideoUpvotes := 0, VideoDownvotes := 1, VideoComments := 0
    UserUID := "alice", UserUsername := "alice01", CreatedAt := 5, UpdatedAt := 9 }

/-- A store where `bob` holds a downvote on the published video `c1`. -/
def storeVoted : Store :=
  { users := [{ alice with TotalVideos := 1 }, bob], video_on_upload := [],
    videos := [publishedC1], upvotes := [],
    downvotes := [{ DownvotedBy := "bob", DownvotedTo := "c1", DownvotedAt := 10 }] }

/-- A store where `bob` holds both an upvote and a downvote on `c1`. -/
def storeBothVotes : Store :=
  { storeVoted with upvotes := [{ UpvotedBy := "bob", UpvotedTo := "c1", UpvotedAt := 11 }] }

/-- No statement of `Upload` fails. -/
def uploadOk : UploadFaults := { userSelectErr := false, insertErr := false }

/-- No statement of `Upvote` or `Downvote` fails. -/
def voteOk : VoteFaults :=
  { videoSelectErr := false, voteSelectErr := false, delErr := false, updErr := false,
    insertErr := false, updateErr := false }

/-- Only the `DELETE` of the opposite vote fails. -/
def voteDelFails : VoteFaults := { voteOk with delErr := true }

/-- An upvote at time 12 followed by a downvote at time 13, no statement failing. -/
def upThenDown : List (VoteKind × VoteFaults × Nat) :=
  [(VoteKind.up, voteOk, 12), (VoteKind.down, voteOk, 13)]

/-- The store `upThenDown` leaves when `bob` runs it on `c1` from `storeVoted`. -/
def storeAfterUpThenDown : Store :=
  { storeVoted with
    downvotes := [{ DownvotedBy := "bob", DownvotedTo := "c1", DownvotedAt := 13 }] }

/-- Video `c1` of `alice` once published, with no reaction yet. -/
def publishedClean : Videos := { publishedC1 with VideoDownvotes := 0 }

/-- A store where the published video `c1` has no reaction. -/
def storeNoVotes : Store :=
  { users := [{ alice with TotalVideos := 1 }, bob], video_on_upload := [],
    videos := [publishedClean], upvotes := [], downvotes := [] }

/-- A store where `bob` holds an upvote on the published video `c1`. -/
def storeUpvoted : Store :=
  { users := [{ alice with TotalVideos := 1 }, bob], video_on_upload := [],
    videos := [{ publishedClean with VideoUpvotes := 1 }],
    upvotes := [{ UpvotedBy := "bob", UpvotedTo := "c1", UpvotedAt := 11 }], downvotes := [] }

/-- Only the `INSERT` of the vote fails. -/
def voteInsertFails : VoteFaults := { voteOk with insertErr := true }

/-- No statement of `Comment` fails. -/
def commentOk : CommentFaults :=
  { videoSelectErr := false, userSelectErr := false, insertErr := false, updateErr := false }

/-- No statement of `Reply` fails. -/
def replyOk : ReplyFaults :=
  { commentSelectErr := false, userSelectErr := false, replySelectErr := false,
    updateReplyErr := false, insertErr := false, updateErr := false }

/-- The comment `k1` of `alice` on `c1`. -/
def commentK1 : Comments :=
  { CommentID := "k1", CommentedBy := "alice", CommentedTo := "c1", CommentedAt := 14
    Comment := "first", CommentByUsername := "alice01", TotalReplies := 0 }

/-- A store where the published video `c1` carries the comment `k1`. -/
def storeCommented : Store :=
  { storeNoVotes with
    videos := [{ publishedClean with VideoComments := 1 }], comments := [commentK1] }

/-- Two `View` calls, one anonymous and one by `bob`, neither failing. -/
def twoViews : List (Bool × Bool × Option String) :=
  [(false, false, none), (false, true, some "bob")]

/-- The store `twoViews` leaves on `c1` from `storeNoVotes`. -/
def storeViewedTwice : Store :=
  { storeNoVotes with videos := [{ publishedClean with VideoViews := 2 }] }

/-- The administrator `carol`. -/
def carol : User := { UID := "carol", Username := "carol03", Role := "admin", TotalVideos := 0 }

/-- The store `storeCommented` with the administrator `carol` added. -/
def storeAdmin : Store :=
  { storeCommented with users := [{ alice with TotalVideos := 1 }, bob, carol] }

/-- No step of `ResyncCounters` fails. -/
def resyncOk : ResyncFaults :=
  { userSelectErr := false, beginErr := false, insertErr := false, updateErr := false,
    commitErr := false }

/-- A counter row with id 1 whose cached values are stale. -/
def staleCounters : List SystemCounters :=
  [{ ID := 1, UsersCount := 40, VideosCount := 0, CommentsCount := 7, RepliesCount := 0
     UpvotesCount := 3, DownvotesCount := 0, ViewsCount := 9, UpdatedAt := 1 }]

/-! ## `GetCounters` (ReadCounters) -/

/-- The anonymous struct `counters` of `GetCounters`, which the handler scans
the selected columns into and sends under the key `counters`. -/
structure Counters where
  Users : Int
  Videos : Int
  Comments : Int
  Replies : Int
  Upvotes : Int
  Downvotes : Int
  Views : Int
  UpdatedAt : Nat
deriving DecidableEq, Repr

/-- What `GetCounters` writes: the error response of `requireAdmin` or of the
handler itself, or `SendSuccessResponse` with the scanned struct. -/
inductive CountersReply where
  | response (r : Response)
  | counters (c : Counters)
deriving DecidableEq, Repr

/-- What `GetCounters` leaves behind. -/
structure GetCountersOutcome where
  reply : CountersReply
  store : Store
  system_counters : List SystemCounters
  log : List String

/-- Failure of the two statements of `GetCounters`: the user lookup of
`requireAdmin` and the `SELECT ... FROM system_counters WHERE id = 1`. -/
structure GetCountersFaults where
  userSelectErr : Bool
  selectErr : Bool
deriving DecidableEq, Repr

/-- Handler `GetCounters` of `Events/Admin/Admin.go`. -/
def GetCounters (f : GetCountersFaults) (claims : Option String) (db : Store)
    (counters : List SystemCounters) : GetCountersOutcome :=
  match requireAdmin f.userSelectErr claims db with
  | Except.error e => ⟨CountersReply.response e.1, db, counters, e.2⟩
  | Except.ok _ =>
    match queryRow f.selectErr (fun c => decide (c.ID = 1)) counters with
    | QueryRow.errNoRows =>
      ⟨CountersReply.response
          (Response.error 500 "Counters not initialized. Please run database migrations."),
        db, counters,
        ["GetCounters: system_counters table not initialized, run migration 008"]⟩
    | QueryRow.dbError =>
      ⟨CountersReply.response (Response.error 500 "Failed to fetch counters"), db, counters,
        ["GetCounters: failed to query counters"]⟩
    | QueryRow.row c =>
      ⟨CountersReply.counters
          { Users := c.UsersCount, Videos := c.VideosCount, Comments := c.CommentsCount
            Replies := c.RepliesCount, Upvotes := c.UpvotesCount
            Downvotes := c.DownvotesCount, Views := c.ViewsCount, UpdatedAt := c.UpdatedAt },
        db, counters, []⟩

/-- The response `GetCounters` sends when `system_counters` has no row with id 1. -/
def notInitialized : CountersReply :=
  CountersReply.response
    (Response.error 500 "Counters not initialized. Please run database migrations.")

/-- The struct `GetCounters` fills from a row of `system_counters`. -/
def Counters.ofRow (c : SystemCounters) : Counters :=
  { Users := c.UsersCount, Videos := c.VideosCount, Comments := c.CommentsCount
    Replies := c.RepliesCount, Upvotes := c.UpvotesCount
    Downvotes := c.DownvotesCount, Views := c.ViewsCount, UpdatedAt := c.UpdatedAt }

/-- No statement of `GetCounters` fails. -/
def getCountersOk : GetCountersFaults := { userSelectErr := false, selectErr := false }

/-- The `Search.IndexVideo` call of `UploadACK` fails, and nothing else. -/
def ackIndexFails : AckFaults := { ackOk with indexErr := true }

/-- No statement of `Delete` fails. -/
def deleteOk : DeleteFaults :=
  { selectErr := false, deleteErr := false, updateErr := false, indexErr := false }

/-- Only the `UPDATE users` of `Delete` fails. -/
def deleteUpdateFails : DeleteFaults := { deleteOk with updateErr := true }

/-- A bucket holding both assets of `c1` where every `HeadObject` and every
`DeleteObject` call fails. -/
def bucketFailing : S3 :=
  { S3Client := true
    objects := ["videos/c1", "thumbnails/videos/c1.jpg"]
    headFails := fun _ => true
    deleteFails := fun _ => true
    presignFails := fun _ => false }

/-- A request body of `Upload` that names another video, other paths and
another owner. -/
def bodyForged : Videos :=
  { VideoID := "zz", VideoURL := "videos/other", VideoThumbnail := "thumbnails/videos/other.jpg"
    VideoTitle := "x", VideoDescription := "d", VideoTags := [utf8 "a"]
    VideoViews := 0, VideoUpvotes := 0, VideoDownvotes := 0, VideoComments := 0
    UserUID := "bob", UserUsername := "bob02", CreatedAt := 1, UpdatedAt := 2 }

/-! ## `UpdateUser` and the validators of `Events/Users/utils.go` -/

/-- The functions of the Go standard library that the validators call and
whose tables are not part of the sources: `unicode.ToLower` and
`unicode.IsSpace` on a rune, and `MatchString` of the email pattern compiled in
`ValidateEmail`. -/
structure Stdlib where
  toLower : Char → Char
  isSpace : Char → Bool
  emailRegex : String → Bool

/-- `strings.ToLower`: every rune is mapped by `unicode.ToLower`. -/
def ToLower (lib : Stdlib) (s : String) : String := ⟨s.data.map lib.toLower⟩

/-- The runes left when the leading and the trailing runes that satisfy `p`
are removed. -/
def trimRunes (p : Char → Bool) (l : List Char) : List Char :=
  ((l.dropWhile p).reverse.dropWhile p).reverse

/-- `strings.TrimSpace`: the leading and the trailing runes for which
`unicode.IsSpace` holds are removed. -/
def TrimSpace (lib : Stdlib) (s : String) : String := ⟨trimRunes lib.isSpace s.data⟩

/-- Constant `MaxUsernameLength`. -/
def MaxUsernameLength : Nat := 30

/-- Constant `UserRole`. -/
def UserRole : String := "user"

/-- Constant `CreatorRole`. -/
def CreatorRole : String := "creator"

/-- Function `ValidateName` of `Events/Users/utils.go`; `none` is the nil
error.  `len` counts bytes. -/
def ValidateName (lib : Stdlib) (name : String) : Option String :=
  let name := TrimSpace lib name
  if name = "" then some "name cannot be empty"
  else if name.utf8ByteSize > MaxUsernameLength then
    some ("name must be less than " ++ toString MaxUsernameLength ++ " characters")
  else none

/-- Function `ValidateRole` of `Events/Users/utils.go`; `none` is the nil
error. -/
def ValidateRole (lib : Stdlib) (role : String) : Option String :=
  let role := TrimSpace lib (ToLower lib role)
  if role ≠ UserRole ∧ role ≠ CreatorRole then
    some "role must be either \x27user\x27 or \x27creator\x27"
  else none

/-- Function `ValidateEmail` of `Events/Users/utils.go`; `none` is the nil
error. -/
def ValidateEmail (lib : Stdlib) (email : String) : Option String :=
  let email := TrimSpace lib (ToLower lib email)
  if email = "" then none
  else if !lib.emailRegex email then some "invalid email format"
  else if email.utf8ByteSize > 255 then some "email must be less than 255 characters"
  else none

/-- Function `ValidateBio` of `Events/Users/utils.go`; `none` is the nil
error. -/
def ValidateBio (bio : String) : Option String :=
  if bio.utf8ByteSize > 1000 then some "bio must be less than 1000 characters" else none

/-- The struct `payload` of `UpdateUser`: a field is `none` when the pointer is
nil, that is when the key is absent from the body or null. -/
structure UpdatePayload where
  Name : Option String
  ProfilePicture : Option String
  Role : Option String
  Bio : Option String
  Email : Option String
deriving DecidableEq, Repr

/-- The request body as `UpdateUser` sees it: `io.ReadAll` may fail,
`json.Unmarshal` into `payload` may fail, and otherwise the payload is
filled. -/
inductive UpdateBody where
  | unreadable
  | malformed
  | decoded (payload : UpdatePayload)
deriving DecidableEq, Repr

/-- The slices `updates` and `args` of `UpdateUser` once the payload has been
processed: for each column, the value the `UPDATE` will set, if any.  For
`bio` and `email`, `some none` is `= NULL`. -/
structure UserUpdates where
  name : Option String
  profile_picture : Option String
  role : Option String
  bio : Option (Option String)
  email : Option (Option String)
deriving DecidableEq, Repr

/-- What `UpdateUser` writes: an error response, or `SendSuccessResponse`
with a user under the key `user`. -/
inductive UserReply where
  | response (r : Response)
  | user (u : User)
deriving DecidableEq, Repr

/-- What `UpdateUser` leaves behind. -/
structure UserOutcome where
  reply : UserReply
  store : Store
  log : List String

/-- Failure of the statements of `UpdateUser`, in source order: the first
`fetchUserByUID`, the lookup of the email, the `UPDATE users`, the second
`fetchUserByUID`, and the detached `Search.IndexUser` call. -/
structure UpdateFaults where
  selectErr : Bool
  emailSelectErr : Bool
  updateErr : Bool
  reselectErr : Bool
  indexErr : Bool
deriving DecidableEq, Repr

/-- Lines 273-282 of `UpdateUser`: the value to set `name` to, if any, or the
response that ends the request. -/
def nameUpdate (lib : Stdlib) (payload : UpdatePayload) :
    Except (Response × List String) (Option String) :=
  match payload.Name with
  | none => Except.ok none
  | some n =>
    let name := TrimSpace lib n
    match ValidateName lib name with
    | some err => Except.error (Response.error 400 err, [])
    | none => Except.ok (some name)

/-- Lines 293-302 of `UpdateUser`: the value to set `role` to, if any, or the
response that ends the request. -/
def roleUpdate (lib : Stdlib) (payload : UpdatePayload) :
    Except (Response × List String) (Option String) :=
  match payload.Role with
  | none => Except.ok none
  | some r =>
    let role := ToLower lib (TrimSpace lib r)
    match ValidateRole lib role with
    | some err => Except.error (Response.error 400 err, [])
    | none => Except.ok (some role)

/-- Lines 305-319 of `UpdateUser`: the value to set `bio` to, if any (`some
none` is `bio = NULL`), or the response that ends the request. -/
def bioUpdate (lib : Stdlib) (payload : UpdatePayload) :
    Except (Response × List String) (Option (Option String)) :=
  match payload.Bio with
  | none => Except.ok none
  | some b =>
    let bio := TrimSpace lib b
    match ValidateBio bio with
    | some err => Except.error (Response.error 400 err, [])
    | none => Except.ok (some (if bio = "" then none else some bio))

/-- Lines 322-350 of `UpdateUser`: the value to set `email` to, if any (`some
none` is `email = NULL`), or the response that ends the request. -/
def emailUpdate (lib : Stdlib) (f : UpdateFaults) (existing : User) (payload : UpdatePayload)
    (db : Store) : Except (Response × List String) (Option (Option String)) :=
  match payload.Email with
  | none => Except.ok none
  | some m =>
    let email := TrimSpace lib m
    if email = "" then Except.ok (some none)
    else
      match ValidateEmail lib email with
      | some err => Except.error (Response.error 400 err, [])
      | none =>
        match queryRow f.emailSelectErr
            (fun u => decide (u.Email = some email) && decide (u.UID ≠ existing.UID))
            db.users with
        | QueryRow.row _ => Except.error (Response.error 409 "Email already in use", [])
        | QueryRow.dbError =>
          Except.error (Response.error 500 "Failed to check email availability",
            ["UpdateUser: failed to check email"])
        | QueryRow.errNoRows => Except.ok (some (some email))

/-- Lines 268-350 of `UpdateUser`: the payload is processed field by field, in
the order name, profile picture, role, bio, email, and the first failure ends
the request with the response and log line given. -/
def collectUpdates (lib : Stdlib) (f : UpdateFaults) (existing : User) (payload : UpdatePayload)
    (db : Store) : Except (Response × List String) UserUpdates :=
  match nameUpdate lib payload with
  | Except.error e => Except.error e
  | Except.ok name =>
    let pic := payload.ProfilePicture.map (TrimSpace lib)
    match roleUpdate lib payload with
    | Except.error e => Except.error e
    | Except.ok role =>
      match bioUpdate lib payload with
      | Except.error e => Except.error e
      | Except.ok bio =>
        match emailUpdate lib f existing payload db with
        | Except.error e => Except.error e
        | Except.ok email =>
          Except.ok { name := name, profile_picture := pic, role := role, bio := bio,
                      email := email }

/-- The statement `UPDATE users SET ... , updated_at = $n WHERE uid = $m` that
`UpdateUser` builds from `updates` and `args`. -/
def applyUpdates (now : Nat) (uid : String) (up : UserUpdates) (users : List User) : List User :=
  users.map (fun u =>
    if u.UID = uid then
      { u with
        Name := up.name.getD u.Name
        ProfilePicture := up.profile_picture.getD u.ProfilePicture
        Role := up.role.getD u.Role
        Bio := up.bio.getD u.Bio
        Email := up.email.getD u.Email
        UpdatedAt := now }
    else u)

/-- Handler `UpdateUser` of `Events/Users/Users.go`. -/
def UpdateUser (lib : Stdlib) (f : UpdateFaults) (now : Nat) (claims : Option String)
    (body : UpdateBody) (db : Store) : UserOutcome :=
  match claims with
  | none => ⟨UserReply.response (Response.error 401 "Unauthorized"), db, []⟩
  | some uid =>
    match queryRow f.selectErr (fun u => decide (u.UID = uid)) db.users with
    | QueryRow.errNoRows => ⟨UserReply.response (Response.error 404 "User not found"), db, []⟩
    | QueryRow.dbError =>
      ⟨UserReply.response (Response.error 500 "Failed to load user"), db,
        ["UpdateUser: failed to fetch user"]⟩
    | QueryRow.row existing =>
      match body with
      | UpdateBody.unreadable =>
        ⟨UserReply.response (Response.error 400 "failed to read request body"), db,
          ["UpdateUser: failed to read body"]⟩
      | UpdateBody.malformed =>
        ⟨UserReply.response (Response.error 400 "Invalid request body"), db, []⟩
      | UpdateBody.decoded payload =>
        match collectUpdates lib f existing payload db with
        | Except.error e => ⟨UserReply.response e.1, db, e.2⟩
        | Except.ok up =>
          if up.name.isNone && up.profile_picture.isNone && up.role.isNone && up.bio.isNone
              && up.email.isNone then
            ⟨UserReply.user existing, db, []⟩
          else if f.updateErr then
            ⟨UserReply.response (Response.error 500 "Failed to update user"), db,
              ["UpdateUser: failed to update user"]⟩
          else
            let db1 : Store := { db with users := applyUpdates now existing.UID up db.users }
            match queryRow f.reselectErr (fun u => decide (u.UID = existing.UID)) db1.users with
            | QueryRow.row updatedUser =>
              ⟨UserReply.user updatedUser, db1,
                if payload.ProfilePicture.isSome && f.indexErr then
                  ["UpdateUser: failed to update user in Elasticsearch"]
                else []⟩
            | _ =>
              ⟨UserReply.response (Response.error 500 "Failed to load updated user"), db1,
                ["UpdateUser: failed to fetch updated user"]⟩

/-- A stand-in for the standard library on ASCII text: letters `A` to `Z` are
lowered, the space, tab, carriage return and line feed are white space, and a
text matches the email pattern when it contains `@`. -/
def asciiLib : Stdlib :=
  { toLower := Char.toLower, isSpace := Char.isWhitespace,
    emailRegex := fun s => s.data.contains (Char.ofNat 64) }

/-- No statement of `UpdateUser` fails. -/
def updateOk : UpdateFaults :=
  { selectErr := false, emailSelectErr := false, updateErr := false, reselectErr := false,
    indexErr := false }

/-- A payload that only asks for a role. -/
def roleOnly (role : String) : UpdatePayload :=
  { Name := none, ProfilePicture := none, Role := some role, Bio := none, Email := none }

/-! ## Concurrent calls of `Upvote` -/

/-- Where a call of `Upvote` stands: the database statement it is about to
issue, or the response it has sent.  The caller is authenticated, the id is
not empty and every statement succeeds. -/
inductive UpvotePoint where
  /-- About to run `SELECT ... FROM videos WHERE video_id = $1` (line 60). -/
  | videoLookup
  /-- About to run `SELECT id FROM upvotes WHERE ...` (line 85). -/
  | voteLookup
  /-- The vote was found; about to run `DELETE FROM downvotes` (line 91). -/
  | votedDelete
  /-- The vote was found and a downvote removed; about to run the `UPDATE`
  of line 98. -/
  | votedDecrement
  /-- No vote was found; about to run `DELETE FROM downvotes` (line 119). -/
  | freshDelete
  /-- No vote was found and a downvote removed; about to run the `UPDATE` of
  line 130. -/
  | freshDecrement
  /-- About to run `INSERT INTO upvotes ... ON CONFLICT DO NOTHING` (line 142). -/
  | insert
  /-- About to run `UPDATE videos SET video_upvotes = video_upvotes + 1`
  (line 153). -/
  | increment
  /-- The response has been sent. -/
  | done (response : Response)
deriving DecidableEq, Repr

/-- The next database statement of a call of `Upvote` by `uid` on `videoID`
that stands at `point`, run on `db` at time `now`: where the call stands
afterwards, and the store. -/
def upvoteStatement (uid videoID : String) (now : Nat) (point : UpvotePoint) (db : Store) :
    UpvotePoint × Store :=
  match point with
  | UpvotePoint.videoLookup =>
    match db.videos.find? (fun v => decide (v.VideoID = videoID)) with
    | none => (UpvotePoint.done (Response.error 404 "Video not found"), db)
    | some _ => (UpvotePoint.voteLookup, db)
  | UpvotePoint.voteLookup =>
    match db.upvotes.find?
        (fun u => decide (u.UpvotedBy = uid) && decide (u.UpvotedTo = videoID)) with
    | some _ => (UpvotePoint.votedDelete, db)
    | none => (UpvotePoint.freshDelete, db)
  | UpvotePoint.votedDelete =>
    let db1 : Store := { db with downvotes := deleteDownvotes uid videoID db.downvotes }
    let rowsAffected := db.downvotes.length - db1.downvotes.length
    if rowsAffected > 0 then (UpvotePoint.votedDecrement, db1)
    else
      (UpvotePoint.done
        (Response.success [("message", "Already upvoted, downvote removed if existed")]), db1)
  | UpvotePoint.votedDecrement =>
    (UpvotePoint.done
      (Response.success [("message", "Already upvoted, downvote removed if existed")]),
      { db with videos := addVideoDownvotes videoID (-1) db.videos })
  | UpvotePoint.freshDelete =>
    let db1 : Store := { db with downvotes := deleteDownvotes uid videoID db.downvotes }
    let rowsAffected := db.downvotes.length - db1.downvotes.length
    if rowsAffected > 0 then (UpvotePoint.freshDecrement, db1)
    else (UpvotePoint.insert, db1)
  | UpvotePoint.freshDecrement =>
    (UpvotePoint.insert, { db with videos := addVideoDownvotes videoID (-1) db.videos })
  | UpvotePoint.insert =>
    (UpvotePoint.increment, { db with upvotes := insertUpvote uid videoID now db.upvotes })
  | UpvotePoint.increment =>
    (UpvotePoint.done (Response.success [("message", "Video upvoted")]),
      { db with videos := addVideoUpvotes videoID 1 db.videos })
  | UpvotePoint.done response => (UpvotePoint.done response, db)

/-- Calls of `Upvote` in flight on one database: where each call stands, and
the store they share. -/
structure InFlight where
  points : List UpvotePoint
  store : Store

/-- One entry `(i, now)` of a schedule: call number `i` issues its next
statement, at time `now`. -/
def scheduleStep (uid videoID : String) (s : InFlight) (entry : Nat × Nat) : InFlight :=
  match s.points[entry.1]? with
  | none => s
  | some point =>
    let r := upvoteStatement uid videoID entry.2 point s.store
    { points := s.points.set entry.1 r.1, store := r.2 }

/-- The calls after the statements of `schedule` have run, one after the
other, each of them atomically. -/
def runSchedule (uid videoID : String) (schedule : List (Nat × Nat)) (s : InFlight) : InFlight :=
  schedule.foldl (scheduleStep uid videoID) s

/-- Every call has sent its response. -/
def allDone (s : InFlight) : Bool :=
  s.points.all (fun p => match p with
    | UpvotePoint.done _ => true
    | _ => false)

/-- The schedule in which `n` calls advance in lock step, for `rounds` rounds:
each round lets every call issue one statement. -/
def lockStep (n rounds : Nat) : List (Nat × Nat) :=
  (List.replicate rounds ((List.range n).map (fun i => (i, 20)))).flatten

/-- The response of the call that inserted or found no conflict: line 163. -/
def upvotedResponse : Response := Response.success [("message", "Video upvoted")]

/-- The response of a call that found the vote in place: line 109. -/
def alreadyResponse : Response :=
  Response.success [("message", "Already upvoted, downvote removed if existed")]

/-- The call has not yet issued its `INSERT`. -/
def UpvotePoint.early (p : UpvotePoint) : Bool :=
  decide (p = UpvotePoint.videoLookup) || decide (p = UpvotePoint.voteLookup) ||
    decide (p = UpvotePoint.freshDelete) || decide (p = UpvotePoint.insert)

/-- The call has issued its `INSERT`. -/
def UpvotePoint.inserted (p : UpvotePoint) : Bool :=
  decide (p = UpvotePoint.increment) || decide (p = UpvotePoint.done upvotedResponse)

/-- The call has found the vote in place. -/
def UpvotePoint.sawVote (p : UpvotePoint) : Bool :=
  decide (p = UpvotePoint.votedDelete) || decide (p = UpvotePoint.done alreadyResponse)

/-- Number of calls that have answered "Video upvoted". -/
def upvotedCalls (points : List UpvotePoint) : Nat :=
  points.countP (fun p => decide (p = UpvotePoint.done upvotedResponse))

/-- What holds of calls of `Upvote` by `uid` on `videoID` in flight on a store
that started as `db`, whatever statements have run so far: only `upvotes` and
`videos` have changed; `video_upvotes` has grown by the number of calls that
answered "Video upvoted"; no call is at a decrement or has answered with an
error; at most one `upvotes` row of the pair exists, it exists as soon as a
call has passed its `INSERT` or found the vote, and only then. -/
def RaceInvariant (uid videoID : String) (db : Store) (s : InFlight) : Prop :=
  { s.store with upvotes := db.upvotes, videos := db.videos } = db ∧
  s.store.videos = addVideoUpvotes videoID (upvotedCalls s.points) db.videos ∧
  (∀ p ∈ s.points, p.early = true ∨ p.inserted = true ∨ p.sawVote = true) ∧
  upvoteEdges uid videoID s.store ≤ 1 ∧
  ((∃ p ∈ s.points, p.inserted = true ∨ p.sawVote = true) →
    upvoteEdges uid videoID s.store = 1) ∧
  (upvoteEdges uid videoID s.store = 1 → ∃ p ∈ s.points, p.inserted = true)

/-- A schedule of three calls: call 0 and call 1 both look for the vote before
either inserts it, and call 2 starts after call 0 has finished. -/
def mixedSchedule : List (Nat × Nat) :=
  [(0, 1), (0, 2), (1, 3), (0, 4), (1, 5), (0, 6), (0, 7), (2, 8), (2, 9), (1, 10), (1, 11),
   (2, 12), (1, 13)]

/-! # Theorems -/

/-! ## Lemmas on `StringArray` -/

theorem byteToString_ascii (c : Nat) (h : c < 128) : byteToString c = [c] := by
  unfold byteToString utf8Rune
  interval_cases c <;> rfl

theorem escapeQuotes_plain (item : Bytes) (h : ∀ c ∈ item, c ≠ quoteByte ∧ c < 128) :
    escapeQuotes item = item := by
  unfold escapeQuotes
  induction item with
  | nil => rfl
  | cons c item ih =>
    have hc := (h c (List.mem_cons_self c item)).1
    rw [List.flatMap_cons, if_neg hc, ih (fun d hd => h d (List.mem_cons_of_mem c hd))]
    rfl

theorem foldl_scanStep_inQuotes (parts : StringArray) (item current : Bytes)
    (h : ∀ c ∈ item, c ≠ quoteByte ∧ c < 128) :
    item.foldl scanStep { parts := parts, current := current, inQuotes := true }
      = { parts := parts, current := current ++ item, inQuotes := true } := by
  induction item generalizing current with
  | nil => simp
  | cons c item ih =>
    obtain ⟨hq, hlt⟩ := h c (List.mem_cons_self c item)
    rw [List.foldl_cons]
    have hstep : scanStep { parts := parts, current := current, inQuotes := true } c
        = { parts := parts, current := current ++ [c], inQuotes := true } := by
      unfold scanStep
      rw [if_neg hq, if_neg (by simp), byteToString_ascii c hlt]
    rw [hstep, ih _ (fun d hd => h d (List.mem_cons_of_mem c hd))]
    simp

theorem foldl_scanStep_quoted (parts : StringArray) (item : Bytes)
    (h : ∀ c ∈ item, c ≠ quoteByte ∧ c < 128) :
    ([quoteByte] ++ escapeQuotes item ++ [quoteByte]).foldl scanStep
        { parts := parts, current := [], inQuotes := false }
      = { parts := parts, current := item, inQuotes := false } := by
  rw [escapeQuotes_plain item h, List.foldl_append, List.foldl_append]
  have h1 : [quoteByte].foldl scanStep { parts := parts, current := [], inQuotes := false }
      = { parts := parts, current := [], inQuotes := true } := by
    simp [scanStep]
  rw [h1, foldl_scanStep_inQuotes parts item [] h]
  simp [scanStep]

theorem intercalate_cons_cons {α : Type} (sep x y : List α) (l : List (List α)) :
    List.intercalate sep (x :: y :: l) = x ++ sep ++ List.intercalate sep (y :: l) := by
  simp [List.intercalate, List.intersperse]

theorem foldl_scanStep_items (x : Bytes) (rest : StringArray) (parts : StringArray)
    (h : ∀ item ∈ x :: rest, plainItem item) :
    ∃ st : ScanState,
      (List.intercalate [commaByte]
        ((x :: rest).map (fun item => [quoteByte] ++ escapeQuotes item ++ [quoteByte]))).foldl
          scanStep { parts := parts, current := [], inQuotes := false } = st ∧
      st.current ≠ [] ∧ st.parts ++ [st.current] = parts ++ (x :: rest) := by
  induction rest generalizing x parts with
  | nil =>
    obtain ⟨hne, hx⟩ := h x (List.mem_cons_self x [])
    refine ⟨_, rfl, ?_, ?_⟩
    · simp only [List.map_cons, List.map_nil, List.intercalate, List.intersperse,
        List.flatten_cons, List.flatten_nil, List.append_nil]
      rw [foldl_scanStep_quoted parts x hx]
      exact hne
    · simp only [List.map_cons, List.map_nil, List.intercalate, List.intersperse,
        List.flatten_cons, List.flatten_nil, List.append_nil]
      rw [foldl_scanStep_quoted parts x hx]
  | cons y rest ih =>
    obtain ⟨hne, hx⟩ := h x (List.mem_cons_self x _)
    obtain ⟨st, hst, hcur, hparts⟩ := ih y (parts ++ [x])
      (fun item hi => h item (List.mem_cons_of_mem x hi))
    refine ⟨st, ?_, hcur, ?_⟩
    · rw [List.map_cons, List.map_cons, intercalate_cons_cons, List.foldl_append,
        List.foldl_append, foldl_scanStep_quoted parts x hx]
      have hsep : [commaByte].foldl scanStep { parts := parts, current := x, inQuotes := false }
          = { parts := parts ++ [x], current := [], inQuotes := false } := by
        simp [scanStep, commaByte, quoteByte, hne]
      rw [hsep]
      exact hst
    · rw [hparts]
      simp

theorem sliceBytes_inner (inner : Bytes) :
    sliceBytes ([openBrace] ++ inner ++ [closeBrace])
        1 (([openBrace] ++ inner ++ [closeBrace]).length - 1) = some inner := by
  unfold sliceBytes
  have hl : ([openBrace] ++ inner ++ [closeBrace]).length - 1 = inner.length + 1 := by
    simp
  rw [hl, if_pos (by simp)]
  simp [List.take_append_eq_append_take]

theorem Scan_Value_of_bytes (unmarshal : Bytes → Except String StringArray) (a : StringArray)
    (h : ∀ item ∈ a, plainItem item) (value : ScanValue)
    (hv : value = ScanValue.string a.Value ∨ value = ScanValue.bytes a.Value) :
    StringArray.Scan unmarshal value = ScanResult.ok a := by
  have key : (if a.Value.length > 0 ∧ a.Value.head? = some openBrace then
      match sliceBytes a.Value 1 (a.Value.length - 1) with
      | none => ScanResult.outOfBounds 1 (a.Value.length - 1)
      | some str =>
        if str = [] then ScanResult.ok []
        else
          let st := str.foldl scanStep { parts := [], current := [], inQuotes := false }
          if st.current ≠ [] then ScanResult.ok (st.parts ++ [st.current])
          else ScanResult.ok st.parts
    else
      match unmarshal a.Value with
      | Except.error message => ScanResult.error message
      | Except.ok a => ScanResult.ok a) = ScanResult.ok a := by
    cases a with
    | nil => rfl
    | cons x rest =>
      obtain ⟨st, hst, hcur, hparts⟩ := foldl_scanStep_items x rest [] h
      have hval : StringArray.Value (x :: rest) = [openBrace] ++ List.intercalate [commaByte]
          ((x :: rest).map (fun item => [quoteByte] ++ escapeQuotes item ++ [quoteByte]))
          ++ [closeBrace] := by
        unfold StringArray.Value
        rw [if_neg (by simp)]
      rw [hval, sliceBytes_inner, if_pos (by simp)]
      have hne : List.intercalate [commaByte]
          ((x :: rest).map (fun item => [quoteByte] ++ escapeQuotes item ++ [quoteByte])) ≠ [] := by
        cases rest with
        | nil => simp [List.intercalate, List.intersperse]
        | cons y r =>
          rw [List.map_cons, List.map_cons, intercalate_cons_cons]
          simp
      simp only [hne, if_false, hst, hcur, ne_eq, not_false_eq_true, if_true, hparts,
        List.nil_append]
  rcases hv with hv | hv
  · rw [hv]
    exact key
  · rw [hv]
    exact key

theorem Scan_outOfBounds_bytes (unmarshal : Bytes → Except String StringArray) (b : Bytes)
    (low high : Nat)
    (h : (if b.length > 0 ∧ b.head? = some openBrace then
      match sliceBytes b 1 (b.length - 1) with
      | none => ScanResult.outOfBounds 1 (b.length - 1)
      | some str =>
        if str = [] then ScanResult.ok []
        else
          let st := str.foldl scanStep { parts := [], current := [], inQuotes := false }
          if st.current ≠ [] then ScanResult.ok (st.parts ++ [st.current])
          else ScanResult.ok st.parts
    else
      match unmarshal b with
      | Except.error message => ScanResult.error message
      | Except.ok a => ScanResult.ok a) = ScanResult.outOfBounds low high) :
    b = [openBrace] := by
  by_cases hc : b.length > 0 ∧ b.head? = some openBrace
  · rw [if_pos hc] at h
    cases hs : sliceBytes b 1 (b.length - 1) with
    | none =>
      unfold sliceBytes at hs
      by_cases hb : 1 ≤ b.length - 1 ∧ b.length - 1 ≤ b.length
      · rw [if_pos hb] at hs
        cases hs
      · have hlen : b.length = 1 := by
          have := hc.1
          by_contra hne
          exact hb ⟨by omega, by omega⟩
        cases b with
        | nil => simp at hlen
        | cons c t =>
          cases t with
          | nil =>
            have := hc.2
            simp at this
            rw [this]
          | cons d t => simp at hlen
    | some str =>
      rw [hs] at h
      simp only at h
      split at h
      · cases h
      · split at h
        · cases h
        · cases h
  · rw [if_neg hc] at h
    cases hu : unmarshal b with
    | error m => rw [hu] at h; cases h
    | ok a => rw [hu] at h; cases h

theorem Scan_braced (unmarshal : Bytes → Except String StringArray) (inner : Bytes)
    (value : ScanValue)
    (hv : value = ScanValue.string ([openBrace] ++ inner ++ [closeBrace]) ∨
      value = ScanValue.bytes ([openBrace] ++ inner ++ [closeBrace])) :
    StringArray.Scan unmarshal value
      = ScanResult.ok
          (if inner = [] then []
           else if (inner.foldl scanStep
               { parts := [], current := [], inQuotes := false }).current ≠ [] then
             (inner.foldl scanStep { parts := [], current := [], inQuotes := false }).parts
               ++ [(inner.foldl scanStep
                     { parts := [], current := [], inQuotes := false }).current]
           else (inner.foldl scanStep { parts := [], current := [], inQuotes := false }).parts) := by
  have key : (if ([openBrace] ++ inner ++ [closeBrace]).length > 0 ∧
        ([openBrace] ++ inner ++ [closeBrace]).head? = some openBrace then
      match sliceBytes ([openBrace] ++ inner ++ [closeBrace]) 1
          (([openBrace] ++ inner ++ [closeBrace]).length - 1) with
      | none => ScanResult.outOfBounds 1 (([openBrace] ++ inner ++ [closeBrace]).length - 1)
      | some str =>
        if str = [] then ScanResult.ok []
        else
          let st := str.foldl scanStep { parts := [], current := [], inQuotes := false }
          if st.current ≠ [] then ScanResult.ok (st.parts ++ [st.current])
          else ScanResult.ok st.parts
    else
      match unmarshal ([openBrace] ++ inner ++ [closeBrace]) with
      | Except.error message => ScanResult.error message
      | Except.ok a => ScanResult.ok a)
      = ScanResult.ok
          (if inner = [] then []
           else if (inner.foldl scanStep
               { parts := [], current := [], inQuotes := false }).current ≠ [] then
             (inner.foldl scanStep { parts := [], current := [], inQuotes := false }).parts
               ++ [(inner.foldl scanStep
                     { parts := [], current := [], inQuotes := false }).current]
           else (inner.foldl scanStep { parts := [], current := [], inQuotes := false }).parts) := by
    rw [if_pos (by simp), sliceBytes_inner]
    simp only
    by_cases h1 : inner = []
    · rw [if_pos h1, if_pos h1]
    · rw [if_neg h1, if_neg h1]
      by_cases h2 : (inner.foldl scanStep
          { parts := [], current := [], inQuotes := false }).current ≠ []
      · rw [if_pos h2, if_pos h2]
      · rw [if_neg h2, if_neg h2]
  rcases hv with hv | hv
  · rw [hv]
    exact key
  · rw [hv]
    exact key

theorem Value_braced (tags : StringArray) :
    ∃ inner, tags.Value = [openBrace] ++ inner ++ [closeBrace] := by
  unfold StringArray.Value
  by_cases h0 : tags.length = 0
  · rw [if_pos h0]
    exact ⟨[], rfl⟩
  · rw [if_neg h0]
    exact ⟨_, rfl⟩

theorem Scan_Value_scannedTags (unmarshal : Bytes → Except String StringArray)
    (tags : StringArray) :
    StringArray.Scan unmarshal (ScanValue.bytes tags.Value) = ScanResult.ok (scannedTags tags) ∧
    StringArray.Scan unmarshal (ScanValue.string tags.Value) = ScanResult.ok (scannedTags tags) := by
  obtain ⟨inner, hinner⟩ := Value_braced tags
  unfold scannedTags
  rw [hinner, Scan_braced unmarshalNothing inner _ (Or.inr rfl),
    Scan_braced unmarshal inner _ (Or.inr rfl), Scan_braced unmarshal inner _ (Or.inl rfl)]
  exact ⟨rfl, rfl⟩

theorem scannedTags_plain (tags : StringArray) (h : ∀ item ∈ tags, plainItem item) :
    scannedTags tags = tags := by
  have h1 := (Scan_Value_scannedTags unmarshalNothing tags).1
  rw [Scan_Value_of_bytes unmarshalNothing tags h _ (Or.inr rfl)] at h1
  exact (ScanResult.ok.inj h1).symm

/-! ## Lemmas on `UploadACK`, `Upload` and `Delete` -/


theorem UploadACK_store_of_missing (f : AckFaults) (s3 : S3) (now : Nat) (uid videoID : String)
    (db : Store) (hid : videoID ≠ "") (h : assetsPresent s3 videoID = false) :
    (UploadACK f s3 now (some uid) videoID db).store = db ∧
    ((UploadACK f s3 now (some uid) videoID db).response = Response.error 404 "Video file not found" ∨
     (UploadACK f s3 now (some uid) videoID db).response = Response.error 404 "Thumbnail file not found") := by
  unfold assetsPresent reportsMissing at h
  unfold UploadACK
  simp only [hid, if_false]
  by_cases h1 : ((IsFileExists s3 ("videos/" ++ videoID)).2.isSome || !(IsFileExists s3 ("videos/" ++ videoID)).1) = true
  · simp [h1]
  · by_cases h2 : ((IsFileExists s3 ("thumbnails/videos/" ++ videoID ++ ".jpg")).2.isSome || !(IsFileExists s3 ("thumbnails/videos/" ++ videoID ++ ".jpg")).1) = true
    · simp [h1, h2]
    · simp [h1, h2] at h

theorem find_filter_ne_videoID (videoID : String) (t : List Videos) :
    (t.filter (fun v => decide (v.VideoID ≠ videoID))).find? (fun v => decide (v.VideoID = videoID))
      = none := by
  rw [List.find?_eq_none]
  intro v hv
  simp only [List.mem_filter, decide_eq_true_eq] at hv
  simpa using hv.2

theorem UploadACK_success (f : AckFaults) (s3 : S3) (now : Nat) (claims : Option String)
    (videoID : String) (db : Store)
    (h : (UploadACK f s3 now claims videoID db).response.isSuccess = true) :
    ∃ fetched, videoID ≠ "" ∧ assetsPresent s3 videoID = true ∧
      db.video_on_upload.find? (fun v => decide (v.VideoID = videoID)) = some fetched ∧
      claims = some fetched.UserUID ∧
      (UploadACK f s3 now claims videoID db).store =
        { db with
          users := addTotalVideos fetched.UserUID 1 db.users
          video_on_upload := db.video_on_upload.filter (fun v => v.VideoID ≠ videoID)
          videos := db.videos ++ [{ fetched with
            VideoTags := scannedTags fetched.VideoTags
            UpdatedAt := now
            VideoURL := "videos/" ++ videoID }]
        } := by
  unfold UploadACK at h ⊢
  cases claims with
  | none => simp [Response.isSuccess] at h
  | some uid =>
    simp only at h ⊢
    by_cases hid : videoID = ""
    · simp [hid, Response.isSuccess] at h
    · simp only [hid, if_false] at h ⊢
      by_cases h1 : ((IsFileExists s3 ("videos/" ++ videoID)).2.isSome || !(IsFileExists s3 ("videos/" ++ videoID)).1) = true
      · simp [h1, Response.isSuccess] at h
      · by_cases h2 : ((IsFileExists s3 ("thumbnails/videos/" ++ videoID ++ ".jpg")).2.isSome || !(IsFileExists s3 ("thumbnails/videos/" ++ videoID ++ ".jpg")).1) = true
        · simp [h1, h2, Response.isSuccess] at h
        · simp only [h1, h2, if_false] at h ⊢
          unfold queryRow at h ⊢
          by_cases hs : f.selectErr = true
          · simp [hs, Response.isSuccess] at h
          · simp only [hs, if_false] at h ⊢
            cases hf : db.video_on_upload.find? (fun v => decide (v.VideoID = videoID)) with
            | none => simp [hf, Response.isSuccess] at h
            | some fetched =>
              simp only [hf] at h ⊢
              by_cases ho : fetched.UserUID ≠ uid
              · simp [ho, Response.isSuccess] at h
              · have ho' : fetched.UserUID = uid := by simpa using ho
                by_cases hd : f.deleteErr = true
                · simp [ho', hd, Response.isSuccess] at h
                · by_cases hi : f.insertErr = true
                  · simp [ho', hd, hi, Response.isSuccess] at h
                  · by_cases hu : f.updateErr = true
                    · simp [ho', hd, hi, hu, Response.isSuccess] at h
                    · refine ⟨fetched, hid, ?_, rfl, by rw [ho'], ?_⟩
                      · simp [assetsPresent, reportsMissing] at h1 h2 ⊢
                        simp [h1, h2]
                      · simp [ho', hd, hi, hu]

theorem UploadACK_failure (f : AckFaults) (s3 : S3) (now : Nat) (claims : Option String)
    (videoID : String) (db : Store) (hins : f.insertErr = false)
    (h : (UploadACK f s3 now claims videoID db).response.isSuccess = false) :
    (UploadACK f s3 now claims videoID db).store = db ∨
    ∃ fetched, db.video_on_upload.find? (fun v => decide (v.VideoID = videoID)) = some fetched ∧
      claims = some fetched.UserUID ∧ f.updateErr = true ∧
      (UploadACK f s3 now claims videoID db).response
        = Response.error 500 "Failed to update user" ∧
      (UploadACK f s3 now claims videoID db).store =
        { db with
          video_on_upload := db.video_on_upload.filter (fun v => v.VideoID ≠ videoID)
          videos := db.videos ++ [{ fetched with
            VideoTags := scannedTags fetched.VideoTags
            UpdatedAt := now
            VideoURL := "videos/" ++ videoID }]
        } := by
  unfold UploadACK at h ⊢
  cases claims with
  | none => simp
  | some uid =>
    simp only at h ⊢
    by_cases hid : videoID = ""
    · simp [hid]
    · simp only [hid, if_false] at h ⊢
      by_cases h1 : ((IsFileExists s3 ("videos/" ++ videoID)).2.isSome || !(IsFileExists s3 ("videos/" ++ videoID)).1) = true
      · simp [h1]
      · by_cases h2 : ((IsFileExists s3 ("thumbnails/videos/" ++ videoID ++ ".jpg")).2.isSome || !(IsFileExists s3 ("thumbnails/videos/" ++ videoID ++ ".jpg")).1) = true
        · simp [h1, h2]
        · simp only [h1, h2, if_false] at h ⊢
          unfold queryRow at h ⊢
          by_cases hs : f.selectErr = true
          · simp [hs]
          · simp only [hs, if_false] at h ⊢
            cases hf : db.video_on_upload.find? (fun v => decide (v.VideoID = videoID)) with
            | none => simp
            | some fetched =>
              simp only [hf] at h ⊢
              by_cases ho : fetched.UserUID ≠ uid
              · simp [ho]
              · have ho' : fetched.UserUID = uid := by simpa using ho
                by_cases hd : f.deleteErr = true
                · simp [ho', hd]
                · by_cases hu : f.updateErr = true
                  · right
                    refine ⟨fetched, rfl, by rw [ho'], hu, ?_, ?_⟩
                    · simp [ho', hd, hins, hu]
                    · simp [ho', hd, hins, hu]
                  · simp [ho', hd, hins, hu, Response.isSuccess] at h

theorem UploadACK_present_no_row (f : AckFaults) (s3 : S3) (now : Nat) (uid videoID : String)
    (db : Store) (hid : videoID ≠ "") (hp : assetsPresent s3 videoID = true)
    (hno : db.video_on_upload.find? (fun v => decide (v.VideoID = videoID)) = none) :
    (UploadACK f s3 now (some uid) videoID db).response =
      (if f.selectErr then Response.error 500 "Failed to fetch video"
       else Response.error 404 "Video not found") ∧
    (UploadACK f s3 now (some uid) videoID db).store = db := by
  simp only [assetsPresent, reportsMissing, Bool.and_eq_true, Bool.not_eq_true',
    Bool.or_eq_false_iff] at hp
  unfold UploadACK queryRow
  by_cases hs : f.selectErr = true <;> simp [hid, hp.1, hp.2, hno, hs]

theorem UploadACK_present_row (f : AckFaults) (s3 : S3) (now : Nat) (uid videoID : String)
    (db : Store) (fetched : Videos) (hid : videoID ≠ "") (hp : assetsPresent s3 videoID = true)
    (hrow : db.video_on_upload.find? (fun v => decide (v.VideoID = videoID)) = some fetched)
    (hown : fetched.UserUID ≠ uid) :
    (UploadACK f s3 now (some uid) videoID db).response =
      (if f.selectErr then Response.error 500 "Failed to fetch video"
       else Response.error 403 "Forbidden: you do not own this video") ∧
    (UploadACK f s3 now (some uid) videoID db).store = db := by
  simp only [assetsPresent, reportsMissing, Bool.and_eq_true, Bool.not_eq_true',
    Bool.or_eq_false_iff] at hp
  unfold UploadACK queryRow
  by_cases hs : f.selectErr = true <;> simp [hid, hp.1, hp.2, hrow, hs, hown]

theorem UploadACK_tables (f : AckFaults) (s3 : S3) (now : Nat) (claims : Option String)
    (videoID : String) (db : Store) :
    ((UploadACK f s3 now claims videoID db).store.video_on_upload = db.video_on_upload ∧
      (UploadACK f s3 now claims videoID db).store.videos = db.videos) ∨
    ((UploadACK f s3 now claims videoID db).store.video_on_upload
        = db.video_on_upload.filter (fun v => v.VideoID ≠ videoID) ∧
      ((UploadACK f s3 now claims videoID db).store.videos = db.videos ∨
        ∃ t : Videos, t.VideoID = videoID ∧
          (UploadACK f s3 now claims videoID db).store.videos = db.videos ++ [t])) := by
  unfold UploadACK
  cases claims with
  | none => simp
  | some uid =>
    simp only
    split
    · simp
    · split
      · simp
      · split
        · simp
        · unfold queryRow
          by_cases hs : f.selectErr = true
          · simp [hs]
          · simp only [hs, if_false]
            cases hf : db.video_on_upload.find? (fun v => decide (v.VideoID = videoID)) with
            | none => simp
            | some fetched =>
              have hfid : fetched.VideoID = videoID := by
                simpa using List.find?_some hf
              simp only
              by_cases ho : fetched.UserUID ≠ uid
              · simp [ho]
              · have ho' : fetched.UserUID = uid := by simpa using ho
                by_cases hd : f.deleteErr = true
                · simp [ho', hd]
                · by_cases hi : f.insertErr = true
                  · simp [ho', hd, hi]
                  · by_cases hu : f.updateErr = true
                    · simp [ho', hd, hi, hu, hfid]
                    · simp [ho', hd, hi, hu, hfid]

theorem Upload_tables (f : UploadFaults) (s3 : S3) (now : Nat) (videoID : String)
    (claims : Option String) (body : Option Videos) (db : Store) :
    (Upload f s3 now videoID claims body db).store.videos = db.videos ∧
    ((Upload f s3 now videoID claims body db).store.video_on_upload = db.video_on_upload ∨
      ∃ v : Videos, v.VideoID = videoID ∧
        (Upload f s3 now videoID claims body db).store.video_on_upload
          = db.video_on_upload ++ [v]) := by
  unfold Upload
  cases claims with
  | none => simp
  | some uid =>
    simp only
    cases queryRow f.userSelectErr (fun u => decide (u.UID = uid)) db.users with
    | errNoRows => simp
    | dbError => simp
    | row user =>
      cases body with
      | none => simp
      | some decoded =>
        simp only
        by_cases hi : f.insertErr = true
        · simp [hi]
        · simp only [hi, if_false]
          cases GeneratePresignedUploadURL s3 ("videos/" ++ videoID) with
          | error e => simp
          | ok u1 =>
            cases GeneratePresignedUploadURL s3 ("thumbnails/videos/" ++ videoID ++ ".jpg") with
            | error e => simp
            | ok u2 => simp

theorem Delete_tables (f : DeleteFaults) (s3 : S3) (claims : Option String) (videoID : String)
    (db : Store) :
    (Delete f s3 claims videoID db).store.video_on_upload = db.video_on_upload ∧
    ((Delete f s3 claims videoID db).store.videos = db.videos ∨
      (Delete f s3 claims videoID db).store.videos
        = db.videos.filter (fun v => v.VideoID ≠ videoID)) := by
  unfold Delete
  cases claims with
  | none => simp
  | some uid =>
    simp only
    by_cases hid : videoID = ""
    · simp [hid]
    · simp only [hid, if_false]
      cases queryRow f.selectErr (fun v => decide (v.VideoID = videoID)) db.videos with
      | errNoRows => simp
      | dbError => simp
      | row video =>
        simp only
        by_cases ho : video.UserUID ≠ uid
        · simp [ho]
        · have ho' : video.UserUID = uid := by simpa using ho
          by_cases hd : f.deleteErr = true
          · simp [ho', hd]
          · by_cases hu : f.updateErr = true
            · simp [ho', hd, hu, deleteVideoCascade]
            · simp [ho', hd, hu, deleteVideoCascade]

/-! ## Acknowledge: outcomes and client counters -/

/-- C1, as stated, fails: `alice` acknowledges her staged upload `c1`, both
assets are in the bucket and only the final `UPDATE users` fails.  The handler
answers 500 with the staged row deleted and the published row inserted but
`total_videos` not incremented: neither all three changes nor none of them. -/
theorem UploadACK_failed_update_is_partial :
    isStaged "c1" storeStaged ∧
    (UploadACK ackUpdateFails bucketC1 9 (some "alice") "c1" storeStaged).response
      = Response.error 500 "Failed to update user" ∧
    ¬ isStaged "c1" (UploadACK ackUpdateFails bucketC1 9 (some "alice") "c1" storeStaged).store ∧
    isPublished "c1" (UploadACK ackUpdateFails bucketC1 9 (some "alice") "c1" storeStaged).store ∧
    (UploadACK ackUpdateFails bucketC1 9 (some "alice") "c1" storeStaged).store.users
      = storeStaged.users := by
  decide

/-- C1, amended: whenever the `INSERT INTO videos` does not fail, a call of
`UploadACK` ends in one of three ways.  Either it answers with an error and the
store is unchanged; or every staged row of the id is deleted and one row is
appended to `videos`, and then either the answer is success and `total_videos`
of every user row of the owner is higher by 1, or the `UPDATE users` failed,
the answer is 500 "Failed to update user" and the user rows are unchanged.  The
appended row is the row read from `video_on_upload` with `updated_at` set to
the time of the call and `video_url` rebuilt from the id; its tags are the
staged ones when each staged tag is non-empty, holds no double quote and only
bytes below 128.  No other table changes. -/
theorem UploadACK_outcomes (f : AckFaults) (s3 : S3) (now : Nat) (claims : Option String)
    (videoID : String) (db : Store) (hins : f.insertErr = false) :
    ((UploadACK f s3 now claims videoID db).response.isSuccess = false ∧
      (UploadACK f s3 now claims videoID db).store = db) ∨
    ∃ fetched published : Videos,
      db.video_on_upload.find? (fun v => decide (v.VideoID = videoID)) = some fetched ∧
      claims = some fetched.UserUID ∧
      (UploadACK f s3 now claims videoID db).store.video_on_upload
        = db.video_on_upload.filter (fun v => v.VideoID ≠ videoID) ∧
      (UploadACK f s3 now claims videoID db).store.videos = db.videos ++ [published] ∧
      { published with VideoTags := fetched.VideoTags }
        = { fetched with UpdatedAt := now, VideoURL := "videos/" ++ videoID } ∧
      ((∀ tag ∈ fetched.VideoTags, plainItem tag) → published.VideoTags = fetched.VideoTags) ∧
      { (UploadACK f s3 now claims videoID db).store with
        users := db.users, video_on_upload := db.video_on_upload, videos := db.videos } = db ∧
      (((UploadACK f s3 now claims videoID db).response.isSuccess = true ∧
          (UploadACK f s3 now claims videoID db).store.users
            = db.users.map (fun u =>
                if u.UID = fetched.UserUID then { u with TotalVideos := u.TotalVideos + 1 }
                else u)) ∨
        ((UploadACK f s3 now claims videoID db).response
            = Response.error 500 "Failed to update user" ∧
          f.updateErr = true ∧
          (UploadACK f s3 now claims videoID db).store.users = db.users)) := by
  cases hs : (UploadACK f s3 now claims videoID db).response.isSuccess with
  | true =>
    right
    obtain ⟨fetched, _, _, hf, hc, hstore⟩ := UploadACK_success f s3 now claims videoID db hs
    refine ⟨fetched,
      { fetched with
        VideoTags := scannedTags fetched.VideoTags
        UpdatedAt := now
        VideoURL := "videos/" ++ videoID },
      hf, hc, ?_, ?_, rfl, ?_, ?_, Or.inl ⟨rfl, ?_⟩⟩
    · rw [hstore]
    · rw [hstore]
    · intro hplain
      exact scannedTags_plain fetched.VideoTags hplain
    · rw [hstore]
    · rw [hstore]
      rfl
  | false =>
    rcases UploadACK_failure f s3 now claims videoID db hins hs with
      h | ⟨fetched, hf, hc, hu, hr, hstore⟩
    · exact Or.inl ⟨rfl, h⟩
    · right
      refine ⟨fetched,
        { fetched with
          VideoTags := scannedTags fetched.VideoTags
          UpdatedAt := now
          VideoURL := "videos/" ++ videoID },
        hf, hc, ?_, ?_, rfl, ?_, ?_, Or.inr ⟨hr, hu, ?_⟩⟩
      · rw [hstore]
      · rw [hstore]
      · intro hplain
        exact scannedTags_plain fetched.VideoTags hplain
      · rw [hstore]
      · rw [hstore]

/-- Witness of C1 amended: `alice` acknowledges her staged `c1`, which carries
the tags `go` and `a,b`, and no statement fails.  The staged row is gone, the
row is published with its tags and `updated_at` 9, and `total_videos` of
`alice` went from 0 to 1. -/
theorem UploadACK_outcomes_witness :
    (ackOk.insertErr = false ∧
      (UploadACK ackOk bucketC1 9 (some "alice") "c1" storeStagedTagged).response
        = Response.success [("message", "video uploaded")] ∧
      storeStagedTagged.users = [{ alice with TotalVideos := 0 }] ∧
      (UploadACK ackOk bucketC1 9 (some "alice") "c1" storeStagedTagged).store.users
        = [{ alice with TotalVideos := 1 }] ∧
      (UploadACK ackOk bucketC1 9 (some "alice") "c1" storeStagedTagged).store.video_on_upload
        = [] ∧
      (UploadACK ackOk bucketC1 9 (some "alice") "c1" storeStagedTagged).store.videos
        = [{ stagedC1 with VideoTags := [utf8 "go", utf8 "a,b"], UpdatedAt := 9 }]) ∧
    (((UploadACK ackOk bucketC1 9 (some "alice") "c1" storeStagedTagged).response.isSuccess
          = false ∧
        (UploadACK ackOk bucketC1 9 (some "alice") "c1" storeStagedTagged).store
          = storeStagedTagged) ∨
      ∃ fetched published : Videos,
        storeStagedTagged.video_on_upload.find? (fun v => decide (v.VideoID = "c1"))
          = some fetched ∧
        some "alice" = some fetched.UserUID ∧
        (UploadACK ackOk bucketC1 9 (some "alice") "c1" storeStagedTagged).store.video_on_upload
          = storeStagedTagged.video_on_upload.filter (fun v => v.VideoID ≠ "c1") ∧
        (UploadACK ackOk bucketC1 9 (some "alice") "c1" storeStagedTagged).store.videos
          = storeStagedTagged.videos ++ [published] ∧
        { published with VideoTags := fetched.VideoTags }
          = { fetched with UpdatedAt := 9, VideoURL := "videos/" ++ "c1" } ∧
        ((∀ tag ∈ fetched.VideoTags, plainItem tag) →
          published.VideoTags = fetched.VideoTags) ∧
        { (UploadACK ackOk bucketC1 9 (some "alice") "c1" storeStagedTagged).store with
          users := storeStagedTagged.users
          video_on_upload := storeStagedTagged.video_on_upload
          videos := storeStagedTagged.videos } = storeStagedTagged ∧
        (((UploadACK ackOk bucketC1 9 (some "alice") "c1"
              storeStagedTagged).response.isSuccess = true ∧
            (UploadACK ackOk bucketC1 9 (some "alice") "c1" storeStagedTagged).store.users
              = storeStagedTagged.users.map (fun u =>
                  if u.UID = fetched.UserUID then { u with TotalVideos := u.TotalVideos + 1 }
                  else u)) ∨
          ((UploadACK ackOk bucketC1 9 (some "alice") "c1" storeStagedTagged).response
              = Response.error 500 "Failed to update user" ∧
            ackOk.updateErr = true ∧
            (UploadACK ackOk bucketC1 9 (some "alice") "c1" storeStagedTagged).store.users
              = storeStagedTagged.users))) :=
  ⟨by decide,
    UploadACK_outcomes ackOk bucketC1 9 (some "alice") "c1" storeStagedTagged (by decide)⟩

/-- The tags the statement above is silent on.  `alice` acknowledges a staged
`c1` whose tags are `a`, the empty string and `é`; no statement fails.  The
published row carries two tags, `a` and `Ã©`: the `Scan` of lines 174-176
dropped the empty tag and turned each of the two bytes of `é` into a rune of
its own. -/
theorem UploadACK_publishes_scanned_tags :
    storeStagedOddTags.video_on_upload.map (fun v => v.VideoTags)
      = [[utf8 "a", utf8 "", utf8 "\u00e9"]] ∧
    (UploadACK ackOk bucketC1 9 (some "alice") "c1" storeStagedOddTags).response
      = Response.success [("message", "video uploaded")] ∧
    (UploadACK ackOk bucketC1 9 (some "alice") "c1" storeStagedOddTags).store.videos.map
        (fun v => v.VideoTags)
      = [[utf8 "a", utf8 "\u00c3\u00a9"]] := by
  decide

/-- The outcome the statement above is silent on.  With only the
`INSERT INTO videos` failing, `UploadACK` answers 500 after its `DELETE` has
taken effect: `c1` was staged before the call and afterwards is neither in
`video_on_upload` nor in `videos`. -/
theorem UploadACK_failed_insert_leaves_id_in_neither_table :
    isStaged "c1" storeStaged ∧
    (UploadACK ackInsertFails bucketC1 9 (some "alice") "c1" storeStaged).response
      = Response.error 500 "Failed to insert video" ∧
    ¬ isStaged "c1" (UploadACK ackInsertFails bucketC1 9 (some "alice") "c1" storeStaged).store ∧
    ¬ isPublished "c1"
        (UploadACK ackInsertFails bucketC1 9 (some "alice") "c1" storeStaged).store ∧
    (UploadACK ackInsertFails bucketC1 9 (some "alice") "c1" storeStaged).store.users
      = storeStaged.users := by
  decide

/-- C2: the published row keeps the counters of the upload JSON.  `alice`
uploads a body with `video_views` 1000000, `video_upvotes` 500,
`video_downvotes` 3 and `video_comments` 7; both calls succeed and the row
inserted into `videos` carries exactly these four values. -/
theorem Upload_then_UploadACK_publishes_client_counters :
    (Upload uploadOk bucketC1 5 "c1" (some "alice") (some bodyWithCounters)
      storeAlice).response.isSuccess = true ∧
    (UploadACK ackOk bucketC1 9 (some "alice") "c1"
      (Upload uploadOk bucketC1 5 "c1" (some "alice") (some bodyWithCounters)
        storeAlice).store).response = Response.success [("message", "video uploaded")] ∧
    (UploadACK ackOk bucketC1 9 (some "alice") "c1"
      (Upload uploadOk bucketC1 5 "c1" (some "alice") (some bodyWithCounters)
        storeAlice).store).store.videos =
      [{ VideoID := "c1", VideoURL := "videos/c1", VideoThumbnail := "thumbnails/videos/c1.jpg"
         VideoTitle := "t", VideoDescription := "", VideoTags := []
         VideoViews := 1000000, VideoUpvotes := 500, VideoDownvotes := 3, VideoComments := 7
         UserUID := "alice", UserUsername := "alice01", CreatedAt := 5, UpdatedAt := 9 }] := by
  decide

/-! ## Acknowledge: the error cases -/

/-- C3, as stated, fails: `c1` is staged by `alice`, `bob` acknowledges it
while the bucket is empty, and the answer is the 404 of the asset check, not
403. -/
theorem UploadACK_not_owner_assets_absent_is_file_not_found :
    isStaged "c1" storeStaged ∧
    (∀ v ∈ storeStaged.video_on_upload, v.VideoID = "c1" → v.UserUID ≠ "bob") ∧
    (UploadACK ackOk bucketEmpty 9 (some "bob") "c1" storeStaged).response
      = Response.error 404 "Video file not found" ∧
    (UploadACK ackOk bucketEmpty 9 (some "bob") "c1" storeStaged).response
      ≠ Response.error 403 "Forbidden: you do not own this video" := by
  decide

/-- C3, amended: for a staged `videoID` none of whose rows belongs to the
actor, `UploadACK` leaves the store unchanged whatever the bucket holds and
whichever statements fail; it answers 403 Forbidden when both asset checks pass
and the lookup of the staged row executes, and the 404 of the asset check when
one of the two checks fails. -/
theorem UploadACK_not_owner (f : AckFaults) (s3 : S3) (now : Nat) (uid videoID : String)
    (db : Store) (hid : videoID ≠ "") (hstaged : isStaged videoID db)
    (hown : ∀ v ∈ db.video_on_upload, v.VideoID = videoID → v.UserUID ≠ uid) :
    (UploadACK f s3 now (some uid) videoID db).store = db ∧
    (assetsPresent s3 videoID = true → f.selectErr = false →
      (UploadACK f s3 now (some uid) videoID db).response
        = Response.error 403 "Forbidden: you do not own this video") ∧
    (assetsPresent s3 videoID = false →
      (UploadACK f s3 now (some uid) videoID db).response
          = Response.error 404 "Video file not found" ∨
        (UploadACK f s3 now (some uid) videoID db).response
          = Response.error 404 "Thumbnail file not found") := by
  cases hp : assetsPresent s3 videoID with
  | false =>
    obtain ⟨h1, h2⟩ := UploadACK_store_of_missing f s3 now uid videoID db hid hp
    exact ⟨h1, fun h => absurd h (by simp), fun _ => h2⟩
  | true =>
    obtain ⟨v, hv, hvid⟩ := hstaged
    have hsome : (db.video_on_upload.find? (fun v => decide (v.VideoID = videoID))).isSome = true := by
      rw [List.find?_isSome]
      exact ⟨v, hv, by simpa using hvid⟩
    obtain ⟨fetched, hf⟩ := Option.isSome_iff_exists.mp hsome
    have hfid : fetched.VideoID = videoID := by simpa using List.find?_some hf
    have hfo : fetched.UserUID ≠ uid := hown fetched (List.mem_of_find?_eq_some hf) hfid
    obtain ⟨h1, h2⟩ := UploadACK_present_row f s3 now uid videoID db fetched hid hp hf hfo
    refine ⟨h2, fun _ hs => ?_, fun h => absurd h (by simp)⟩
    rw [h1, hs]
    rfl

/-- Witness of C3 amended: `bob` acknowledges `alice`'s staged `c1` with both
assets in the bucket. -/
theorem UploadACK_not_owner_witness :
    ("c1" ≠ "" ∧ isStaged "c1" storeStaged ∧
      (∀ v ∈ storeStaged.video_on_upload, v.VideoID = "c1" → v.UserUID ≠ "bob")) ∧
    ((UploadACK ackOk bucketC1 9 (some "bob") "c1" storeStaged).store = storeStaged ∧
    (assetsPresent bucketC1 "c1" = true → ackOk.selectErr = false →
      (UploadACK ackOk bucketC1 9 (some "bob") "c1" storeStaged).response
        = Response.error 403 "Forbidden: you do not own this video") ∧
    (assetsPresent bucketC1 "c1" = false →
      (UploadACK ackOk bucketC1 9 (some "bob") "c1" storeStaged).response
          = Response.error 404 "Video file not found" ∨
        (UploadACK ackOk bucketC1 9 (some "bob") "c1" storeStaged).response
          = Response.error 404 "Thumbnail file not found")) :=
  ⟨by decide,
    UploadACK_not_owner ackOk bucketC1 9 "bob" "c1" storeStaged (by decide) (by decide)
      (by decide)⟩

/-- C4: when the existence check of the video or of the thumbnail reports the
object absent or returns an error, `UploadACK` answers with the 404 of that
check and the store is the one it started from: the staged row stays, no
published row is created and no user counter changes. -/
theorem UploadACK_asset_missing (f : AckFaults) (s3 : S3) (now : Nat) (uid videoID : String)
    (db : Store) (hid : videoID ≠ "")
    (h : reportsMissing (IsFileExists s3 ("videos/" ++ videoID)) = true ∨
      reportsMissing (IsFileExists s3 ("thumbnails/videos/" ++ videoID ++ ".jpg")) = true) :
    ((UploadACK f s3 now (some uid) videoID db).response
        = Response.error 404 "Video file not found" ∨
      (UploadACK f s3 now (some uid) videoID db).response
        = Response.error 404 "Thumbnail file not found") ∧
    (UploadACK f s3 now (some uid) videoID db).store = db := by
  have hp : assetsPresent s3 videoID = false := by
    unfold assetsPresent
    rcases h with h | h <;> simp [h]
  obtain ⟨h1, h2⟩ := UploadACK_store_of_missing f s3 now uid videoID db hid hp
  exact ⟨h2, h1⟩

/-- Witness of C4: `alice` acknowledges her staged `c1` before uploading
anything. -/
theorem UploadACK_asset_missing_witness :
    ("c1" ≠ "" ∧
      (reportsMissing (IsFileExists bucketEmpty ("videos/" ++ "c1")) = true ∨
        reportsMissing (IsFileExists bucketEmpty ("thumbnails/videos/" ++ "c1" ++ ".jpg"))
          = true)) ∧
    (((UploadACK ackOk bucketEmpty 9 (some "alice") "c1" storeStaged).response
        = Response.error 404 "Video file not found" ∨
      (UploadACK ackOk bucketEmpty 9 (some "alice") "c1" storeStaged).response
        = Response.error 404 "Thumbnail file not found") ∧
    (UploadACK ackOk bucketEmpty 9 (some "alice") "c1" storeStaged).store = storeStaged) :=
  ⟨by decide,
    UploadACK_asset_missing ackOk bucketEmpty 9 "alice" "c1" storeStaged (by decide)
      (by decide)⟩

/-- C5, as stated, fails: nothing is staged under `c1`, the bucket is empty,
and the answer is the 404 of the asset check ("Video file not found"), not the
404 of the missing staged row ("Video not found"). -/
theorem UploadACK_no_staged_row_assets_absent_is_file_not_found :
    ¬ isStaged "c1" storeAlice ∧
    (UploadACK ackOk bucketEmpty 9 (some "alice") "c1" storeAlice).response
      = Response.error 404 "Video file not found" ∧
    (UploadACK ackOk bucketEmpty 9 (some "alice") "c1" storeAlice).response
      ≠ Response.error 404 "Video not found" := by
  decide

/-- C5, amended: for a `videoID` with no row in `video_on_upload`, `UploadACK`
leaves the store unchanged for every actor, every bucket and every failing
statement; it answers 404 "Video not found" when both asset checks pass and
the lookup executes, and the 404 of the asset check when one of them fails. -/
theorem UploadACK_no_staged_row (f : AckFaults) (s3 : S3) (now : Nat) (uid videoID : String)
    (db : Store) (hid : videoID ≠ "") (hno : ¬ isStaged videoID db) :
    (UploadACK f s3 now (some uid) videoID db).store = db ∧
    (assetsPresent s3 videoID = true → f.selectErr = false →
      (UploadACK f s3 now (some uid) videoID db).response
        = Response.error 404 "Video not found") ∧
    (assetsPresent s3 videoID = false →
      (UploadACK f s3 now (some uid) videoID db).response
          = Response.error 404 "Video file not found" ∨
        (UploadACK f s3 now (some uid) videoID db).response
          = Response.error 404 "Thumbnail file not found") := by
  cases hp : assetsPresent s3 videoID with
  | false =>
    obtain ⟨h1, h2⟩ := UploadACK_store_of_missing f s3 now uid videoID db hid hp
    exact ⟨h1, fun h => absurd h (by simp), fun _ => h2⟩
  | true =>
    have hnone : db.video_on_upload.find? (fun v => decide (v.VideoID = videoID)) = none := by
      rw [List.find?_eq_none]
      intro v hv hvid
      exact hno ⟨v, hv, by simpa using hvid⟩
    obtain ⟨h1, h2⟩ := UploadACK_present_no_row f s3 now uid videoID db hid hp hnone
    refine ⟨h2, fun _ hs => ?_, fun h => absurd h (by simp)⟩
    rw [h1, hs]
    rfl

/-- Witness of C5 amended: `alice` acknowledges `c1`, which was never staged,
with both assets in the bucket. -/
theorem UploadACK_no_staged_row_witness :
    ("c1" ≠ "" ∧ ¬ isStaged "c1" storeAlice) ∧
    ((UploadACK ackOk bucketC1 9 (some "alice") "c1" storeAlice).store = storeAlice ∧
    (assetsPresent bucketC1 "c1" = true → ackOk.selectErr = false →
      (UploadACK ackOk bucketC1 9 (some "alice") "c1" storeAlice).response
        = Response.error 404 "Video not found") ∧
    (assetsPresent bucketC1 "c1" = false →
      (UploadACK ackOk bucketC1 9 (some "alice") "c1" storeAlice).response
          = Response.error 404 "Video file not found" ∨
        (UploadACK ackOk bucketC1 9 (some "alice") "c1" storeAlice).response
          = Response.error 404 "Thumbnail file not found")) :=
  ⟨by decide,
    UploadACK_no_staged_row ackOk bucketC1 9 "alice" "c1" storeAlice (by decide) (by decide)⟩

/-- C6: after an `UploadACK` that answered with success, a second `UploadACK`
of the same `videoID` by the same actor, with the same bucket, leaves the
store exactly as the first call left it (no second published row, no second
increment of `total_videos`) and answers 404 "Video not found" (500 "Failed to
fetch video" if its lookup statement itself fails). -/
theorem UploadACK_second_call_not_found (f1 f2 : AckFaults) (s3 : S3) (now1 now2 : Nat)
    (uid videoID : String) (db : Store)
    (h1 : (UploadACK f1 s3 now1 (some uid) videoID db).response.isSuccess = true) :
    (UploadACK f2 s3 now2 (some uid) videoID
        (UploadACK f1 s3 now1 (some uid) videoID db).store).response
      = (if f2.selectErr then Response.error 500 "Failed to fetch video"
         else Response.error 404 "Video not found") ∧
    (UploadACK f2 s3 now2 (some uid) videoID
        (UploadACK f1 s3 now1 (some uid) videoID db).store).store
      = (UploadACK f1 s3 now1 (some uid) videoID db).store := by
  obtain ⟨fetched, hid, hp, _, _, hstore⟩ := UploadACK_success f1 s3 now1 (some uid) videoID db h1
  have hnone : (UploadACK f1 s3 now1 (some uid) videoID db).store.video_on_upload.find?
      (fun v => decide (v.VideoID = videoID)) = none := by
    rw [hstore]
    exact find_filter_ne_videoID videoID db.video_on_upload
  exact UploadACK_present_no_row f2 s3 now2 uid videoID _ hid hp hnone

/-- Witness of C6: `alice` acknowledges her staged `c1` twice. -/
theorem UploadACK_second_call_not_found_witness :
    (UploadACK ackOk bucketC1 9 (some "alice") "c1" storeStaged).response.isSuccess = true ∧
    ((UploadACK ackOk bucketC1 10 (some "alice") "c1"
        (UploadACK ackOk bucketC1 9 (some "alice") "c1" storeStaged).store).response
      = (if ackOk.selectErr then Response.error 500 "Failed to fetch video"
         else Response.error 404 "Video not found") ∧
    (UploadACK ackOk bucketC1 10 (some "alice") "c1"
        (UploadACK ackOk bucketC1 9 (some "alice") "c1" storeStaged).store).store
      = (UploadACK ackOk bucketC1 9 (some "alice") "c1" storeStaged).store) :=
  ⟨by decide,
    UploadACK_second_call_not_found ackOk ackOk bucketC1 9 10 "alice" "c1" storeStaged
      (by decide)⟩

/-! ## The publication invariant -/

/-- C7: every step of the publication protocol (an `Upload` whose generated id
is in neither table, an `UploadACK` or a `Delete`, with any failing
statements) taken from a store in which no `video_id` is in both
`video_on_upload` and `videos` leads to a store with the same property. -/
theorem NoIdInBoth_preserved (db db' : Store) (h : NoIdInBoth db)
    (step : PublicationStep db db') : NoIdInBoth db' := by
  cases step with
  | upload f s3 now videoID claims body fresh =>
    obtain ⟨hv, hs⟩ := Upload_tables f s3 now videoID claims body db
    intro s hs' p hp
    rw [hv] at hp
    rcases hs with hs | ⟨v, hvid, hs⟩
    · rw [hs] at hs'
      exact h s hs' p hp
    · rw [hs, List.mem_append, List.mem_singleton] at hs'
      rcases hs' with hs' | rfl
      · exact h s hs' p hp
      · intro heq
        exact fresh.2 ⟨p, hp, by rw [← heq, hvid]⟩
  | acknowledge f s3 now claims videoID =>
    intro s hs p hp
    rcases UploadACK_tables f s3 now claims videoID db with ⟨h1, h2⟩ | ⟨h1, h2⟩
    · rw [h1] at hs
      rw [h2] at hp
      exact h s hs p hp
    · rw [h1, List.mem_filter] at hs
      have hsid : s.VideoID ≠ videoID := by simpa using hs.2
      rcases h2 with h2 | ⟨t, htid, h2⟩
      · rw [h2] at hp
        exact h s hs.1 p hp
      · rw [h2, List.mem_append, List.mem_singleton] at hp
        rcases hp with hp | rfl
        · exact h s hs.1 p hp
        · rw [htid]
          exact hsid
  | delete f s3 claims videoID =>
    intro s hs p hp
    obtain ⟨h1, h2⟩ := Delete_tables f s3 claims videoID db
    rw [h1] at hs
    rcases h2 with h2 | h2
    · rw [h2] at hp
      exact h s hs p hp
    · rw [h2, List.mem_filter] at hp
      exact h s hs p hp.1

/-- Witness of C7: the acknowledgement of `alice`'s staged `c1`. -/
theorem NoIdInBoth_preserved_witness :
    NoIdInBoth storeStaged ∧
    NoIdInBoth (UploadACK ackOk bucketC1 9 (some "alice") "c1" storeStaged).store :=
  ⟨by decide,
    NoIdInBoth_preserved storeStaged _ (by decide)
      (PublicationStep.acknowledge ackOk bucketC1 9 (some "alice") "c1")⟩

/-! ## Lemmas on `Upvote` and `Downvote` -/


/-! ### Counting rows of a reaction table

`kb` and `kt` are the two key columns of the table (`upvoted_by`, `upvoted_to`
or `downvoted_by`, `downvoted_to`). -/

theorem length_sub_length_filter_not {α : Type} (p : α → Bool) (l : List α) :
    l.length - (l.filter (fun a => !p a)).length = l.countP p := by
  induction l with
  | nil => simp
  | cons a l ih =>
    have hle := List.length_filter_le (fun a => !p a) l
    by_cases h : p a = true
    · simp only [List.filter_cons, h, Bool.not_true, List.countP_cons_of_pos, List.length_cons]
      simp only [Bool.false_eq_true, if_false]
      omega
    · simp only [Bool.not_eq_true] at h
      simp only [List.filter_cons, h, Bool.not_false, if_true, List.length_cons]
      rw [List.countP_cons_of_neg _ _ (by simp [h])]
      omega

theorem countP_filter_not_add {α : Type} (p q : α → Bool) (l : List α) :
    (l.filter (fun a => !p a)).countP q + l.countP (fun a => p a && q a) = l.countP q := by
  induction l with
  | nil => simp
  | cons a l ih =>
    cases hp : p a <;> cases hq : q a <;>
      simp [List.filter_cons, List.countP_cons, hp, hq] <;> omega

theorem countP_target_filter_pair {α : Type} (kb kt : α → String) (uid videoID t : String)
    (l : List α) :
    (l.filter (fun a => !(decide (kb a = uid) && decide (kt a = videoID)))).countP
        (fun a => decide (kt a = t))
      + (if t = videoID then
          l.countP (fun a => decide (kb a = uid) && decide (kt a = videoID)) else 0)
      = l.countP (fun a => decide (kt a = t)) := by
  have key := countP_filter_not_add
    (fun a => decide (kb a = uid) && decide (kt a = videoID)) (fun a => decide (kt a = t)) l
  rw [← key]
  congr 1
  by_cases ht : t = videoID
  · subst ht
    simp only [if_true]
    apply List.countP_congr
    intro a _
    by_cases h1 : kb a = uid <;> by_cases h2 : kt a = t <;> simp [h1, h2]
  · simp only [ht, if_false]
    symm
    rw [List.countP_eq_zero]
    intro a _
    by_cases h2 : kt a = videoID
    · have h3 : ¬ kt a = t := fun h3 => ht (h3.symm.trans h2)
      simp [h3]
    · simp [h2]

theorem countP_pair_filter_pair {α : Type} (p : α → Bool) (l : List α) :
    (l.filter (fun a => !p a)).countP p = 0 := by
  rw [List.countP_eq_zero]
  intro a ha
  simp only [List.mem_filter, Bool.not_eq_true'] at ha
  simp [ha.2]

theorem countP_pair_le_one {α : Type} (kb kt : α → String) (uid videoID : String) (l : List α)
    (h : (l.map (fun a => (kb a, kt a))).Nodup) :
    l.countP (fun a => decide (kb a = uid) && decide (kt a = videoID)) ≤ 1 := by
  induction l with
  | nil => simp
  | cons a l ih =>
    rw [List.map_cons, List.nodup_cons] at h
    have ih' := ih h.2
    by_cases hp : (decide (kb a = uid) && decide (kt a = videoID)) = true
    · rw [List.countP_cons_of_pos (fun a => decide (kb a = uid) && decide (kt a = videoID)) l hp]
      have hz : l.countP (fun a => decide (kb a = uid) && decide (kt a = videoID)) = 0 := by
        rw [List.countP_eq_zero]
        intro b hb hpb
        simp only [Bool.and_eq_true, decide_eq_true_eq] at hp hpb
        apply h.1
        rw [List.mem_map]
        exact ⟨b, hb, by rw [hpb.1, hpb.2, hp.1, hp.2]⟩
      omega
    · rw [List.countP_cons_of_neg (fun a => decide (kb a = uid) && decide (kt a = videoID)) l hp]
      exact ih'

theorem countP_of_find_none {α : Type} (p : α → Bool) (l : List α) (h : l.find? p = none) :
    l.countP p = 0 := by
  rw [List.countP_eq_zero]
  intro a ha
  rw [List.find?_eq_none] at h
  exact h a ha

theorem countP_of_find_isSome {α : Type} (p : α → Bool) (l : List α)
    (h : (l.find? p).isSome = true) : 1 ≤ l.countP p := by
  rw [Option.isSome_iff_exists] at h
  obtain ⟨a, ha⟩ := h
  have hp : 0 < l.countP p := List.countP_pos_iff.mpr ⟨a, List.mem_of_find?_eq_some ha, List.find?_some ha⟩
  omega

theorem any_of_find_none {α : Type} (p : α → Bool) (l : List α) (h : l.find? p = none) :
    l.any p = false := by
  rw [List.find?_eq_none] at h
  rw [List.any_eq_false]
  exact h

theorem Upvote_edges (f : VoteFaults) (now : Nat) (claims : Option String) (videoID : String)
    (db : Store) :
    ((Upvote f now claims videoID db).store.upvotes = db.upvotes ∧
      (Upvote f now claims videoID db).store.downvotes = db.downvotes) ∨
    ∃ uid, claims = some uid ∧
      (Upvote f now claims videoID db).store.downvotes
        = deleteDownvotes uid videoID db.downvotes ∧
      ((Upvote f now claims videoID db).store.upvotes = db.upvotes ∨
        (Upvote f now claims videoID db).store.upvotes = insertUpvote uid videoID now db.upvotes) := by
  unfold Upvote
  cases claims with
  | none => simp
  | some uid =>
    simp only
    by_cases hid : videoID = ""
    · simp [hid]
    · simp only [hid, if_false]
      cases hq : queryRow f.videoSelectErr (fun v => decide (v.VideoID = videoID)) db.videos with
      | errNoRows => simp
      | dbError => simp
      | row video =>
        simp only
        cases hv : queryRow f.voteSelectErr
            (fun u => decide (u.UpvotedBy = uid) && decide (u.UpvotedTo = videoID)) db.upvotes with
        | dbError => simp
        | row r =>
          simp only
          by_cases hd : f.delErr = true
          · simp [hd]
          · by_cases hr : db.downvotes.length - (deleteDownvotes uid videoID db.downvotes).length > 0
            · by_cases hu : f.updErr = true
              · simp [hd, hr, hu]
              · simp [hd, hr, hu]
            · simp [hd, hr]
        | errNoRows =>
          simp only
          by_cases hd : f.delErr = true
          · simp [hd]
          · by_cases hr : db.downvotes.length - (deleteDownvotes uid videoID db.downvotes).length > 0
            · by_cases hu : f.updErr = true
              · simp [hd, hr, hu]
              · by_cases hi : f.insertErr = true
                · simp [hd, hr, hu, hi]
                · by_cases hx : f.updateErr = true
                  · simp [hd, hr, hu, hi, hx]
                  · simp [hd, hr, hu, hi, hx]
            · by_cases hi : f.insertErr = true
              · simp [hd, hr, hi]
              · by_cases hx : f.updateErr = true
                · simp [hd, hr, hi, hx]
                · simp [hd, hr, hi, hx]

theorem Upvote_success (f : VoteFaults) (now : Nat) (claims : Option String) (videoID : String)
    (db : Store) (h : (Upvote f now claims videoID db).response.isSuccess = true) :
    ∃ uid, claims = some uid ∧
      (((db.upvotes.find? (fun u => decide (u.UpvotedBy = uid) && decide (u.UpvotedTo = videoID))).isSome ∧
          ((Upvote f now claims videoID db).store = db ∨
            (Upvote f now claims videoID db).store =
              { db with
                downvotes := deleteDownvotes uid videoID db.downvotes
                videos :=
                  if db.downvotes.length - (deleteDownvotes uid videoID db.downvotes).length > 0
                  then addVideoDownvotes videoID (-1) db.videos else db.videos })) ∨
        (db.upvotes.find? (fun u => decide (u.UpvotedBy = uid) && decide (u.UpvotedTo = videoID)) = none ∧
          (Upvote f now claims videoID db).store =
            { db with
              upvotes := insertUpvote uid videoID now db.upvotes
              downvotes := deleteDownvotes uid videoID db.downvotes
              videos := addVideoUpvotes videoID 1
                (if db.downvotes.length - (deleteDownvotes uid videoID db.downvotes).length > 0
                  then addVideoDownvotes videoID (-1) db.videos else db.videos) })) := by
  unfold Upvote at h ⊢
  cases claims with
  | none => simp [Response.isSuccess] at h
  | some uid =>
    refine ⟨uid, rfl, ?_⟩
    simp only at h ⊢
    by_cases hid : videoID = ""
    · simp [hid, Response.isSuccess] at h
    · simp only [hid, if_false] at h ⊢
      cases hq : queryRow f.videoSelectErr (fun v => decide (v.VideoID = videoID)) db.videos with
      | errNoRows => simp [hq, Response.isSuccess] at h
      | dbError => simp [hq, Response.isSuccess] at h
      | row video =>
        simp only [hq] at h ⊢
        unfold queryRow at h ⊢
        by_cases hs : f.voteSelectErr = true
        · simp [hs, Response.isSuccess] at h
        · simp only [hs, if_false] at h ⊢
          cases hf : db.upvotes.find? (fun u => decide (u.UpvotedBy = uid) && decide (u.UpvotedTo = videoID)) with
          | some row =>
            left
            simp only [hf] at h ⊢
            refine ⟨by simp, ?_⟩
            by_cases hd : f.delErr = true
            · simp [hd]
            · right
              simp only [hd, if_false] at h ⊢
              by_cases hr : db.downvotes.length - (deleteDownvotes uid videoID db.downvotes).length > 0
              · simp only [hr, if_true] at h ⊢
                by_cases hu : f.updErr = true
                · simp [hu, Response.isSuccess] at h
                · simp [hu]
              · simp [hr]
          | none =>
            right
            simp only [hf] at h ⊢
            refine ⟨trivial, ?_⟩
            by_cases hd : f.delErr = true
            · simp [hd, Response.isSuccess] at h
            · simp only [hd, if_false] at h ⊢
              by_cases hr : db.downvotes.length - (deleteDownvotes uid videoID db.downvotes).length > 0
              · by_cases hu : f.updErr = true
                · simp [hr, hu, Response.isSuccess] at h
                · by_cases hi : f.insertErr = true
                  · simp [hr, hu, hi, Response.isSuccess] at h
                  · by_cases hx : f.updateErr = true
                    · simp [hr, hu, hi, hx, Response.isSuccess] at h
                    · simp [hr, hu, hi, hx]
              · by_cases hi : f.insertErr = true
                · simp [hr, hi, Response.isSuccess] at h
                · by_cases hx : f.updateErr = true
                  · simp [hr, hi, hx, Response.isSuccess] at h
                  · simp [hr, hi, hx]


theorem Downvote_edges (f : VoteFaults) (now : Nat) (claims : Option String) (videoID : String)
    (db : Store) :
    ((Downvote f now claims videoID db).store.downvotes = db.downvotes ∧
      (Downvote f now claims videoID db).store.upvotes = db.upvotes) ∨
    ∃ uid, claims = some uid ∧
      (Downvote f now claims videoID db).store.upvotes
        = deleteUpvotes uid videoID db.upvotes ∧
      ((Downvote f now claims videoID db).store.downvotes = db.downvotes ∨
        (Downvote f now claims videoID db).store.downvotes = insertDownvote uid videoID now db.downvotes) := by
  unfold Downvote
  cases claims with
  | none => simp
  | some uid =>
    simp only
    by_cases hid : videoID = ""
    · simp [hid]
    · simp only [hid, if_false]
      cases hq : queryRow f.videoSelectErr (fun v => decide (v.VideoID = videoID)) db.videos with
      | errNoRows => simp
      | dbError => simp
      | row video =>
        simp only
        cases hv : queryRow f.voteSelectErr
            (fun u => decide (u.DownvotedBy = uid) && decide (u.DownvotedTo = videoID)) db.downvotes with
        | dbError => simp
        | row r =>
          simp only
          by_cases hd : f.delErr = true
          · simp [hd]
          · by_cases hr : db.upvotes.length - (deleteUpvotes uid videoID db.upvotes).length > 0
            · by_cases hu : f.updErr = true
              · simp [hd, hr, hu]
              · simp [hd, hr, hu]
            · simp [hd, hr]
        | errNoRows =>
          simp only
          by_cases hd : f.delErr = true
          · simp [hd]
          · by_cases hr : db.upvotes.length - (deleteUpvotes uid videoID db.upvotes).length > 0
            · by_cases hu : f.updErr = true
              · simp [hd, hr, hu]
              · by_cases hi : f.insertErr = true
                · simp [hd, hr, hu, hi]
                · by_cases hx : f.updateErr = true
                  · simp [hd, hr, hu, hi, hx]
                  · simp [hd, hr, hu, hi, hx]
            · by_cases hi : f.insertErr = true
              · simp [hd, hr, hi]
              · by_cases hx : f.updateErr = true
                · simp [hd, hr, hi, hx]
                · simp [hd, hr, hi, hx]

theorem Downvote_success (f : VoteFaults) (now : Nat) (claims : Option String) (videoID : String)
    (db : Store) (h : (Downvote f now claims videoID db).response.isSuccess = true) :
    ∃ uid, claims = some uid ∧
      (((db.downvotes.find? (fun u => decide (u.DownvotedBy = uid) && decide (u.DownvotedTo = videoID))).isSome ∧
          ((Downvote f now claims videoID db).store = db ∨
            (Downvote f now claims videoID db).store =
              { db with
                upvotes := deleteUpvotes uid videoID db.upvotes
                videos :=
                  if db.upvotes.length - (deleteUpvotes uid videoID db.upvotes).length > 0
                  then addVideoUpvotes videoID (-1) db.videos else db.videos })) ∨
        (db.downvotes.find? (fun u => decide (u.DownvotedBy = uid) && decide (u.DownvotedTo = videoID)) = none ∧
          (Downvote f now claims videoID db).store =
            { db with
              downvotes := insertDownvote uid videoID now db.downvotes
              upvotes := deleteUpvotes uid videoID db.upvotes
              videos := addVideoDownvotes videoID 1
                (if db.upvotes.length - (deleteUpvotes uid videoID db.upvotes).length > 0
                  then addVideoUpvotes videoID (-1) db.videos else db.videos) })) := by
  unfold Downvote at h ⊢
  cases claims with
  | none => simp [Response.isSuccess] at h
  | some uid =>
    refine ⟨uid, rfl, ?_⟩
    simp only at h ⊢
    by_cases hid : videoID = ""
    · simp [hid, Response.isSuccess] at h
    · simp only [hid, if_false] at h ⊢
      cases hq : queryRow f.videoSelectErr (fun v => decide (v.VideoID = videoID)) db.videos with
      | errNoRows => simp [hq, Response.isSuccess] at h
      | dbError => simp [hq, Response.isSuccess] at h
      | row video =>
        simp only [hq] at h ⊢
        unfold queryRow at h ⊢
        by_cases hs : f.voteSelectErr = true
        · simp [hs, Response.isSuccess] at h
        · simp only [hs, if_false] at h ⊢
          cases hf : db.downvotes.find? (fun u => decide (u.DownvotedBy = uid) && decide (u.DownvotedTo = videoID)) with
          | some row =>
            left
            simp only [hf] at h ⊢
            refine ⟨by simp, ?_⟩
            by_cases hd : f.delErr = true
            · simp [hd]
            · right
              simp only [hd, if_false] at h ⊢
              by_cases hr : db.upvotes.length - (deleteUpvotes uid videoID db.upvotes).length > 0
              · simp only [hr, if_true] at h ⊢
                by_cases hu : f.updErr = true
                · simp [hu, Response.isSuccess] at h
                · simp [hu]
              · simp [hr]
          | none =>
            right
            simp only [hf] at h ⊢
            refine ⟨trivial, ?_⟩
            by_cases hd : f.delErr = true
            · simp [hd, Response.isSuccess] at h
            · simp only [hd, if_false] at h ⊢
              by_cases hr : db.upvotes.length - (deleteUpvotes uid videoID db.upvotes).length > 0
              · by_cases hu : f.updErr = true
                · simp [hr, hu, Response.isSuccess] at h
                · by_cases hi : f.insertErr = true
                  · simp [hr, hu, hi, Response.isSuccess] at h
                  · by_cases hx : f.updateErr = true
                    · simp [hr, hu, hi, hx, Response.isSuccess] at h
                    · simp [hr, hu, hi, hx]
              · by_cases hi : f.insertErr = true
                · simp [hr, hi, Response.isSuccess] at h
                · by_cases hx : f.updateErr = true
                  · simp [hr, hi, hx, Response.isSuccess] at h
                  · simp [hr, hi, hx]


theorem mem_insertUpvote (uid videoID : String) (now : Nat) (t : List Upvotes) (u : Upvotes)
    (h : u ∈ insertUpvote uid videoID now t) :
    u ∈ t ∨ (u.UpvotedBy = uid ∧ u.UpvotedTo = videoID) := by
  unfold insertUpvote at h
  split at h
  · exact Or.inl h
  · rw [List.mem_append, List.mem_singleton] at h
    rcases h with h | rfl
    · exact Or.inl h
    · exact Or.inr ⟨rfl, rfl⟩

theorem mem_deleteUpvotes (uid videoID : String) (t : List Upvotes) (u : Upvotes)
    (h : u ∈ deleteUpvotes uid videoID t) :
    u ∈ t ∧ ¬ (u.UpvotedBy = uid ∧ u.UpvotedTo = videoID) := by
  unfold deleteUpvotes at h
  rw [List.mem_filter] at h
  refine ⟨h.1, ?_⟩
  intro hc
  have h2 := h.2
  simp [hc.1, hc.2] at h2

theorem mem_insertDownvote (uid videoID : String) (now : Nat) (t : List Downvotes) (u : Downvotes)
    (h : u ∈ insertDownvote uid videoID now t) :
    u ∈ t ∨ (u.DownvotedBy = uid ∧ u.DownvotedTo = videoID) := by
  unfold insertDownvote at h
  split at h
  · exact Or.inl h
  · rw [List.mem_append, List.mem_singleton] at h
    rcases h with h | rfl
    · exact Or.inl h
    · exact Or.inr ⟨rfl, rfl⟩

theorem mem_deleteDownvotes (uid videoID : String) (t : List Downvotes) (u : Downvotes)
    (h : u ∈ deleteDownvotes uid videoID t) :
    u ∈ t ∧ ¬ (u.DownvotedBy = uid ∧ u.DownvotedTo = videoID) := by
  unfold deleteDownvotes at h
  rw [List.mem_filter] at h
  refine ⟨h.1, ?_⟩
  intro hc
  have h2 := h.2
  simp [hc.1, hc.2] at h2

theorem MutualExclusion_Upvote (f : VoteFaults) (now : Nat) (claims : Option String)
    (videoID : String) (db : Store) (h : MutualExclusion db) :
    MutualExclusion (Upvote f now claims videoID db).store := by
  intro u hu d hd
  rcases Upvote_edges f now claims videoID db with ⟨h1, h2⟩ | ⟨uid, _, h2, h1⟩
  · rw [h1] at hu
    rw [h2] at hd
    exact h u hu d hd
  · rw [h2] at hd
    have hd' := mem_deleteDownvotes uid videoID db.downvotes d hd
    rcases h1 with h1 | h1
    · rw [h1] at hu
      exact h u hu d hd'.1
    · rw [h1] at hu
      rcases mem_insertUpvote uid videoID now db.upvotes u hu with hu' | hu'
      · exact h u hu' d hd'.1
      · intro hc
        exact hd'.2 ⟨hc.1.symm.trans hu'.1, hc.2.symm.trans hu'.2⟩

theorem MutualExclusion_Downvote (f : VoteFaults) (now : Nat) (claims : Option String)
    (videoID : String) (db : Store) (h : MutualExclusion db) :
    MutualExclusion (Downvote f now claims videoID db).store := by
  intro u hu d hd
  rcases Downvote_edges f now claims videoID db with ⟨h1, h2⟩ | ⟨uid, _, h2, h1⟩
  · rw [h1] at hd
    rw [h2] at hu
    exact h u hu d hd
  · rw [h2] at hu
    have hu' := mem_deleteUpvotes uid videoID db.upvotes u hu
    rcases h1 with h1 | h1
    · rw [h1] at hd
      exact h u hu'.1 d hd
    · rw [h1] at hd
      rcases mem_insertDownvote uid videoID now db.downvotes d hd with hd' | hd'
      · exact h u hu'.1 d hd'
      · intro hc
        exact hu'.2 ⟨hc.1.trans hd'.1, hc.2.trans hd'.2⟩

theorem mem_addVideoUpvotes (videoID : String) (d : Int) (vs : List Videos) (w : Videos)
    (h : w ∈ addVideoUpvotes videoID d vs) :
    ∃ v ∈ vs, w.VideoID = v.VideoID ∧
      w.VideoUpvotes = v.VideoUpvotes + (if v.VideoID = videoID then d else 0) ∧
      w.VideoDownvotes = v.VideoDownvotes := by
  unfold addVideoUpvotes at h
  rw [List.mem_map] at h
  obtain ⟨v, hv, rfl⟩ := h
  refine ⟨v, hv, ?_⟩
  by_cases hid : v.VideoID = videoID <;> simp [hid]

theorem upvotesTo_insertUpvote (uid videoID t : String) (now : Nat) (l : List Upvotes)
    (h : l.find? (fun u => decide (u.UpvotedBy = uid) && decide (u.UpvotedTo = videoID)) = none) :
    upvotesTo t (insertUpvote uid videoID now l)
      = upvotesTo t l + (if t = videoID then 1 else 0) := by
  unfold insertUpvote upvotesTo
  rw [any_of_find_none _ _ h]
  simp only [Bool.false_eq_true, if_false, List.countP_append, List.countP_cons, List.countP_nil,
    Nat.zero_add, decide_eq_true_eq]
  by_cases ht : t = videoID
  · simp [ht]
  · have ht' : ¬ videoID = t := fun e => ht e.symm
    simp [ht, ht']

theorem upvotesTo_deleteUpvotes (uid videoID t : String) (l : List Upvotes) :
    upvotesTo t (deleteUpvotes uid videoID l)
      + (if t = videoID then l.length - (deleteUpvotes uid videoID l).length else 0)
      = upvotesTo t l := by
  unfold upvotesTo deleteUpvotes
  rw [length_sub_length_filter_not
    (fun u : Upvotes => decide (u.UpvotedBy = uid) && decide (u.UpvotedTo = videoID)) l]
  exact countP_target_filter_pair Upvotes.UpvotedBy Upvotes.UpvotedTo uid videoID t l

theorem deleteUpvotes_rows_le_one (uid videoID : String) (l : List Upvotes)
    (h : (l.map (fun u => (u.UpvotedBy, u.UpvotedTo))).Nodup) :
    l.length - (deleteUpvotes uid videoID l).length ≤ 1 := by
  unfold deleteUpvotes
  rw [length_sub_length_filter_not
    (fun u : Upvotes => decide (u.UpvotedBy = uid) && decide (u.UpvotedTo = videoID)) l]
  exact countP_pair_le_one Upvotes.UpvotedBy Upvotes.UpvotedTo uid videoID l h

theorem mem_addVideoDownvotes (videoID : String) (d : Int) (vs : List Videos) (w : Videos)
    (h : w ∈ addVideoDownvotes videoID d vs) :
    ∃ v ∈ vs, w.VideoID = v.VideoID ∧
      w.VideoUpvotes = v.VideoUpvotes ∧
      w.VideoDownvotes = v.VideoDownvotes + (if v.VideoID = videoID then d else 0) := by
  unfold addVideoDownvotes at h
  rw [List.mem_map] at h
  obtain ⟨v, hv, rfl⟩ := h
  refine ⟨v, hv, ?_⟩
  by_cases hid : v.VideoID = videoID <;> simp [hid]

theorem downvotesTo_insertDownvote (uid videoID t : String) (now : Nat) (l : List Downvotes)
    (h : l.find? (fun u => decide (u.DownvotedBy = uid) && decide (u.DownvotedTo = videoID)) = none) :
    downvotesTo t (insertDownvote uid videoID now l)
      = downvotesTo t l + (if t = videoID then 1 else 0) := by
  unfold insertDownvote downvotesTo
  rw [any_of_find_none _ _ h]
  simp only [Bool.false_eq_true, if_false, List.countP_append, List.countP_cons, List.countP_nil,
    Nat.zero_add, decide_eq_true_eq]
  by_cases ht : t = videoID
  · simp [ht]
  · have ht' : ¬ videoID = t := fun e => ht e.symm
    simp [ht, ht']

theorem downvotesTo_deleteDownvotes (uid videoID t : String) (l : List Downvotes) :
    downvotesTo t (deleteDownvotes uid videoID l)
      + (if t = videoID then l.length - (deleteDownvotes uid videoID l).length else 0)
      = downvotesTo t l := by
  unfold downvotesTo deleteDownvotes
  rw [length_sub_length_filter_not
    (fun u : Downvotes => decide (u.DownvotedBy = uid) && decide (u.DownvotedTo = videoID)) l]
  exact countP_target_filter_pair Downvotes.DownvotedBy Downvotes.DownvotedTo uid videoID t l

theorem deleteDownvotes_rows_le_one (uid videoID : String) (l : List Downvotes)
    (h : (l.map (fun u => (u.DownvotedBy, u.DownvotedTo))).Nodup) :
    l.length - (deleteDownvotes uid videoID l).length ≤ 1 := by
  unfold deleteDownvotes
  rw [length_sub_length_filter_not
    (fun u : Downvotes => decide (u.DownvotedBy = uid) && decide (u.DownvotedTo = videoID)) l]
  exact countP_pair_le_one Downvotes.DownvotedBy Downvotes.DownvotedTo uid videoID l h

theorem CountersMatch_of (videoID : String) (du dd : Int) (db db' : Store)
    (hv : ∀ w ∈ db'.videos, ∃ v ∈ db.videos, w.VideoID = v.VideoID ∧
      w.VideoUpvotes = v.VideoUpvotes + (if v.VideoID = videoID then du else 0) ∧
      w.VideoDownvotes = v.VideoDownvotes + (if v.VideoID = videoID then dd else 0))
    (hup : ∀ t : String, (upvotesTo t db'.upvotes : Int)
      = upvotesTo t db.upvotes + (if t = videoID then du else 0))
    (hdown : ∀ t : String, (downvotesTo t db'.downvotes : Int)
      = downvotesTo t db.downvotes + (if t = videoID then dd else 0))
    (h : CountersMatch db) : CountersMatch db' := by
  intro w hw
  obtain ⟨v, hvm, hid, hu, hd⟩ := hv w hw
  obtain ⟨h1, h2⟩ := h v hvm
  rw [hid, hu, hd, hup, hdown, h1, h2]
  exact ⟨rfl, rfl⟩

theorem mem_videos_after_deleteDownvotes (uid videoID : String) (db : Store) (w : Videos)
    (hw : w ∈ (if db.downvotes.length - (deleteDownvotes uid videoID db.downvotes).length > 0
      then addVideoDownvotes videoID (-1) db.videos else db.videos)) :
    ∃ v ∈ db.videos, w.VideoID = v.VideoID ∧
      w.VideoUpvotes = v.VideoUpvotes ∧
      w.VideoDownvotes = v.VideoDownvotes + (if v.VideoID = videoID then
        (if db.downvotes.length - (deleteDownvotes uid videoID db.downvotes).length > 0
          then -1 else 0) else 0) := by
  by_cases hr : db.downvotes.length - (deleteDownvotes uid videoID db.downvotes).length > 0
  · simp only [hr, if_true] at hw ⊢
    exact mem_addVideoDownvotes videoID (-1) db.videos w hw
  · simp only [hr, if_false] at hw ⊢
    exact ⟨w, hw, rfl, rfl, by simp⟩

theorem downvotesTo_after_deleteDownvotes (uid videoID t : String) (db : Store)
    (hu : UniqueVotes db) :
    (downvotesTo t (deleteDownvotes uid videoID db.downvotes) : Int)
      = downvotesTo t db.downvotes + (if t = videoID then
        (if db.downvotes.length - (deleteDownvotes uid videoID db.downvotes).length > 0
          then -1 else 0) else 0) := by
  have hr := deleteDownvotes_rows_le_one uid videoID db.downvotes hu.2
  have hdel := downvotesTo_deleteDownvotes uid videoID t db.downvotes
  by_cases ht : t = videoID
  · simp only [ht, if_true] at hdel ⊢
    by_cases hr0 : db.downvotes.length - (deleteDownvotes uid videoID db.downvotes).length > 0
    · simp only [hr0, if_true]
      omega
    · simp only [hr0, if_false]
      omega
  · simp only [ht, if_false] at hdel ⊢
    omega

theorem CountersMatch_Upvote (f : VoteFaults) (now : Nat) (claims : Option String)
    (videoID : String) (db : Store) (hu : UniqueVotes db) (hc : CountersMatch db)
    (hs : (Upvote f now claims videoID db).response.isSuccess = true) :
    CountersMatch (Upvote f now claims videoID db).store := by
  obtain ⟨uid, _, h⟩ := Upvote_success f now claims videoID db hs
  rcases h with ⟨_, h | h⟩ | ⟨hnone, h⟩
  · rw [h]
    exact hc
  · rw [h]
    refine CountersMatch_of videoID 0
      (if db.downvotes.length - (deleteDownvotes uid videoID db.downvotes).length > 0
        then -1 else 0) db _ ?_ ?_ ?_ hc
    · intro w hw
      obtain ⟨v, hv, h1, h2, h3⟩ := mem_videos_after_deleteDownvotes uid videoID db w hw
      exact ⟨v, hv, h1, by simp [h2], h3⟩
    · intro t
      simp
    · intro t
      exact downvotesTo_after_deleteDownvotes uid videoID t db hu
  · rw [h]
    refine CountersMatch_of videoID 1
      (if db.downvotes.length - (deleteDownvotes uid videoID db.downvotes).length > 0
        then -1 else 0) db _ ?_ ?_ ?_ hc
    · intro w hw
      obtain ⟨x, hx, g1, g2, g3⟩ := mem_addVideoUpvotes videoID 1 _ w hw
      obtain ⟨v, hv, h1, h2, h3⟩ := mem_videos_after_deleteDownvotes uid videoID db x hx
      refine ⟨v, hv, g1.trans h1, ?_, ?_⟩
      · rw [g2, h2, h1]
      · rw [g3, h3]
    · intro t
      simp only
      rw [upvotesTo_insertUpvote uid videoID t now db.upvotes hnone]
      by_cases ht : t = videoID <;> simp [ht]
    · intro t
      exact downvotesTo_after_deleteDownvotes uid videoID t db hu

theorem mem_videos_after_deleteUpvotes (uid videoID : String) (db : Store) (w : Videos)
    (hw : w ∈ (if db.upvotes.length - (deleteUpvotes uid videoID db.upvotes).length > 0
      then addVideoUpvotes videoID (-1) db.videos else db.videos)) :
    ∃ v ∈ db.videos, w.VideoID = v.VideoID ∧
      w.VideoUpvotes = v.VideoUpvotes + (if v.VideoID = videoID then
        (if db.upvotes.length - (deleteUpvotes uid videoID db.upvotes).length > 0
          then -1 else 0) else 0) ∧
      w.VideoDownvotes = v.VideoDownvotes := by
  by_cases hr : db.upvotes.length - (deleteUpvotes uid videoID db.upvotes).length > 0
  · simp only [hr, if_true] at hw ⊢
    exact mem_addVideoUpvotes videoID (-1) db.videos w hw
  · simp only [hr, if_false] at hw ⊢
    exact ⟨w, hw, rfl, by simp, rfl⟩

theorem upvotesTo_after_deleteUpvotes (uid videoID t : String) (db : Store)
    (hu : UniqueVotes db) :
    (upvotesTo t (deleteUpvotes uid videoID db.upvotes) : Int)
      = upvotesTo t db.upvotes + (if t = videoID then
        (if db.upvotes.length - (deleteUpvotes uid videoID db.upvotes).length > 0
          then -1 else 0) else 0) := by
  have hr := deleteUpvotes_rows_le_one uid videoID db.upvotes hu.1
  have hdel := upvotesTo_deleteUpvotes uid videoID t db.upvotes
  by_cases ht : t = videoID
  · simp only [ht, if_true] at hdel ⊢
    by_cases hr0 : db.upvotes.length - (deleteUpvotes uid videoID db.upvotes).length > 0
    · simp only [hr0, if_true]
      omega
    · simp only [hr0, if_false]
      omega
  · simp only [ht, if_false] at hdel ⊢
    omega

theorem CountersMatch_Downvote (f : VoteFaults) (now : Nat) (claims : Option String)
    (videoID : String) (db : Store) (hu : UniqueVotes db) (hc : CountersMatch db)
    (hs : (Downvote f now claims videoID db).response.isSuccess = true) :
    CountersMatch (Downvote f now claims videoID db).store := by
  obtain ⟨uid, _, h⟩ := Downvote_success f now claims videoID db hs
  rcases h with ⟨_, h | h⟩ | ⟨hnone, h⟩
  · rw [h]
    exact hc
  · rw [h]
    refine CountersMatch_of videoID
      (if db.upvotes.length - (deleteUpvotes uid videoID db.upvotes).length > 0
        then -1 else 0) 0 db _ ?_ ?_ ?_ hc
    · intro w hw
      obtain ⟨v, hv, h1, h2, h3⟩ := mem_videos_after_deleteUpvotes uid videoID db w hw
      exact ⟨v, hv, h1, h2, by simp [h3]⟩
    · intro t
      exact upvotesTo_after_deleteUpvotes uid videoID t db hu
    · intro t
      simp
  · rw [h]
    refine CountersMatch_of videoID
      (if db.upvotes.length - (deleteUpvotes uid videoID db.upvotes).length > 0
        then -1 else 0) 1 db _ ?_ ?_ ?_ hc
    · intro w hw
      obtain ⟨x, hx, g1, g2, g3⟩ := mem_addVideoDownvotes videoID 1 _ w hw
      obtain ⟨v, hv, h1, h2, h3⟩ := mem_videos_after_deleteUpvotes uid videoID db x hx
      refine ⟨v, hv, g1.trans h1, ?_, ?_⟩
      · rw [g2, h2]
      · rw [g3, h3, h1]
    · intro t
      exact upvotesTo_after_deleteUpvotes uid videoID t db hu
    · intro t
      simp only
      rw [downvotesTo_insertDownvote uid videoID t now db.downvotes hnone]
      by_cases ht : t = videoID <;> simp [ht]

theorem countP_pair_insertUpvote (uid videoID : String) (now : Nat) (l : List Upvotes)
    (h : l.find? (fun u => decide (u.UpvotedBy = uid) && decide (u.UpvotedTo = videoID)) = none) :
    (insertUpvote uid videoID now l).countP
      (fun u => decide (u.UpvotedBy = uid) && decide (u.UpvotedTo = videoID)) = 1 := by
  unfold insertUpvote
  rw [any_of_find_none _ _ h]
  simp only [Bool.false_eq_true, if_false, List.countP_append]
  rw [countP_of_find_none _ _ h]
  simp

theorem countP_pair_deleteUpvotes (uid videoID : String) (l : List Upvotes) :
    (deleteUpvotes uid videoID l).countP
      (fun u => decide (u.UpvotedBy = uid) && decide (u.UpvotedTo = videoID)) = 0 := by
  unfold deleteUpvotes
  exact countP_pair_filter_pair
    (fun u : Upvotes => decide (u.UpvotedBy = uid) && decide (u.UpvotedTo = videoID)) l

theorem countP_pair_insertDownvote (uid videoID : String) (now : Nat) (l : List Downvotes)
    (h : l.find? (fun u => decide (u.DownvotedBy = uid) && decide (u.DownvotedTo = videoID)) = none) :
    (insertDownvote uid videoID now l).countP
      (fun u => decide (u.DownvotedBy = uid) && decide (u.DownvotedTo = videoID)) = 1 := by
  unfold insertDownvote
  rw [any_of_find_none _ _ h]
  simp only [Bool.false_eq_true, if_false, List.countP_append]
  rw [countP_of_find_none _ _ h]
  simp

theorem countP_pair_deleteDownvotes (uid videoID : String) (l : List Downvotes) :
    (deleteDownvotes uid videoID l).countP
      (fun u => decide (u.DownvotedBy = uid) && decide (u.DownvotedTo = videoID)) = 0 := by
  unfold deleteDownvotes
  exact countP_pair_filter_pair
    (fun u : Downvotes => decide (u.DownvotedBy = uid) && decide (u.DownvotedTo = videoID)) l

theorem edges_after_Upvote (f : VoteFaults) (now : Nat) (uid videoID : String) (db : Store)
    (h0 : upvoteEdges uid videoID db + downvoteEdges uid videoID db ≤ 1)
    (hs : (Upvote f now (some uid) videoID db).response.isSuccess = true) :
    upvoteEdges uid videoID (Upvote f now (some uid) videoID db).store = 1 ∧
    downvoteEdges uid videoID (Upvote f now (some uid) videoID db).store = 0 := by
  obtain ⟨uid', he, h⟩ := Upvote_success f now (some uid) videoID db hs
  cases he
  unfold upvoteEdges downvoteEdges at h0 ⊢
  rcases h with ⟨hfound, h | h⟩ | ⟨hnone, h⟩
  · have h1 := countP_of_find_isSome _ _ hfound
    rw [h]
    omega
  · have h1 := countP_of_find_isSome _ _ hfound
    rw [h]
    simp only
    rw [countP_pair_deleteDownvotes]
    omega
  · rw [h]
    simp only
    rw [countP_pair_deleteDownvotes, countP_pair_insertUpvote uid videoID now db.upvotes hnone]
    exact ⟨rfl, rfl⟩

theorem edges_after_Downvote (f : VoteFaults) (now : Nat) (uid videoID : String) (db : Store)
    (h0 : upvoteEdges uid videoID db + downvoteEdges uid videoID db ≤ 1)
    (hs : (Downvote f now (some uid) videoID db).response.isSuccess = true) :
    upvoteEdges uid videoID (Downvote f now (some uid) videoID db).store = 0 ∧
    downvoteEdges uid videoID (Downvote f now (some uid) videoID db).store = 1 := by
  obtain ⟨uid', he, h⟩ := Downvote_success f now (some uid) videoID db hs
  cases he
  unfold upvoteEdges downvoteEdges at h0 ⊢
  rcases h with ⟨hfound, h | h⟩ | ⟨hnone, h⟩
  · have h1 := countP_of_find_isSome _ _ hfound
    rw [h]
    omega
  · have h1 := countP_of_find_isSome _ _ hfound
    rw [h]
    simp only
    rw [countP_pair_deleteUpvotes]
    omega
  · rw [h]
    simp only
    rw [countP_pair_deleteUpvotes, countP_pair_insertDownvote uid videoID now db.downvotes hnone]
    exact ⟨rfl, rfl⟩

theorem edges_after_SetVote (k : VoteKind) (f : VoteFaults) (now : Nat) (uid videoID : String)
    (db : Store) (h0 : upvoteEdges uid videoID db + downvoteEdges uid videoID db ≤ 1)
    (hs : (SetVote k f now (some uid) videoID db).response.isSuccess = true) :
    upvoteEdges uid videoID (SetVote k f now (some uid) videoID db).store
      = (if k = VoteKind.up then 1 else 0) ∧
    downvoteEdges uid videoID (SetVote k f now (some uid) videoID db).store
      = (if k = VoteKind.down then 1 else 0) := by
  cases k with
  | up => simpa [SetVote] using edges_after_Upvote f now uid videoID db h0 hs
  | down => simpa [SetVote] using edges_after_Downvote f now uid videoID db h0 hs

/-! ## The reaction state machine -/

/-- C8: from a store in which no (actor, target) pair has both an `upvotes`
row and a `downvotes` row, every `Upvote` or `Downvote` call, whatever it
answers and whichever of its statements fail, leads to a store with the same
property. -/
theorem MutualExclusion_preserved (k : VoteKind) (f : VoteFaults) (now : Nat)
    (claims : Option String) (videoID : String) (db : Store) (h : MutualExclusion db) :
    MutualExclusion (SetVote k f now claims videoID db).store := by
  cases k with
  | up => exact MutualExclusion_Upvote f now claims videoID db h
  | down => exact MutualExclusion_Downvote f now claims videoID db h

/-- Witness of C8: `bob`, who holds a downvote on `c1`, upvotes it. -/
theorem MutualExclusion_preserved_witness :
    MutualExclusion storeVoted ∧
    MutualExclusion (SetVote VoteKind.up voteOk 12 (some "bob") "c1" storeVoted).store :=
  ⟨by decide,
    MutualExclusion_preserved VoteKind.up voteOk 12 (some "bob") "c1" storeVoted (by decide)⟩

/-- C9: in a store that satisfies the two `UNIQUE` constraints and in which
every video's `video_upvotes` and `video_downvotes` equal the number of
`upvotes` and `downvotes` rows targeting it, every `Upvote` or `Downvote` call
that answers with success leads to a store in which these equalities hold
again for every video. -/
theorem CountersMatch_preserved (k : VoteKind) (f : VoteFaults) (now : Nat)
    (claims : Option String) (videoID : String) (db : Store)
    (hu : UniqueVotes db) (hc : CountersMatch db)
    (hs : (SetVote k f now claims videoID db).response.isSuccess = true) :
    CountersMatch (SetVote k f now claims videoID db).store := by
  cases k with
  | up => exact CountersMatch_Upvote f now claims videoID db hu hc hs
  | down => exact CountersMatch_Downvote f now claims videoID db hu hc hs

/-- Witness of C9: `bob`, who holds a downvote on `c1`, upvotes it. -/
theorem CountersMatch_preserved_witness :
    (UniqueVotes storeVoted ∧ CountersMatch storeVoted ∧
      (SetVote VoteKind.up voteOk 12 (some "bob") "c1" storeVoted).response.isSuccess = true) ∧
    CountersMatch (SetVote VoteKind.up voteOk 12 (some "bob") "c1" storeVoted).store :=
  ⟨by decide,
    CountersMatch_preserved VoteKind.up voteOk 12 (some "bob") "c1" storeVoted (by decide)
      (by decide) (by decide)⟩

/-- Counterexample to C10 as stated: in `storeBothVotes` the target `c1`
exists and `bob` holds both an upvote and a downvote on it, a store two
overlapping calls of `Upvote` and `Downvote` can leave.  `bob` runs the
one-call sequence made of an `Upvote` whose `DELETE FROM downvotes` fails: the
call takes the branch of lines 89-111, ignores the error and answers with
success, so the sequence is a sequence of successful calls, and the final
store still holds both edges for the pair, not exactly one. -/
theorem last_vote_wins_fails_from_both_edges :
    isPublished "c1" storeBothVotes ∧
    upvoteEdges "bob" "c1" storeBothVotes = 1 ∧
    downvoteEdges "bob" "c1" storeBothVotes = 1 ∧
    [(VoteKind.up, voteDelFails, 12)] ≠ [] ∧
    (Upvote voteDelFails 12 (some "bob") "c1" storeBothVotes).response
      = Response.success [("message", "Already upvoted, downvote removed if existed")] ∧
    runVotes "bob" "c1" [(VoteKind.up, voteDelFails, 12)] storeBothVotes
      = some storeBothVotes ∧
    upvoteEdges "bob" "c1" storeBothVotes + downvoteEdges "bob" "c1" storeBothVotes ≠ 1 := by
  decide

/-- C10, amended: when an actor who holds at most one reaction edge on a target
(an upvote or a downvote, not both) runs a non-empty sequence of `Upvote` and
`Downvote` calls on it that all answer with success, the final store holds
exactly one edge for the pair, of the kind of the last call: one `upvotes` row
and no `downvotes` row after an `Upvote`, the converse after a `Downvote`. -/
theorem last_vote_wins (uid videoID : String) (calls : List (VoteKind × VoteFaults × Nat))
    (db db' : Store) (hne : calls ≠ [])
    (h0 : upvoteEdges uid videoID db + downvoteEdges uid videoID db ≤ 1)
    (hrun : runVotes uid videoID calls db = some db') :
    upvoteEdges uid videoID db' = (if (calls.getLast hne).1 = VoteKind.up then 1 else 0) ∧
    downvoteEdges uid videoID db' = (if (calls.getLast hne).1 = VoteKind.down then 1 else 0) := by
  induction calls generalizing db with
  | nil => exact absurd rfl hne
  | cons c rest ih =>
    obtain ⟨k, f, now⟩ := c
    simp only [runVotes] at hrun
    by_cases hs : (SetVote k f now (some uid) videoID db).response.isSuccess = true
    · simp only [hs, if_true] at hrun
      have hstep := edges_after_SetVote k f now uid videoID db h0 hs
      cases rest with
      | nil =>
        simp only [runVotes, Option.some.injEq] at hrun
        subst hrun
        simpa using hstep
      | cons c2 rest2 =>
        have h1 : upvoteEdges uid videoID (SetVote k f now (some uid) videoID db).store
            + downvoteEdges uid videoID (SetVote k f now (some uid) videoID db).store ≤ 1 := by
          rw [hstep.1, hstep.2]
          cases k <;> simp
        have := ih (SetVote k f now (some uid) videoID db).store (by simp) h1 hrun
        simpa [List.getLast_cons] using this
    · simp [hs] at hrun

/-- Witness of C10 amended: `bob`, who holds a downvote on `c1`, upvotes and
then downvotes it. -/
theorem last_vote_wins_witness :
    (upThenDown ≠ [] ∧
      upvoteEdges "bob" "c1" storeVoted + downvoteEdges "bob" "c1" storeVoted ≤ 1 ∧
      runVotes "bob" "c1" upThenDown storeVoted = some storeAfterUpThenDown) ∧
    (upvoteEdges "bob" "c1" storeAfterUpThenDown = 0 ∧
      downvoteEdges "bob" "c1" storeAfterUpThenDown = 1) :=
  ⟨by decide,
    last_vote_wins "bob" "c1" upThenDown storeVoted storeAfterUpThenDown (by decide)
      (by decide) (by decide)⟩

/-! ## Lemmas on duplicate votes, switches and failing statements -/

theorem Upvote_no_video (f : VoteFaults) (now : Nat) (uid videoID : String) (db : Store)
    (hid : videoID ≠ "")
    (hno : db.videos.find? (fun v => decide (v.VideoID = videoID)) = none) :
    (Upvote f now (some uid) videoID db).response =
      (if f.videoSelectErr then Response.error 500 "Failed to fetch video"
       else Response.error 404 "Video not found") ∧
    (Upvote f now (some uid) videoID db).store = db := by
  unfold Upvote queryRow
  by_cases hs : f.videoSelectErr = true <;> simp [hid, hno, hs]

theorem Downvote_no_video (f : VoteFaults) (now : Nat) (uid videoID : String) (db : Store)
    (hid : videoID ≠ "")
    (hno : db.videos.find? (fun v => decide (v.VideoID = videoID)) = none) :
    (Downvote f now (some uid) videoID db).response =
      (if f.videoSelectErr then Response.error 500 "Failed to fetch video"
       else Response.error 404 "Video not found") ∧
    (Downvote f now (some uid) videoID db).store = db := by
  unfold Downvote queryRow
  by_cases hs : f.videoSelectErr = true <;> simp [hid, hno, hs]

theorem find_videos_none_of_not_published (videoID : String) (db : Store)
    (hno : ¬ isPublished videoID db) :
    db.videos.find? (fun v => decide (v.VideoID = videoID)) = none := by
  rw [List.find?_eq_none]
  intro v hv hvid
  exact hno ⟨v, hv, by simpa using hvid⟩

theorem Upvote_success_video (f : VoteFaults) (now : Nat) (claims : Option String)
    (videoID : String) (db : Store)
    (h : (Upvote f now claims videoID db).response.isSuccess = true) :
    videoID ≠ "" ∧ (db.videos.find? (fun v => decide (v.VideoID = videoID))).isSome = true := by
  unfold Upvote at h
  cases claims with
  | none => simp [Response.isSuccess] at h
  | some uid =>
    simp only at h
    by_cases hid : videoID = ""
    · simp [hid, Response.isSuccess] at h
    · refine ⟨hid, ?_⟩
      simp only [hid, if_false] at h
      unfold queryRow at h
      by_cases hs : f.videoSelectErr = true
      · simp [hs, Response.isSuccess] at h
      · cases hf : db.videos.find? (fun v => decide (v.VideoID = videoID)) with
        | none => simp [hs, hf, Response.isSuccess] at h
        | some v => rfl

theorem deleteDownvotes_eq_self (uid videoID : String) (db : Store)
    (h : downvoteEdges uid videoID db = 0) :
    deleteDownvotes uid videoID db.downvotes = db.downvotes := by
  unfold deleteDownvotes
  unfold downvoteEdges at h
  rw [List.countP_eq_zero] at h
  rw [List.filter_eq_self]
  intro d hd
  have hb := h d hd
  simp only [Bool.not_eq_true] at hb
  simp only [hb, Bool.not_false]

theorem Upvote_of_voted (f : VoteFaults) (now : Nat) (uid videoID : String) (db : Store)
    (hid : videoID ≠ "")
    (hv : (db.videos.find? (fun v => decide (v.VideoID = videoID))).isSome = true)
    (hup : 1 ≤ upvoteEdges uid videoID db) (hdown : downvoteEdges uid videoID db = 0) :
    (Upvote f now (some uid) videoID db).store = db ∧
    (f.videoSelectErr = false → f.voteSelectErr = false →
      (Upvote f now (some uid) videoID db).response
        = Response.success [("message", "Already upvoted, downvote removed if existed")]) := by
  obtain ⟨v, hfv⟩ := Option.isSome_iff_exists.mp hv
  have hdel := deleteDownvotes_eq_self uid videoID db hdown
  have hfound : ∃ u, db.upvotes.find?
      (fun u => decide (u.UpvotedBy = uid) && decide (u.UpvotedTo = videoID)) = some u := by
    cases hf : db.upvotes.find?
        (fun u => decide (u.UpvotedBy = uid) && decide (u.UpvotedTo = videoID)) with
    | none =>
      have := countP_of_find_none _ _ hf
      unfold upvoteEdges at hup
      omega
    | some u => exact ⟨u, rfl⟩
  obtain ⟨u, hfu⟩ := hfound
  unfold Upvote queryRow
  simp only [hid, if_false, hfv, hfu, hdel, Nat.sub_self]
  by_cases h1 : f.videoSelectErr = true
  · simp [h1]
  · by_cases h2 : f.voteSelectErr = true
    · simp [h1, h2]
    · by_cases h3 : f.delErr = true
      · simp [h1, h2, h3]
      · simp [h1, h2, h3]

theorem find_addVideoUpvotes_isSome (videoID : String) (d : Int) (vs : List Videos)
    (h : (vs.find? (fun v => decide (v.VideoID = videoID))).isSome = true) :
    ((addVideoUpvotes videoID d vs).find? (fun v => decide (v.VideoID = videoID))).isSome
      = true := by
  rw [List.find?_isSome] at h ⊢
  obtain ⟨v, hv, hp⟩ := h
  have hp' : v.VideoID = videoID := by simpa using hp
  refine ⟨{ v with VideoUpvotes := v.VideoUpvotes + d }, ?_, by simpa using hp'⟩
  unfold addVideoUpvotes
  rw [List.mem_map]
  exact ⟨v, hv, by simp [hp']⟩

theorem deleteDownvotes_rows (uid videoID : String) (db : Store) :
    db.downvotes.length - (deleteDownvotes uid videoID db.downvotes).length
      = downvoteEdges uid videoID db := by
  unfold deleteDownvotes downvoteEdges
  exact length_sub_length_filter_not
    (fun d : Downvotes => decide (d.DownvotedBy = uid) && decide (d.DownvotedTo = videoID)) _

theorem deleteUpvotes_rows (uid videoID : String) (db : Store) :
    db.upvotes.length - (deleteUpvotes uid videoID db.upvotes).length
      = upvoteEdges uid videoID db := by
  unfold deleteUpvotes upvoteEdges
  exact length_sub_length_filter_not
    (fun u : Upvotes => decide (u.UpvotedBy = uid) && decide (u.UpvotedTo = videoID)) _

theorem switch_to_down_videos (videoID : String) (vs : List Videos) :
    addVideoDownvotes videoID 1 (addVideoUpvotes videoID (-1) vs) = vs.map (fun v =>
      if v.VideoID = videoID then
        { v with VideoUpvotes := v.VideoUpvotes - 1, VideoDownvotes := v.VideoDownvotes + 1 }
      else v) := by
  unfold addVideoDownvotes addVideoUpvotes
  rw [List.map_map]
  apply List.map_congr_left
  intro v _
  by_cases h : v.VideoID = videoID
  · simp [h, Int.sub_eq_add_neg]
  · simp [h]

theorem switch_to_up_videos (videoID : String) (vs : List Videos) :
    addVideoUpvotes videoID 1 (addVideoDownvotes videoID (-1) vs) = vs.map (fun v =>
      if v.VideoID = videoID then
        { v with VideoUpvotes := v.VideoUpvotes + 1, VideoDownvotes := v.VideoDownvotes - 1 }
      else v) := by
  unfold addVideoDownvotes addVideoUpvotes
  rw [List.map_map]
  apply List.map_congr_left
  intro v _
  by_cases h : v.VideoID = videoID
  · simp [h, Int.sub_eq_add_neg]
  · simp [h]

theorem Downvote_after_upvote (f : VoteFaults) (now : Nat) (uid videoID : String) (db : Store)
    (hup : upvoteEdges uid videoID db = 1) (hdown : downvoteEdges uid videoID db = 0)
    (hs : (Downvote f now (some uid) videoID db).response.isSuccess = true) :
    upvoteEdges uid videoID (Downvote f now (some uid) videoID db).store = 0 ∧
    downvoteEdges uid videoID (Downvote f now (some uid) videoID db).store = 1 ∧
    (Downvote f now (some uid) videoID db).store.videos = db.videos.map (fun v =>
      if v.VideoID = videoID then
        { v with VideoUpvotes := v.VideoUpvotes - 1, VideoDownvotes := v.VideoDownvotes + 1 }
      else v) := by
  obtain ⟨uid', he, h⟩ := Downvote_success f now (some uid) videoID db hs
  cases he
  have hrows := deleteUpvotes_rows uid videoID db
  rw [hup] at hrows
  rcases h with ⟨hfound, _⟩ | ⟨hnone, hstore⟩
  · have := countP_of_find_isSome _ _ hfound
    unfold downvoteEdges at hdown
    omega
  · simp only [hrows, gt_iff_lt, Nat.lt_one_iff, if_true, zero_lt_one] at hstore
    rw [hstore]
    refine ⟨?_, ?_, ?_⟩
    · exact countP_pair_deleteUpvotes uid videoID db.upvotes
    · exact countP_pair_insertDownvote uid videoID now db.downvotes hnone
    · exact switch_to_down_videos videoID db.videos

theorem Upvote_after_downvote (f : VoteFaults) (now : Nat) (uid videoID : String) (db : Store)
    (hdown : downvoteEdges uid videoID db = 1) (hup : upvoteEdges uid videoID db = 0)
    (hs : (Upvote f now (some uid) videoID db).response.isSuccess = true) :
    upvoteEdges uid videoID (Upvote f now (some uid) videoID db).store = 1 ∧
    downvoteEdges uid videoID (Upvote f now (some uid) videoID db).store = 0 ∧
    (Upvote f now (some uid) videoID db).store.videos = db.videos.map (fun v =>
      if v.VideoID = videoID then
        { v with VideoUpvotes := v.VideoUpvotes + 1, VideoDownvotes := v.VideoDownvotes - 1 }
      else v) := by
  obtain ⟨uid', he, h⟩ := Upvote_success f now (some uid) videoID db hs
  cases he
  have hrows := deleteDownvotes_rows uid videoID db
  rw [hdown] at hrows
  rcases h with ⟨hfound, _⟩ | ⟨hnone, hstore⟩
  · have := countP_of_find_isSome _ _ hfound
    unfold upvoteEdges at hup
    omega
  · simp only [hrows, gt_iff_lt, Nat.lt_one_iff, if_true, zero_lt_one] at hstore
    rw [hstore]
    refine ⟨?_, ?_, ?_⟩
    · exact countP_pair_insertUpvote uid videoID now db.upvotes hnone
    · exact countP_pair_deleteDownvotes uid videoID db.downvotes
    · exact switch_to_up_videos videoID db.videos

theorem Upvote_error (f : VoteFaults) (now : Nat) (claims : Option String) (videoID : String)
    (db : Store) (h : (Upvote f now claims videoID db).response.isSuccess = false) :
    (Upvote f now claims videoID db).store = db ∨
    ∃ uid, claims = some uid ∧
      ((f.updErr = true ∧ 0 < downvoteEdges uid videoID db ∧
          (Upvote f now claims videoID db).store = voteWrites VoteKind.up uid videoID now 1 db) ∨
        (f.insertErr = true ∧
          (Upvote f now claims videoID db).store = voteWrites VoteKind.up uid videoID now 2 db) ∨
        (f.updateErr = true ∧
          (Upvote f now claims videoID db).store
            = voteWrites VoteKind.up uid videoID now 3 db)) := by
  unfold Upvote at h ⊢
  cases claims with
  | none => simp
  | some uid =>
    simp only [deleteDownvotes_rows] at h ⊢
    by_cases hid : videoID = ""
    · simp [hid]
    · simp only [hid, if_false] at h ⊢
      cases hq : queryRow f.videoSelectErr (fun v => decide (v.VideoID = videoID)) db.videos with
      | errNoRows => simp
      | dbError => simp
      | row video =>
        simp only [hq] at h ⊢
        cases hv : queryRow f.voteSelectErr
            (fun u => decide (u.UpvotedBy = uid) && decide (u.UpvotedTo = videoID)) db.upvotes with
        | dbError => simp
        | row r =>
          simp only [hv] at h ⊢
          by_cases hd : f.delErr = true
          · simp [hd, Response.isSuccess] at h
          · by_cases hr : downvoteEdges uid videoID db > 0
            · by_cases hu : f.updErr = true
              · right
                refine ⟨uid, rfl, Or.inl ⟨hu, hr, ?_⟩⟩
                simp [hd, hr, hu, voteWrites]
              · simp [hd, hr, hu, Response.isSuccess] at h
            · simp [hd, hr, Response.isSuccess] at h
        | errNoRows =>
          simp only [hv] at h ⊢
          by_cases hd : f.delErr = true
          · simp [hd]
          · by_cases hr : downvoteEdges uid videoID db > 0
            · by_cases hu : f.updErr = true
              · right
                refine ⟨uid, rfl, Or.inl ⟨hu, hr, ?_⟩⟩
                simp [hd, hr, hu, voteWrites]
              · by_cases hi : f.insertErr = true
                · right
                  refine ⟨uid, rfl, Or.inr (Or.inl ⟨hi, ?_⟩)⟩
                  simp [hd, hr, hu, hi, voteWrites, voteEdges, VoteKind.opposite]
                · by_cases hx : f.updateErr = true
                  · right
                    refine ⟨uid, rfl, Or.inr (Or.inr ⟨hx, ?_⟩)⟩
                    simp [hd, hr, hu, hi, hx, voteWrites, voteEdges, VoteKind.opposite]
                  · simp [hd, hr, hu, hi, hx, Response.isSuccess] at h
            · by_cases hi : f.insertErr = true
              · right
                refine ⟨uid, rfl, Or.inr (Or.inl ⟨hi, ?_⟩)⟩
                simp [hd, hr, hi, voteWrites, voteEdges, VoteKind.opposite]
              · by_cases hx : f.updateErr = true
                · right
                  refine ⟨uid, rfl, Or.inr (Or.inr ⟨hx, ?_⟩)⟩
                  simp [hd, hr, hi, hx, voteWrites, voteEdges, VoteKind.opposite]
                · simp [hd, hr, hi, hx, Response.isSuccess] at h

theorem Upvote_success_faults (f : VoteFaults) (now : Nat) (claims : Option String)
    (videoID : String) (db : Store)
    (h : (Upvote f now claims videoID db).response.isSuccess = true) :
    ∃ uid, claims = some uid ∧ f.videoSelectErr = false ∧ f.voteSelectErr = false ∧
      ((0 < upvoteEdges uid videoID db ∧
          ((f.delErr = true ∧ (Upvote f now claims videoID db).store = db) ∨
            (f.delErr = false ∧ (0 < downvoteEdges uid videoID db → f.updErr = false)))) ∨
        (upvoteEdges uid videoID db = 0 ∧ f.delErr = false ∧
          (0 < downvoteEdges uid videoID db → f.updErr = false) ∧
          f.insertErr = false ∧ f.updateErr = false)) := by
  unfold Upvote at h ⊢
  cases claims with
  | none => simp [Response.isSuccess] at h
  | some uid =>
    refine ⟨uid, rfl, ?_⟩
    simp only [deleteDownvotes_rows] at h ⊢
    by_cases hid : videoID = ""
    · simp [hid, Response.isSuccess] at h
    · simp only [hid, if_false] at h ⊢
      unfold queryRow at h ⊢
      by_cases h1 : f.videoSelectErr = true
      · simp [h1, Response.isSuccess] at h
      · simp only [h1, if_false] at h ⊢
        cases hq : db.videos.find? (fun v => decide (v.VideoID = videoID)) with
        | none => simp [hq, Response.isSuccess] at h
        | some video =>
          simp only [hq] at h ⊢
          by_cases h2 : f.voteSelectErr = true
          · simp [h2, Response.isSuccess] at h
          · simp only [h2, if_false] at h ⊢
            refine ⟨trivial, trivial, ?_⟩
            cases hv : db.upvotes.find?
                (fun u => decide (u.UpvotedBy = uid) && decide (u.UpvotedTo = videoID)) with
            | some r =>
              left
              have hpos : 0 < upvoteEdges uid videoID db := by
                have := countP_of_find_isSome _ _ (by rw [hv]; rfl :
                  (db.upvotes.find? (fun u =>
                    decide (u.UpvotedBy = uid) && decide (u.UpvotedTo = videoID))).isSome = true)
                unfold upvoteEdges
                omega
              refine ⟨hpos, ?_⟩
              simp only [hv] at h ⊢
              by_cases hd : f.delErr = true
              · left
                exact ⟨hd, by simp [hd]⟩
              · right
                refine ⟨by simpa using hd, fun hr => ?_⟩
                by_cases hu : f.updErr = true
                · simp [hd, hr, hu, Response.isSuccess] at h
                · simpa using hu
            | none =>
              right
              have hzero : upvoteEdges uid videoID db = 0 := countP_of_find_none _ _ hv
              simp only [hv] at h ⊢
              by_cases hd : f.delErr = true
              · simp [hd, Response.isSuccess] at h
              · by_cases hi : f.insertErr = true
                · by_cases hc : (decide (downvoteEdges uid videoID db > 0) && f.updErr) = true
                  · simp [hd, hc, Response.isSuccess] at h
                  · simp [hd, hc, hi, Response.isSuccess] at h
                · by_cases hx : f.updateErr = true
                  · by_cases hc : (decide (downvoteEdges uid videoID db > 0) && f.updErr) = true
                    · simp [hd, hc, Response.isSuccess] at h
                    · simp [hd, hc, hi, hx, Response.isSuccess] at h
                  · refine ⟨hzero, by simpa using hd, fun hr => ?_, by simpa using hi,
                      by simpa using hx⟩
                    by_cases hu : f.updErr = true
                    · simp [hd, hr, hu, Response.isSuccess] at h
                    · simpa using hu

theorem Downvote_error (f : VoteFaults) (now : Nat) (claims : Option String) (videoID : String)
    (db : Store) (h : (Downvote f now claims videoID db).response.isSuccess = false) :
    (Downvote f now claims videoID db).store = db ∨
    ∃ uid, claims = some uid ∧
      ((f.updErr = true ∧ 0 < upvoteEdges uid videoID db ∧
          (Downvote f now claims videoID db).store = voteWrites VoteKind.down uid videoID now 1 db) ∨
        (f.insertErr = true ∧
          (Downvote f now claims videoID db).store = voteWrites VoteKind.down uid videoID now 2 db) ∨
        (f.updateErr = true ∧
          (Downvote f now claims videoID db).store
            = voteWrites VoteKind.down uid videoID now 3 db)) := by
  unfold Downvote at h ⊢
  cases claims with
  | none => simp
  | some uid =>
    simp only [deleteUpvotes_rows] at h ⊢
    by_cases hid : videoID = ""
    · simp [hid]
    · simp only [hid, if_false] at h ⊢
      cases hq : queryRow f.videoSelectErr (fun v => decide (v.VideoID = videoID)) db.videos with
      | errNoRows => simp
      | dbError => simp
      | row video =>
        simp only [hq] at h ⊢
        cases hv : queryRow f.voteSelectErr
            (fun u => decide (u.DownvotedBy = uid) && decide (u.DownvotedTo = videoID)) db.downvotes with
        | dbError => simp
        | row r =>
          simp only [hv] at h ⊢
          by_cases hd : f.delErr = true
          · simp [hd, Response.isSuccess] at h
          · by_cases hr : upvoteEdges uid videoID db > 0
            · by_cases hu : f.updErr = true
              · right
                refine ⟨uid, rfl, Or.inl ⟨hu, hr, ?_⟩⟩
                simp [hd, hr, hu, voteWrites]
              · simp [hd, hr, hu, Response.isSuccess] at h
            · simp [hd, hr, Response.isSuccess] at h
        | errNoRows =>
          simp only [hv] at h ⊢
          by_cases hd : f.delErr = true
          · simp [hd]
          · by_cases hr : upvoteEdges uid videoID db > 0
            · by_cases hu : f.updErr = true
              · right
                refine ⟨uid, rfl, Or.inl ⟨hu, hr, ?_⟩⟩
                simp [hd, hr, hu, voteWrites]
              · by_cases hi : f.insertErr = true
                · right
                  refine ⟨uid, rfl, Or.inr (Or.inl ⟨hi, ?_⟩)⟩
                  simp [hd, hr, hu, hi, voteWrites, voteEdges, VoteKind.opposite]
                · by_cases hx : f.updateErr = true
                  · right
                    refine ⟨uid, rfl, Or.inr (Or.inr ⟨hx, ?_⟩)⟩
                    simp [hd, hr, hu, hi, hx, voteWrites, voteEdges, VoteKind.opposite]
                  · simp [hd, hr, hu, hi, hx, Response.isSuccess] at h
            · by_cases hi : f.insertErr = true
              · right
                refine ⟨uid, rfl, Or.inr (Or.inl ⟨hi, ?_⟩)⟩
                simp [hd, hr, hi, voteWrites, voteEdges, VoteKind.opposite]
              · by_cases hx : f.updateErr = true
                · right
                  refine ⟨uid, rfl, Or.inr (Or.inr ⟨hx, ?_⟩)⟩
                  simp [hd, hr, hi, hx, voteWrites, voteEdges, VoteKind.opposite]
                · simp [hd, hr, hi, hx, Response.isSuccess] at h

theorem Downvote_success_faults (f : VoteFaults) (now : Nat) (claims : Option String)
    (videoID : String) (db : Store)
    (h : (Downvote f now claims videoID db).response.isSuccess = true) :
    ∃ uid, claims = some uid ∧ f.videoSelectErr = false ∧ f.voteSelectErr = false ∧
      ((0 < downvoteEdges uid videoID db ∧
          ((f.delErr = true ∧ (Downvote f now claims videoID db).store = db) ∨
            (f.delErr = false ∧ (0 < upvoteEdges uid videoID db → f.updErr = false)))) ∨
        (downvoteEdges uid videoID db = 0 ∧ f.delErr = false ∧
          (0 < upvoteEdges uid videoID db → f.updErr = false) ∧
          f.insertErr = false ∧ f.updateErr = false)) := by
  unfold Downvote at h ⊢
  cases claims with
  | none => simp [Response.isSuccess] at h
  | some uid =>
    refine ⟨uid, rfl, ?_⟩
    simp only [deleteUpvotes_rows] at h ⊢
    by_cases hid : videoID = ""
    · simp [hid, Response.isSuccess] at h
    · simp only [hid, if_false] at h ⊢
      unfold queryRow at h ⊢
      by_cases h1 : f.videoSelectErr = true
      · simp [h1, Response.isSuccess] at h
      · simp only [h1, if_false] at h ⊢
        cases hq : db.videos.find? (fun v => decide (v.VideoID = videoID)) with
        | none => simp [hq, Response.isSuccess] at h
        | some video =>
          simp only [hq] at h ⊢
          by_cases h2 : f.voteSelectErr = true
          · simp [h2, Response.isSuccess] at h
          · simp only [h2, if_false] at h ⊢
            refine ⟨trivial, trivial, ?_⟩
            cases hv : db.downvotes.find?
                (fun u => decide (u.DownvotedBy = uid) && decide (u.DownvotedTo = videoID)) with
            | some r =>
              left
              have hpos : 0 < downvoteEdges uid videoID db := by
                have := countP_of_find_isSome _ _ (by rw [hv]; rfl :
                  (db.downvotes.find? (fun u =>
                    decide (u.DownvotedBy = uid) && decide (u.DownvotedTo = videoID))).isSome = true)
                unfold downvoteEdges
                omega
              refine ⟨hpos, ?_⟩
              simp only [hv] at h ⊢
              by_cases hd : f.delErr = true
              · left
                exact ⟨hd, by simp [hd]⟩
              · right
                refine ⟨by simpa using hd, fun hr => ?_⟩
                by_cases hu : f.updErr = true
                · simp [hd, hr, hu, Response.isSuccess] at h
                · simpa using hu
            | none =>
              right
              have hzero : downvoteEdges uid videoID db = 0 := countP_of_find_none _ _ hv
              simp only [hv] at h ⊢
              by_cases hd : f.delErr = true
              · simp [hd, Response.isSuccess] at h
              · by_cases hi : f.insertErr = true
                · by_cases hc : (decide (upvoteEdges uid videoID db > 0) && f.updErr) = true
                  · simp [hd, hc, Response.isSuccess] at h
                  · simp [hd, hc, hi, Response.isSuccess] at h
                · by_cases hx : f.updateErr = true
                  · by_cases hc : (decide (upvoteEdges uid videoID db > 0) && f.updErr) = true
                    · simp [hd, hc, Response.isSuccess] at h
                    · simp [hd, hc, hi, hx, Response.isSuccess] at h
                  · refine ⟨hzero, by simpa using hd, fun hr => ?_, by simpa using hi,
                      by simpa using hx⟩
                    by_cases hu : f.updErr = true
                    · simp [hd, hr, hu, Response.isSuccess] at h
                    · simpa using hu

/-! ## Reactions: duplicates, switches and failures -/

/-- C11: when an actor with no reaction on a target upvotes it twice and the
first call answers with success, the second call leaves the store exactly as
the first one left it, whichever of its statements fail, and answers with
success whenever its two lookups execute.  That store holds exactly one
`upvotes` row and no `downvotes` row for the pair, and `video_upvotes` of the
target is the baseline plus 1. -/
theorem Upvote_twice (f1 f2 : VoteFaults) (now1 now2 : Nat) (uid videoID : String) (db : Store)
    (hup : upvoteEdges uid videoID db = 0) (hdown : downvoteEdges uid videoID db = 0)
    (hs : (Upvote f1 now1 (some uid) videoID db).response.isSuccess = true) :
    (Upvote f2 now2 (some uid) videoID (Upvote f1 now1 (some uid) videoID db).store).store
      = (Upvote f1 now1 (some uid) videoID db).store ∧
    (f2.videoSelectErr = false → f2.voteSelectErr = false →
      (Upvote f2 now2 (some uid) videoID (Upvote f1 now1 (some uid) videoID db).store).response
        = Response.success [("message", "Already upvoted, downvote removed if existed")]) ∧
    upvoteEdges uid videoID (Upvote f1 now1 (some uid) videoID db).store = 1 ∧
    downvoteEdges uid videoID (Upvote f1 now1 (some uid) videoID db).store = 0 ∧
    (Upvote f1 now1 (some uid) videoID db).store.videos = db.videos.map (fun v =>
      if v.VideoID = videoID then { v with VideoUpvotes := v.VideoUpvotes + 1 } else v) := by
  obtain ⟨hid, hv⟩ := Upvote_success_video f1 now1 (some uid) videoID db hs
  obtain ⟨uid', he, h⟩ := Upvote_success f1 now1 (some uid) videoID db hs
  cases he
  have hdel := deleteDownvotes_eq_self uid videoID db hdown
  rcases h with ⟨hfound, _⟩ | ⟨hnone, hstore⟩
  · have := countP_of_find_isSome _ _ hfound
    unfold upvoteEdges at hup
    omega
  · simp only [hdel, Nat.sub_self, gt_iff_lt, lt_self_iff_false, if_false] at hstore
    have e1 : upvoteEdges uid videoID (Upvote f1 now1 (some uid) videoID db).store = 1 := by
      rw [hstore]
      exact countP_pair_insertUpvote uid videoID now1 db.upvotes hnone
    have e2 : downvoteEdges uid videoID (Upvote f1 now1 (some uid) videoID db).store = 0 := by
      rw [hstore]
      exact hdown
    have hv1 : ((Upvote f1 now1 (some uid) videoID db).store.videos.find?
        (fun v => decide (v.VideoID = videoID))).isSome = true := by
      rw [hstore]
      exact find_addVideoUpvotes_isSome videoID 1 db.videos hv
    obtain ⟨g1, g2⟩ := Upvote_of_voted f2 now2 uid videoID _ hid hv1 (by omega) e2
    refine ⟨g1, g2, e1, e2, ?_⟩
    rw [hstore]
    rfl

/-- Witness of C11: `bob` upvotes `c1`, on which he has no reaction, twice. -/
theorem Upvote_twice_witness :
    (upvoteEdges "bob" "c1" storeNoVotes = 0 ∧ downvoteEdges "bob" "c1" storeNoVotes = 0 ∧
      (Upvote voteOk 12 (some "bob") "c1" storeNoVotes).response.isSuccess = true) ∧
    ((Upvote voteOk 13 (some "bob") "c1" (Upvote voteOk 12 (some "bob") "c1" storeNoVotes).store).store
      = (Upvote voteOk 12 (some "bob") "c1" storeNoVotes).store ∧
    (voteOk.videoSelectErr = false → voteOk.voteSelectErr = false →
      (Upvote voteOk 13 (some "bob") "c1"
          (Upvote voteOk 12 (some "bob") "c1" storeNoVotes).store).response
        = Response.success [("message", "Already upvoted, downvote removed if existed")]) ∧
    upvoteEdges "bob" "c1" (Upvote voteOk 12 (some "bob") "c1" storeNoVotes).store = 1 ∧
    downvoteEdges "bob" "c1" (Upvote voteOk 12 (some "bob") "c1" storeNoVotes).store = 0 ∧
    (Upvote voteOk 12 (some "bob") "c1" storeNoVotes).store.videos = storeNoVotes.videos.map (fun v =>
      if v.VideoID = "c1" then { v with VideoUpvotes := v.VideoUpvotes + 1 } else v)) :=
  ⟨by decide,
    Upvote_twice voteOk voteOk 12 13 "bob" "c1" storeNoVotes (by decide) (by decide) (by decide)⟩

/-- C12: when an actor holds exactly one reaction on a target, of the kind
opposite to `k`, a call of kind `k` that answers with success removes that
row, leaves exactly one row of kind `k` for the pair, adds 1 to the counter of
kind `k` of the target and subtracts 1 from the opposite counter, and changes
no other video.  With `k` the downvote this is upvote then downvote; with `k`
the upvote it is the symmetric case. -/
theorem vote_switch (k : VoteKind) (f : VoteFaults) (now : Nat) (uid videoID : String)
    (db : Store)
    (hheld : voteEdges k.opposite uid videoID db = 1) (hnone : voteEdges k uid videoID db = 0)
    (hs : (SetVote k f now (some uid) videoID db).response.isSuccess = true) :
    voteEdges k.opposite uid videoID (SetVote k f now (some uid) videoID db).store = 0 ∧
    voteEdges k uid videoID (SetVote k f now (some uid) videoID db).store = 1 ∧
    (SetVote k f now (some uid) videoID db).store.videos = db.videos.map (fun v =>
      if v.VideoID = videoID then
        { v with
          VideoUpvotes := v.VideoUpvotes + (if k = VoteKind.up then 1 else -1)
          VideoDownvotes := v.VideoDownvotes + (if k = VoteKind.down then 1 else -1) }
      else v) := by
  cases k with
  | up =>
    obtain ⟨h1, h2, h3⟩ := Upvote_after_downvote f now uid videoID db hheld hnone hs
    simpa [SetVote, voteEdges, VoteKind.opposite, Int.sub_eq_add_neg] using
      And.intro h2 (And.intro h1 h3)
  | down =>
    simpa [SetVote, voteEdges, VoteKind.opposite, Int.sub_eq_add_neg] using
      Downvote_after_upvote f now uid videoID db hheld hnone hs

/-- Witness of C12: `bob`, who holds a downvote on `c1`, upvotes it. -/
theorem vote_switch_witness :
    (voteEdges VoteKind.up.opposite "bob" "c1" storeVoted = 1 ∧
      voteEdges VoteKind.up "bob" "c1" storeVoted = 0 ∧
      (SetVote VoteKind.up voteOk 12 (some "bob") "c1" storeVoted).response.isSuccess = true) ∧
    (voteEdges VoteKind.up.opposite "bob" "c1"
        (SetVote VoteKind.up voteOk 12 (some "bob") "c1" storeVoted).store = 0 ∧
    voteEdges VoteKind.up "bob" "c1"
        (SetVote VoteKind.up voteOk 12 (some "bob") "c1" storeVoted).store = 1 ∧
    (SetVote VoteKind.up voteOk 12 (some "bob") "c1" storeVoted).store.videos
      = storeVoted.videos.map (fun v =>
        if v.VideoID = "c1" then
          { v with
            VideoUpvotes := v.VideoUpvotes + (if VoteKind.up = VoteKind.up then 1 else -1)
            VideoDownvotes := v.VideoDownvotes + (if VoteKind.up = VoteKind.down then 1 else -1) }
        else v)) :=
  ⟨by decide,
    vote_switch VoteKind.up voteOk 12 "bob" "c1" storeVoted (by decide) (by decide) (by decide)⟩

/-- C13, as stated, fails: `bob` holds a downvote on `c1` and upvotes it, and
only the `INSERT INTO upvotes` fails.  The handler answers 500 after the
`DELETE FROM downvotes` and the decrement of `video_downvotes` have taken
effect: the `downvotes` table and the counters of `c1` are not as before. -/
theorem Upvote_failed_insert_keeps_earlier_writes :
    (Upvote voteInsertFails 12 (some "bob") "c1" storeVoted).response
      = Response.error 500 "Failed to upvote video" ∧
    storeVoted.downvotes = [{ DownvotedBy := "bob", DownvotedTo := "c1", DownvotedAt := 10 }] ∧
    (Upvote voteInsertFails 12 (some "bob") "c1" storeVoted).store.downvotes = [] ∧
    storeVoted.videos.map (fun v => v.VideoDownvotes) = [1] ∧
    (Upvote voteInsertFails 12 (some "bob") "c1" storeVoted).store.videos.map
      (fun v => v.VideoDownvotes) = [0] := by
  decide

/-- C13, amended: `Upvote` and `Downvote` issue their statements one by one,
outside any transaction, and stop at the first that fails; the writes made
before it stay.  When a call of kind `k` answers with an error, the store is
either unchanged, or it is the store after the first one, two or three writes
of the call (`voteWrites`): after the `DELETE` of the opposite vote when the
decrement of the opposite counter failed, after the decrement when the
`INSERT` of the vote failed, after the `INSERT` when the increment of its
counter failed. -/
theorem SetVote_error_outcomes (k : VoteKind) (f : VoteFaults) (now : Nat)
    (claims : Option String) (videoID : String) (db : Store)
    (h : (SetVote k f now claims videoID db).response.isSuccess = false) :
    (SetVote k f now claims videoID db).store = db ∨
    ∃ uid, claims = some uid ∧
      ((f.updErr = true ∧ 0 < voteEdges k.opposite uid videoID db ∧
          (SetVote k f now claims videoID db).store = voteWrites k uid videoID now 1 db) ∨
        (f.insertErr = true ∧
          (SetVote k f now claims videoID db).store = voteWrites k uid videoID now 2 db) ∨
        (f.updateErr = true ∧
          (SetVote k f now claims videoID db).store = voteWrites k uid videoID now 3 db)) := by
  cases k with
  | up => exact Upvote_error f now claims videoID db h
  | down => exact Downvote_error f now claims videoID db h

/-- Witness of C13 amended: `bob`, who holds a downvote on `c1`, upvotes it and
the `INSERT INTO upvotes` fails. -/
theorem SetVote_error_outcomes_witness :
    (SetVote VoteKind.up voteInsertFails 12 (some "bob") "c1" storeVoted).response.isSuccess
      = false ∧
    ((SetVote VoteKind.up voteInsertFails 12 (some "bob") "c1" storeVoted).store = storeVoted ∨
    ∃ uid, some "bob" = some uid ∧
      ((voteInsertFails.updErr = true ∧ 0 < voteEdges VoteKind.up.opposite uid "c1" storeVoted ∧
          (SetVote VoteKind.up voteInsertFails 12 (some "bob") "c1" storeVoted).store
            = voteWrites VoteKind.up uid "c1" 12 1 storeVoted) ∨
        (voteInsertFails.insertErr = true ∧
          (SetVote VoteKind.up voteInsertFails 12 (some "bob") "c1" storeVoted).store
            = voteWrites VoteKind.up uid "c1" 12 2 storeVoted) ∨
        (voteInsertFails.updateErr = true ∧
          (SetVote VoteKind.up voteInsertFails 12 (some "bob") "c1" storeVoted).store
            = voteWrites VoteKind.up uid "c1" 12 3 storeVoted))) :=
  ⟨by decide,
    SetVote_error_outcomes VoteKind.up voteInsertFails 12 (some "bob") "c1" storeVoted
      (by decide)⟩

/-- C14, as stated, fails: `bob` holds an upvote on `c1` and upvotes it again;
the `DELETE FROM downvotes` of lines 91-94 fails, and the handler answers with
success. -/
theorem Upvote_failed_delete_answers_success :
    upvoteEdges "bob" "c1" storeUpvoted = 1 ∧
    voteDelFails.delErr = true ∧
    (Upvote voteDelFails 12 (some "bob") "c1" storeUpvoted).response
      = Response.success [("message", "Already upvoted, downvote removed if existed")] ∧
    (Upvote voteDelFails 12 (some "bob") "c1" storeUpvoted).store = storeUpvoted := by
  decide

/-- C14, amended: when a call of kind `k` answers with success, none of the
statements it issued failed, with one exception.  Both lookups executed; if a
vote of kind `k` already existed, either the `DELETE` of the opposite vote
failed, its error was ignored and the store is unchanged, or that `DELETE`
succeeded and so did the decrement issued when it removed a row; if no vote of
kind `k` existed, the `DELETE`, the decrement issued when it removed a row,
the `INSERT` and the increment all succeeded. -/
theorem SetVote_success_faults (k : VoteKind) (f : VoteFaults) (now : Nat)
    (claims : Option String) (videoID : String) (db : Store)
    (h : (SetVote k f now claims videoID db).response.isSuccess = true) :
    ∃ uid, claims = some uid ∧ f.videoSelectErr = false ∧ f.voteSelectErr = false ∧
      ((0 < voteEdges k uid videoID db ∧
          ((f.delErr = true ∧ (SetVote k f now claims videoID db).store = db) ∨
            (f.delErr = false ∧
              (0 < voteEdges k.opposite uid videoID db → f.updErr = false)))) ∨
        (voteEdges k uid videoID db = 0 ∧ f.delErr = false ∧
          (0 < voteEdges k.opposite uid videoID db → f.updErr = false) ∧
          f.insertErr = false ∧ f.updateErr = false)) := by
  cases k with
  | up => exact Upvote_success_faults f now claims videoID db h
  | down => exact Downvote_success_faults f now claims videoID db h

/-- Witness of C14 amended: `bob`, who holds an upvote on `c1`, upvotes it
again and the `DELETE FROM downvotes` fails. -/
theorem SetVote_success_faults_witness :
    (SetVote VoteKind.up voteDelFails 12 (some "bob") "c1" storeUpvoted).response.isSuccess
      = true ∧
    ∃ uid, some "bob" = some uid ∧ voteDelFails.videoSelectErr = false ∧
      voteDelFails.voteSelectErr = false ∧
      ((0 < voteEdges VoteKind.up uid "c1" storeUpvoted ∧
          ((voteDelFails.delErr = true ∧
              (SetVote VoteKind.up voteDelFails 12 (some "bob") "c1" storeUpvoted).store
                = storeUpvoted) ∨
            (voteDelFails.delErr = false ∧
              (0 < voteEdges VoteKind.up.opposite uid "c1" storeUpvoted →
                voteDelFails.updErr = false)))) ∨
        (voteEdges VoteKind.up uid "c1" storeUpvoted = 0 ∧ voteDelFails.delErr = false ∧
          (0 < voteEdges VoteKind.up.opposite uid "c1" storeUpvoted →
            voteDelFails.updErr = false) ∧
          voteDelFails.insertErr = false ∧ voteDelFails.updateErr = false)) :=
  ⟨by decide,
    SetVote_success_faults VoteKind.up voteDelFails 12 (some "bob") "c1" storeUpvoted
      (by decide)⟩

/-- C15: for a `videoID` with no row in `videos`, `Upvote` and `Downvote` by
any actor answer 404 "Video not found" (500 "Failed to fetch video" if the
lookup statement itself fails) and leave the store unchanged. -/
theorem SetVote_no_video (k : VoteKind) (f : VoteFaults) (now : Nat) (uid videoID : String)
    (db : Store) (hid : videoID ≠ "") (hno : ¬ isPublished videoID db) :
    (SetVote k f now (some uid) videoID db).response =
      (if f.videoSelectErr then Response.error 500 "Failed to fetch video"
       else Response.error 404 "Video not found") ∧
    (SetVote k f now (some uid) videoID db).store = db := by
  have hnone := find_videos_none_of_not_published videoID db hno
  cases k with
  | up => exact Upvote_no_video f now uid videoID db hid hnone
  | down => exact Downvote_no_video f now uid videoID db hid hnone

/-- Witness of C15: `bob` upvotes `c9`, which was never published. -/
theorem SetVote_no_video_witness :
    ("c9" ≠ "" ∧ ¬ isPublished "c9" storeVoted) ∧
    ((SetVote VoteKind.up voteOk 12 (some "bob") "c9" storeVoted).response =
      (if voteOk.videoSelectErr then Response.error 500 "Failed to fetch video"
       else Response.error 404 "Video not found") ∧
    (SetVote VoteKind.up voteOk 12 (some "bob") "c9" storeVoted).store = storeVoted) :=
  ⟨by decide,
    SetVote_no_video VoteKind.up voteOk 12 "bob" "c9" storeVoted (by decide) (by decide)⟩

/-! ## Lemmas on `Comment` and `Reply` -/

theorem Comment_success_store (f : CommentFaults) (now : Nat) (commentID : String)
    (claims : Option String) (videoID : String) (body : Body) (db : Store)
    (h : (Comment f now commentID claims videoID body db).response.isSuccess = true) :
    ∃ uid fields user text, claims = some uid ∧ body = Body.object fields ∧
      db.users.find? (fun u => decide (u.UID = uid)) = some user ∧
      stringField fields "comment" = some text ∧
      (Comment f now commentID claims videoID body db).store =
        { db with
          comments := db.comments ++
            [{ CommentID := commentID, CommentedBy := uid, CommentedTo := videoID
               CommentedAt := now, Comment := text
               CommentByUsername := user.Username, TotalReplies := 0 }]
          videos := addVideoComments videoID 1 db.videos } := by
  unfold Comment at h ⊢
  cases claims with
  | none => simp [Response.isSuccess] at h
  | some uid =>
    simp only at h ⊢
    by_cases hid : videoID = ""
    · simp [hid, Response.isSuccess] at h
    · simp only [hid, if_false] at h ⊢
      cases body with
      | unreadable => simp [Response.isSuccess] at h
      | malformed => simp [Response.isSuccess] at h
      | object fields =>
        simp only at h ⊢
        cases hq : queryRow f.videoSelectErr (fun v => decide (v.VideoID = videoID)) db.videos with
        | errNoRows => simp [hq, Response.isSuccess] at h
        | dbError => simp [hq, Response.isSuccess] at h
        | row video =>
          simp only [hq] at h ⊢
          unfold queryRow at h ⊢
          by_cases hs : f.userSelectErr = true
          · simp [hs, Response.isSuccess] at h
          · simp only [hs, if_false] at h ⊢
            cases hu : db.users.find? (fun u => decide (u.UID = uid)) with
            | none => simp [hu, Response.isSuccess] at h
            | some user =>
              simp only [hu] at h ⊢
              cases ht : stringField fields "comment" with
              | none => simp [ht, Response.isSuccess] at h
              | some text =>
                simp only [ht] at h ⊢
                by_cases hi : f.insertErr = true
                · simp [hi, Response.isSuccess] at h
                · by_cases hx : f.updateErr = true
                  · simp [hi, hx, Response.isSuccess] at h
                  · refine ⟨uid, fields, user, text, rfl, rfl, hu, ht, ?_⟩
                    simp [hi, hx]

theorem Comment_no_video (f : CommentFaults) (now : Nat) (commentID uid videoID : String)
    (fields : List (String × Option String)) (db : Store) (hid : videoID ≠ "")
    (hno : db.videos.find? (fun v => decide (v.VideoID = videoID)) = none) :
    (Comment f now commentID (some uid) videoID (Body.object fields) db).response =
      (if f.videoSelectErr then Response.error 500 "Failed to fetch video"
       else Response.error 404 "Video not found") ∧
    (Comment f now commentID (some uid) videoID (Body.object fields) db).store = db := by
  unfold Comment queryRow
  by_cases hs : f.videoSelectErr = true <;> simp [hid, hno, hs]


theorem Reply_success_store (f : ReplyFaults) (now : Nat) (replyID : String)
    (claims : Option String) (commentID : String) (body : Body) (db : Store)
    (h : (Reply f now replyID claims commentID body db).response.isSuccess = true) :
    ∃ uid fields user text, claims = some uid ∧ body = Body.object fields ∧
      db.users.find? (fun u => decide (u.UID = uid)) = some user ∧
      stringField fields "reply" = some text ∧
      (((db.replies.find?
            (fun r => decide (r.RepliedTo = commentID) && decide (r.RepliedBy = uid))).isSome
            = true ∧
          (Reply f now replyID claims commentID body db).store =
            { db with replies := updateReply text commentID uid db.replies }) ∨
        (db.replies.find?
            (fun r => decide (r.RepliedTo = commentID) && decide (r.RepliedBy = uid)) = none ∧
          (Reply f now replyID claims commentID body db).store =
            { db with
              replies := db.replies ++
                [{ ReplyID := replyID, RepliedBy := uid, RepliedTo := commentID
                   RepliedAt := now, Reply := text, ReplyByUsername := user.Username }]
              comments := addTotalReplies commentID 1 db.comments })) := by
  unfold Reply at h ⊢
  cases claims with
  | none => simp [Response.isSuccess] at h
  | some uid =>
    simp only at h ⊢
    by_cases hid : commentID = ""
    · simp [hid, Response.isSuccess] at h
    · simp only [hid, if_false] at h ⊢
      cases body with
      | unreadable => simp [Response.isSuccess] at h
      | malformed => simp [Response.isSuccess] at h
      | object fields =>
        simp only at h ⊢
        cases hq : queryRow f.commentSelectErr (fun c => decide (c.CommentID = commentID))
            db.comments with
        | errNoRows => simp [hq, Response.isSuccess] at h
        | dbError => simp [hq, Response.isSuccess] at h
        | row comment =>
          simp only [hq] at h ⊢
          unfold queryRow at h ⊢
          by_cases hs : f.userSelectErr = true
          · simp [hs, Response.isSuccess] at h
          · simp only [hs, if_false] at h ⊢
            cases hu : db.users.find? (fun u => decide (u.UID = uid)) with
            | none => simp [hu, Response.isSuccess] at h
            | some user =>
              simp only [hu] at h ⊢
              cases ht : stringField fields "reply" with
              | none => simp [ht, Response.isSuccess] at h
              | some text =>
                simp only [ht] at h ⊢
                refine ⟨uid, fields, user, text, rfl, rfl, hu, ht, ?_⟩
                by_cases hr : f.replySelectErr = true
                · simp [hr, Response.isSuccess] at h
                · simp only [hr, if_false] at h ⊢
                  cases hf : db.replies.find?
                      (fun r => decide (r.RepliedTo = commentID) && decide (r.RepliedBy = uid)) with
                  | some r =>
                    left
                    simp only [hf] at h ⊢
                    refine ⟨rfl, ?_⟩
                    by_cases hx : f.updateReplyErr = true
                    · simp [hx, Response.isSuccess] at h
                    · simp [hx]
                  | none =>
                    right
                    simp only [hf] at h ⊢
                    refine ⟨trivial, ?_⟩
                    by_cases hi : f.insertErr = true
                    · simp [hi, Response.isSuccess] at h
                    · by_cases hx : f.updateErr = true
                      · simp [hi, hx, Response.isSuccess] at h
                      · simp [hi, hx]

theorem updateReply_eq_self (text commentID uid : String) (t : List Replies)
    (h : t.countP (fun r => decide (r.RepliedTo = commentID) && decide (r.RepliedBy = uid)) = 0) :
    updateReply text commentID uid t = t := by
  unfold updateReply
  rw [List.countP_eq_zero] at h
  conv_rhs => rw [← List.map_id t]
  apply List.map_congr_left
  intro r hr
  have hb := h r hr
  simp only [Bool.and_eq_true, decide_eq_true_eq] at hb
  simp [hb]

/-! ## Comments and replies -/

/-- C16: `Comment` accepts an empty body.  `bob` comments on the published
video `c1` with the JSON body whose field `comment` is the empty string; the
handler answers with success, appends a `comments` row whose text is empty and
raises `video_comments` of `c1` from 0 to 1. -/
theorem Comment_empty_text_is_accepted :
    stringField [("comment", some "")] "comment" = some "" ∧
    (Comment commentOk 20 "k9" (some "bob") "c1" (Body.object [("comment", some "")])
      storeNoVotes).response = Response.success [("message", "Video commented")] ∧
    (Comment commentOk 20 "k9" (some "bob") "c1" (Body.object [("comment", some "")])
      storeNoVotes).store.comments =
      [{ CommentID := "k9", CommentedBy := "bob", CommentedTo := "c1", CommentedAt := 20
         Comment := "", CommentByUsername := "bob02", TotalReplies := 0 }] ∧
    storeNoVotes.videos.map (fun v => v.VideoComments) = [0] ∧
    (Comment commentOk 20 "k9" (some "bob") "c1" (Body.object [("comment", some "")])
      storeNoVotes).store.videos.map (fun v => v.VideoComments) = [1] := by
  decide

/-- C17: for a body whose field `comment` is the non-empty string `text`, a
`Comment` call that answers with success was made by an existing user, appends
exactly one `comments` row (author the actor, target the video, the text as
given, `total_replies` 0), adds 1 to `video_comments` of the rows of the
target and changes nothing else; and when the target has no row in `videos`
the call answers 404 "Video not found" (500 if the lookup itself fails) and
leaves the store unchanged. -/
theorem Comment_adds_one_row (f : CommentFaults) (now : Nat) (commentID uid videoID : String)
    (fields : List (String × Option String)) (text : String) (db : Store)
    (hid : videoID ≠ "") (hbody : stringField fields "comment" = some text)
    (_htext : text ≠ "") :
    ((Comment f now commentID (some uid) videoID (Body.object fields) db).response.isSuccess
        = true →
      ∃ user ∈ db.users, user.UID = uid ∧
        (Comment f now commentID (some uid) videoID (Body.object fields) db).store =
          { db with
            comments := db.comments ++
              [{ CommentID := commentID, CommentedBy := uid, CommentedTo := videoID
                 CommentedAt := now, Comment := text
                 CommentByUsername := user.Username, TotalReplies := 0 }]
            videos := db.videos.map (fun v =>
              if v.VideoID = videoID then { v with VideoComments := v.VideoComments + 1 }
              else v) }) ∧
    (¬ isPublished videoID db →
      (Comment f now commentID (some uid) videoID (Body.object fields) db).response =
        (if f.videoSelectErr then Response.error 500 "Failed to fetch video"
         else Response.error 404 "Video not found") ∧
      (Comment f now commentID (some uid) videoID (Body.object fields) db).store = db) := by
  constructor
  · intro hs
    obtain ⟨uid', fields', user, text', hc, hb, hu, ht, hstore⟩ :=
      Comment_success_store f now commentID (some uid) videoID (Body.object fields) db hs
    cases hc
    cases hb
    rw [hbody] at ht
    cases ht
    exact ⟨user, List.mem_of_find?_eq_some hu, by simpa using List.find?_some hu, hstore⟩
  · intro hno
    exact Comment_no_video f now commentID uid videoID fields db hid
      (find_videos_none_of_not_published videoID db hno)

/-- Witness of C17: `bob` comments "nice" on the published video `c1`; the
call answers with success. -/
theorem Comment_adds_one_row_witness :
    ("c1" ≠ "" ∧ stringField [("comment", some "nice")] "comment" = some "nice" ∧ "nice" ≠ "" ∧
      (Comment commentOk 20 "k2" (some "bob") "c1" (Body.object [("comment", some "nice")])
        storeNoVotes).response.isSuccess = true) ∧
    (((Comment commentOk 20 "k2" (some "bob") "c1" (Body.object [("comment", some "nice")])
          storeNoVotes).response.isSuccess = true →
      ∃ user ∈ storeNoVotes.users, user.UID = "bob" ∧
        (Comment commentOk 20 "k2" (some "bob") "c1" (Body.object [("comment", some "nice")])
          storeNoVotes).store =
          { storeNoVotes with
            comments := storeNoVotes.comments ++
              [{ CommentID := "k2", CommentedBy := "bob", CommentedTo := "c1"
                 CommentedAt := 20, Comment := "nice"
                 CommentByUsername := user.Username, TotalReplies := 0 }]
            videos := storeNoVotes.videos.map (fun v =>
              if v.VideoID = "c1" then { v with VideoComments := v.VideoComments + 1 }
              else v) }) ∧
    (¬ isPublished "c1" storeNoVotes →
      (Comment commentOk 20 "k2" (some "bob") "c1" (Body.object [("comment", some "nice")])
          storeNoVotes).response =
        (if commentOk.videoSelectErr then Response.error 500 "Failed to fetch video"
         else Response.error 404 "Video not found") ∧
      (Comment commentOk 20 "k2" (some "bob") "c1" (Body.object [("comment", some "nice")])
          storeNoVotes).store = storeNoVotes)) :=
  ⟨by decide,
    Comment_adds_one_row commentOk 20 "k2" "bob" "c1" [("comment", some "nice")] "nice"
      storeNoVotes (by decide) (by decide) (by decide)⟩

/-- C18: when an actor with no reply on a comment replies to it twice, with
texts `b1` and then `b2`, and both calls answer with success, the `replies`
table ends as it started plus one row for the pair, the row inserted by the
first call with its text replaced by `b2`; the pair has exactly one row; and
`total_replies` of the comment is the baseline plus 1. -/
theorem Reply_twice (f1 f2 : ReplyFaults) (now1 now2 : Nat) (id1 id2 uid commentID : String)
    (fields1 fields2 : List (String × Option String)) (b1 b2 : String) (db : Store)
    (hb1 : stringField fields1 "reply" = some b1) (hb2 : stringField fields2 "reply" = some b2)
    (h0 : replyRows uid commentID db = 0)
    (hs1 : (Reply f1 now1 id1 (some uid) commentID (Body.object fields1) db).response.isSuccess
      = true)
    (hs2 : (Reply f2 now2 id2 (some uid) commentID (Body.object fields2)
      (Reply f1 now1 id1 (some uid) commentID (Body.object fields1) db).store).response.isSuccess
      = true) :
    (∃ user ∈ db.users, user.UID = uid ∧
      (Reply f2 now2 id2 (some uid) commentID (Body.object fields2)
        (Reply f1 now1 id1 (some uid) commentID (Body.object fields1) db).store).store.replies
        = db.replies ++
          [{ ReplyID := id1, RepliedBy := uid, RepliedTo := commentID, RepliedAt := now1
             Reply := b2, ReplyByUsername := user.Username }]) ∧
    replyRows uid commentID
      (Reply f2 now2 id2 (some uid) commentID (Body.object fields2)
        (Reply f1 now1 id1 (some uid) commentID (Body.object fields1) db).store).store = 1 ∧
    (Reply f2 now2 id2 (some uid) commentID (Body.object fields2)
        (Reply f1 now1 id1 (some uid) commentID (Body.object fields1) db).store).store.comments
      = db.comments.map (fun c =>
          if c.CommentID = commentID then { c with TotalReplies := c.TotalReplies + 1 } else c) := by
  obtain ⟨u1, fl1, user1, t1, hc1, hbd1, hu1, ht1, hcase1⟩ :=
    Reply_success_store f1 now1 id1 (some uid) commentID (Body.object fields1) db hs1
  cases hc1
  cases hbd1
  rw [hb1] at ht1
  cases ht1
  have hz : db.replies.countP
      (fun r => decide (r.RepliedTo = commentID) && decide (r.RepliedBy = uid)) = 0 := h0
  rcases hcase1 with ⟨hfound, _⟩ | ⟨_, hstore1⟩
  · have := countP_of_find_isSome _ _ hfound
    omega
  · obtain ⟨u2, fl2, user2, t2, hc2, hbd2, _, ht2, hcase2⟩ :=
      Reply_success_store f2 now2 id2 (some uid) commentID (Body.object fields2) _ hs2
    cases hc2
    cases hbd2
    rw [hb2] at ht2
    cases ht2
    have hone : (Reply f1 now1 id1 (some uid) commentID (Body.object fields1) db).store.replies.countP
        (fun r => decide (r.RepliedTo = commentID) && decide (r.RepliedBy = uid)) = 1 := by
      rw [hstore1]
      simp [List.countP_append, hz]
    rcases hcase2 with ⟨_, hstore2⟩ | ⟨hnone2, _⟩
    · have hrep : (Reply f2 now2 id2 (some uid) commentID (Body.object fields2)
          (Reply f1 now1 id1 (some uid) commentID (Body.object fields1) db).store).store.replies
          = db.replies ++
            [{ ReplyID := id1, RepliedBy := uid, RepliedTo := commentID, RepliedAt := now1
               Reply := b2, ReplyByUsername := user1.Username }] := by
        rw [hstore2, hstore1]
        simp only
        have hself := updateReply_eq_self b2 commentID uid db.replies hz
        unfold updateReply at hself ⊢
        rw [List.map_append, hself]
        simp
      refine ⟨⟨user1, List.mem_of_find?_eq_some hu1, by simpa using List.find?_some hu1, hrep⟩,
        ?_, ?_⟩
      · unfold replyRows
        rw [hrep]
        simp [List.countP_append, hz]
      · rw [hstore2, hstore1]
        rfl
    · have := countP_of_find_none _ _ hnone2
      omega

/-- Witness of C18: `bob` replies "a" and then "b" to the comment `k1`. -/
theorem Reply_twice_witness :
    (stringField [("reply", some "a")] "reply" = some "a" ∧
      stringField [("reply", some "b")] "reply" = some "b" ∧
      replyRows "bob" "k1" storeCommented = 0 ∧
      (Reply replyOk 21 "r1" (some "bob") "k1" (Body.object [("reply", some "a")])
        storeCommented).response.isSuccess = true ∧
      (Reply replyOk 22 "r2" (some "bob") "k1" (Body.object [("reply", some "b")])
        (Reply replyOk 21 "r1" (some "bob") "k1" (Body.object [("reply", some "a")])
          storeCommented).store).response.isSuccess = true) ∧
    ((∃ user ∈ storeCommented.users, user.UID = "bob" ∧
      (Reply replyOk 22 "r2" (some "bob") "k1" (Body.object [("reply", some "b")])
        (Reply replyOk 21 "r1" (some "bob") "k1" (Body.object [("reply", some "a")])
          storeCommented).store).store.replies
        = storeCommented.replies ++
          [{ ReplyID := "r1", RepliedBy := "bob", RepliedTo := "k1", RepliedAt := 21
             Reply := "b", ReplyByUsername := user.Username }]) ∧
    replyRows "bob" "k1"
      (Reply replyOk 22 "r2" (some "bob") "k1" (Body.object [("reply", some "b")])
        (Reply replyOk 21 "r1" (some "bob") "k1" (Body.object [("reply", some "a")])
          storeCommented).store).store = 1 ∧
    (Reply replyOk 22 "r2" (some "bob") "k1" (Body.object [("reply", some "b")])
        (Reply replyOk 21 "r1" (some "bob") "k1" (Body.object [("reply", some "a")])
          storeCommented).store).store.comments
      = storeCommented.comments.map (fun c =>
          if c.CommentID = "k1" then { c with TotalReplies := c.TotalReplies + 1 } else c)) :=
  ⟨by decide,
    Reply_twice replyOk replyOk 21 22 "r1" "r2" "bob" "k1" [("reply", some "a")]
      [("reply", some "b")] "a" "b" storeCommented (by decide) (by decide) (by decide)
      (by decide) (by decide)⟩

/-! ## Lemmas on `View` and `ResyncCounters` -/

theorem View_ok (auth : Bool) (claims : Option String) (videoID : String) (db : Store) :
    View false auth claims videoID db = (none, { db with videos := db.videos.map (fun v =>
      if v.VideoID = videoID then { v with VideoViews := v.VideoViews + 1 } else v) }) := rfl

theorem ResyncCounters_success (f : ResyncFaults) (now : Nat) (claims : Option String)
    (db : Store) (counters : List SystemCounters)
    (h : (ResyncCounters f now claims db counters).response.isSuccess = true) :
    (ResyncCounters f now claims db counters).store = db ∧
    (ResyncCounters f now claims db counters).system_counters
      = resyncCounterRow now db (ensureCounterRow now counters) := by
  unfold ResyncCounters at h ⊢
  cases hq : requireAdmin f.userSelectErr claims db with
  | error e =>
    simp only [hq] at h
    obtain ⟨r, l⟩ := e
    unfold requireAdmin at hq
    cases claims with
    | none =>
      simp only [Except.error.injEq, Prod.mk.injEq] at hq
      rw [← hq.1] at h
      simp [Response.isSuccess] at h
    | some uid =>
      simp only at hq
      cases hu : queryRow f.userSelectErr (fun u => decide (u.UID = uid)) db.users with
      | errNoRows =>
        simp only [hu, Except.error.injEq, Prod.mk.injEq] at hq
        rw [← hq.1] at h
        simp [Response.isSuccess] at h
      | dbError =>
        simp only [hu, Except.error.injEq, Prod.mk.injEq] at hq
        rw [← hq.1] at h
        simp [Response.isSuccess] at h
      | row user =>
        simp only [hu] at hq
        by_cases hr : user.Role = "admin"
        · simp [hr] at hq
        · simp only [ne_eq, hr, not_false_eq_true, if_true, Except.error.injEq,
            Prod.mk.injEq] at hq
          rw [← hq.1] at h
          simp [Response.isSuccess] at h
  | ok u =>
    simp only [hq] at h ⊢
    by_cases h1 : f.beginErr = true
    · simp [h1, Response.isSuccess] at h
    · by_cases h2 : f.insertErr = true
      · simp [h1, h2, Response.isSuccess] at h
      · by_cases h3 : f.updateErr = true
        · simp [h1, h2, h3, Response.isSuccess] at h
        · by_cases h4 : f.commitErr = true
          · simp [h1, h2, h3, h4, Response.isSuccess] at h
          · simp [h1, h2, h3, h4]

theorem exists_row_one_ensureCounterRow (now : Nat) (t : List SystemCounters) :
    ∃ c ∈ ensureCounterRow now t, c.ID = 1 := by
  unfold ensureCounterRow
  by_cases h : t.any (fun c => decide (c.ID = 1)) = true
  · rw [if_pos h]
    rw [List.any_eq_true] at h
    obtain ⟨c, hc, hid⟩ := h
    exact ⟨c, hc, by simpa using hid⟩
  · rw [if_neg h]
    exact ⟨_, List.mem_append_right _ (List.mem_singleton.mpr rfl), rfl⟩

/-! ## Views and counter reconciliation -/

/-- C19: after any number of `View` calls on `videoID` that return nil,
whatever `auth` flag and `claims` each of them receives, the store is the
initial one with `video_views` of the rows of `videoID` increased by the
number of calls: each call adds exactly 1 and changes no other field and no
other row. -/
theorem runViews_adds_length (videoID : String) (calls : List (Bool × Bool × Option String))
    (db db' : Store) (hrun : runViews videoID calls db = some db') :
    db' = { db with videos := db.videos.map (fun v =>
      if v.VideoID = videoID then { v with VideoViews := v.VideoViews + calls.length } else v) } := by
  induction calls generalizing db with
  | nil =>
    simp only [runViews, Option.some.injEq] at hrun
    subst hrun
    have : db.videos.map (fun v =>
        if v.VideoID = videoID then
          { v with VideoViews := v.VideoViews + (([] : List (Bool × Bool × Option String)).length : Int) }
        else v) = db.videos := by
      conv_rhs => rw [← List.map_id db.videos]
      apply List.map_congr_left
      intro v _
      by_cases h : v.VideoID = videoID
      · rw [if_pos h]
        cases v
        simp
      · simp [h]
    rw [this]
  | cons c rest ih =>
    obtain ⟨fails, auth, claims⟩ := c
    cases fails with
    | true => simp [runViews, View] at hrun
    | false =>
      simp only [runViews, View_ok] at hrun
      have := ih _ hrun
      rw [this]
      simp only [List.map_map, List.length_cons]
      congr 1
      apply List.map_congr_left
      intro v _
      by_cases h : v.VideoID = videoID
      · simp [h]
        omega
      · simp [h]

/-- Witness of C19: one anonymous and one authenticated view of `c1`. -/
theorem runViews_adds_length_witness :
    runViews "c1" twoViews storeNoVotes = some storeViewedTwice ∧
    storeViewedTwice = { storeNoVotes with videos := storeNoVotes.videos.map (fun v =>
      if v.VideoID = "c1" then { v with VideoViews := v.VideoViews + twoViews.length } else v) } :=
  ⟨by decide,
    runViews_adds_length "c1" twoViews storeNoVotes storeViewedTwice (by decide)⟩

/-- C20: after a `ResyncCounters` call that answers with success, from any
store and any content of `system_counters` (the row with id 1 present or not,
with any cached values), the tables of the store are unchanged, a row with id
1 exists, and in every row with id 1 each of the seven counts is the number of
rows of its source table: `users`, `videos`, `comments`, `replies`, `upvotes`,
`downvotes`, `views`. -/
theorem ResyncCounters_postcondition (f : ResyncFaults) (now : Nat) (claims : Option String)
    (db : Store) (counters : List SystemCounters)
    (h : (ResyncCounters f now claims db counters).response.isSuccess = true) :
    (ResyncCounters f now claims db counters).store = db ∧
    (∃ c ∈ (ResyncCounters f now claims db counters).system_counters, c.ID = 1) ∧
    ∀ c ∈ (ResyncCounters f now claims db counters).system_counters, c.ID = 1 →
      c.UsersCount = db.users.length ∧ c.VideosCount = db.videos.length ∧
      c.CommentsCount = db.comments.length ∧ c.RepliesCount = db.replies.length ∧
      c.UpvotesCount = db.upvotes.length ∧ c.DownvotesCount = db.downvotes.length ∧
      c.ViewsCount = db.views.length := by
  obtain ⟨h1, h2⟩ := ResyncCounters_success f now claims db counters h
  refine ⟨h1, ?_, ?_⟩
  · rw [h2]
    obtain ⟨c, hc, hid⟩ := exists_row_one_ensureCounterRow now counters
    unfold resyncCounterRow
    refine ⟨_, List.mem_map.mpr ⟨c, hc, rfl⟩, ?_⟩
    simp [hid]
  · intro c hc hid
    rw [h2] at hc
    unfold resyncCounterRow at hc
    rw [List.mem_map] at hc
    obtain ⟨c0, _, rfl⟩ := hc
    by_cases h0 : c0.ID = 1
    · simp [h0]
    · simp [h0] at hid

/-- Witness of C20: the administrator `carol` resyncs stale counters. -/
theorem ResyncCounters_postcondition_witness :
    (ResyncCounters resyncOk 30 (some "carol") storeAdmin staleCounters).response.isSuccess
      = true ∧
    ((ResyncCounters resyncOk 30 (some "carol") storeAdmin staleCounters).store = storeAdmin ∧
    (∃ c ∈ (ResyncCounters resyncOk 30 (some "carol") storeAdmin staleCounters).system_counters,
      c.ID = 1) ∧
    ∀ c ∈ (ResyncCounters resyncOk 30 (some "carol") storeAdmin staleCounters).system_counters,
      c.ID = 1 →
      c.UsersCount = storeAdmin.users.length ∧ c.VideosCount = storeAdmin.videos.length ∧
      c.CommentsCount = storeAdmin.comments.length ∧ c.RepliesCount = storeAdmin.replies.length ∧
      c.UpvotesCount = storeAdmin.upvotes.length ∧
      c.DownvotesCount = storeAdmin.downvotes.length ∧
      c.ViewsCount = storeAdmin.views.length) :=
  ⟨by decide,
    ResyncCounters_postcondition resyncOk 30 (some "carol") storeAdmin staleCounters
      (by decide)⟩

/-! ## Lemmas on `GetCounters` -/

theorem requireAdmin_error_ne (e : Bool) (claims : Option String) (db : Store)
    (r : Response × List String) (h : requireAdmin e claims db = Except.error r) :
    r.1 ≠ Response.error 500 "Counters not initialized. Please run database migrations." ∧
    r.1.isSuccess = false := by
  unfold requireAdmin at h
  cases claims with
  | none =>
    simp only [Except.error.injEq] at h
    rw [← h]; exact ⟨by decide, rfl⟩
  | some uid =>
    simp only at h
    cases hu : queryRow e (fun u => decide (u.UID = uid)) db.users with
    | errNoRows =>
      simp only [hu, Except.error.injEq] at h
      rw [← h]; exact ⟨by decide, rfl⟩
    | dbError =>
      simp only [hu, Except.error.injEq] at h
      rw [← h]; exact ⟨by decide, rfl⟩
    | row user =>
      simp only [hu] at h
      by_cases hr : user.Role = "admin"
      · simp [hr] at h
      · simp only [ne_eq, hr, not_false_eq_true, if_true, Except.error.injEq] at h
        rw [← h]; exact ⟨by decide, rfl⟩

theorem ResyncCounters_success_admin (f : ResyncFaults) (now : Nat) (claims : Option String)
    (db : Store) (counters : List SystemCounters)
    (h : (ResyncCounters f now claims db counters).response.isSuccess = true) :
    ∃ u, requireAdmin false claims db = Except.ok u := by
  unfold ResyncCounters at h
  cases hq : requireAdmin f.userSelectErr claims db with
  | error e =>
    simp only [hq] at h
    rw [(requireAdmin_error_ne _ _ _ e hq).2] at h
    exact absurd h (by decide)
  | ok u =>
    refine ⟨u, ?_⟩
    cases hf : f.userSelectErr with
    | false => rw [← hf]; exact hq
    | true =>
      rw [hf] at hq
      unfold requireAdmin at hq
      cases claims with
      | none => simp at hq
      | some uid => simp [queryRow] at hq

theorem find_resyncCounterRow (now : Nat) (db : Store) (t : List SystemCounters) :
    (resyncCounterRow now db t).find? (fun c => decide (c.ID = 1))
      = (t.find? (fun c => decide (c.ID = 1))).map (fun c =>
          { c with
            UsersCount := db.users.length
            VideosCount := db.videos.length
            CommentsCount := db.comments.length
            RepliesCount := db.replies.length
            UpvotesCount := db.upvotes.length
            DownvotesCount := db.downvotes.length
            ViewsCount := db.views.length
            UpdatedAt := now }) := by
  unfold resyncCounterRow
  induction t with
  | nil => rfl
  | cons c t ih =>
    by_cases h : c.ID = 1
    · simp [List.find?, h]
    · simp only [List.map_cons, h, if_false, List.find?, decide_False]
      exact ih

theorem find_ensureCounterRow_isSome (now : Nat) (t : List SystemCounters) :
    ((ensureCounterRow now t).find? (fun c => decide (c.ID = 1))).isSome = true := by
  obtain ⟨c, hc, hid⟩ := exists_row_one_ensureCounterRow now t
  rw [List.find?_isSome]
  exact ⟨c, hc, by simpa using hid⟩

theorem ensureCounterRow_of_any (now : Nat) (t : List SystemCounters)
    (h : t.any (fun c => decide (c.ID = 1)) = true) : ensureCounterRow now t = t := by
  unfold ensureCounterRow
  rw [if_pos h]

theorem ensureCounterRow_resyncCounterRow (now now' : Nat) (db : Store) (t : List SystemCounters) :
    ensureCounterRow now' (resyncCounterRow now db (ensureCounterRow now t))
      = resyncCounterRow now db (ensureCounterRow now t) := by
  obtain ⟨c, hc, hid⟩ := exists_row_one_ensureCounterRow now t
  have : (resyncCounterRow now db (ensureCounterRow now t)).any (fun c => decide (c.ID = 1))
      = true := by
    rw [List.any_eq_true]
    unfold resyncCounterRow
    refine ⟨_, List.mem_map.mpr ⟨c, hc, rfl⟩, ?_⟩
    simp [hid]
  exact ensureCounterRow_of_any now' _ this

theorem GetCounters_after_resync (g : GetCountersFaults) (now : Nat) (claims : Option String)
    (db : Store) (t : List SystemCounters) (u : User)
    (hu : requireAdmin g.userSelectErr claims db = Except.ok u) (hs : g.selectErr = false) :
    ∃ c, (GetCounters g claims db (resyncCounterRow now db (ensureCounterRow now t))).reply
        = CountersReply.counters c ∧
      c.Users = db.users.length ∧ c.Videos = db.videos.length ∧
      c.Comments = db.comments.length ∧ c.Replies = db.replies.length ∧
      c.Upvotes = db.upvotes.length ∧ c.Downvotes = db.downvotes.length ∧
      c.Views = db.views.length ∧ c.UpdatedAt = now := by
  unfold GetCounters
  simp only [hu, hs, queryRow, Bool.false_eq_true, if_false]
  rw [find_resyncCounterRow]
  have h := find_ensureCounterRow_isSome now t
  cases hf : (ensureCounterRow now t).find? (fun c => decide (c.ID = 1)) with
  | none => rw [hf] at h; exact absurd h (by decide)
  | some c0 => exact ⟨_, rfl, rfl, rfl, rfl, rfl, rfl, rfl, rfl, rfl⟩

theorem resyncCounterRow_twice (now1 now2 : Nat) (db : Store) (t : List SystemCounters) :
    resyncCounterRow now2 db (resyncCounterRow now1 db t)
      = (resyncCounterRow now1 db t).map (fun c =>
          if c.ID = 1 then { c with UpdatedAt := now2 } else c) := by
  unfold resyncCounterRow
  rw [List.map_map, List.map_map]
  apply List.map_congr_left
  intro c _
  by_cases h : c.ID = 1
  · simp [h]
  · simp [h]

/-! ## Reading and resyncing the counters -/

/-- Counterexample to C21 as stated: the administrator `carol` resyncs the
counters of `storeAdmin` at time 30 and again at time 31, with no write in
between.  Both runs succeed, but the row left by the second run differs from
the row left by the first, and so do the snapshots `GetCounters` returns after
each run: `updated_at` is 30 in one and 31 in the other. -/
theorem ResyncCounters_twice_rows_differ :
    (ResyncCounters resyncOk 30 (some "carol") storeAdmin staleCounters).response.isSuccess
      = true ∧
    (ResyncCounters resyncOk 30 (some "carol") storeAdmin staleCounters).store = storeAdmin ∧
    (ResyncCounters resyncOk 31 (some "carol") storeAdmin
      (ResyncCounters resyncOk 30 (some "carol") storeAdmin staleCounters).system_counters
      ).response.isSuccess = true ∧
    (ResyncCounters resyncOk 31 (some "carol") storeAdmin
      (ResyncCounters resyncOk 30 (some "carol") storeAdmin staleCounters).system_counters
      ).system_counters
      ≠ (ResyncCounters resyncOk 30 (some "carol") storeAdmin staleCounters).system_counters ∧
    (GetCounters getCountersOk (some "carol") storeAdmin
      (ResyncCounters resyncOk 31 (some "carol") storeAdmin
        (ResyncCounters resyncOk 30 (some "carol") storeAdmin staleCounters).system_counters
        ).system_counters).reply
      ≠ (GetCounters getCountersOk (some "carol") storeAdmin
          (ResyncCounters resyncOk 30 (some "carol") storeAdmin staleCounters).system_counters
          ).reply := by
  decide

/-- C21, amended: when `ResyncCounters` succeeds twice in a row on the same
store, at times `now1` and `now2`, the second run leaves every row of
`system_counters` as the first run left it except for `updated_at` of the row
with id 1, which becomes `now2`; and the snapshots `GetCounters` returns to the
same caller after each run agree in all seven counts, their `updated_at` being
`now1` and `now2`. -/
theorem ResyncCounters_twice (f1 f2 : ResyncFaults) (g : GetCountersFaults) (now1 now2 : Nat)
    (claims : Option String) (db : Store) (counters : List SystemCounters)
    (h1 : (ResyncCounters f1 now1 claims db counters).response.isSuccess = true)
    (h2 : (ResyncCounters f2 now2 claims db
      (ResyncCounters f1 now1 claims db counters).system_counters).response.isSuccess = true)
    (hg : g.userSelectErr = false) (hs : g.selectErr = false) :
    (ResyncCounters f2 now2 claims db
        (ResyncCounters f1 now1 claims db counters).system_counters).system_counters
      = (ResyncCounters f1 now1 claims db counters).system_counters.map (fun c =>
          if c.ID = 1 then { c with UpdatedAt := now2 } else c) ∧
    ∃ c1 c2 : Counters,
      (GetCounters g claims db (ResyncCounters f1 now1 claims db counters).system_counters).reply
        = CountersReply.counters c1 ∧
      (GetCounters g claims db (ResyncCounters f2 now2 claims db
        (ResyncCounters f1 now1 claims db counters).system_counters).system_counters).reply
        = CountersReply.counters c2 ∧
      c1.Users = c2.Users ∧ c1.Videos = c2.Videos ∧ c1.Comments = c2.Comments ∧
      c1.Replies = c2.Replies ∧ c1.Upvotes = c2.Upvotes ∧ c1.Downvotes = c2.Downvotes ∧
      c1.Views = c2.Views ∧ c1.UpdatedAt = now1 ∧ c2.UpdatedAt = now2 := by
  obtain ⟨u, hu⟩ := ResyncCounters_success_admin f1 now1 claims db counters h1
  rw [← hg] at hu
  have e2 := (ResyncCounters_success f2 now2 claims db _ h2).2
  have e1 := (ResyncCounters_success f1 now1 claims db counters h1).2
  rw [e2, e1, ensureCounterRow_resyncCounterRow]
  refine ⟨resyncCounterRow_twice now1 now2 db _, ?_⟩
  obtain ⟨c1, r1, a1, a2, a3, a4, a5, a6, a7, a8⟩ :=
    GetCounters_after_resync g now1 claims db counters u hu hs
  have hh := GetCounters_after_resync g now2 claims db
    (resyncCounterRow now1 db (ensureCounterRow now1 counters)) u hu hs
  rw [ensureCounterRow_resyncCounterRow] at hh
  obtain ⟨c2, r2, b1, b2, b3, b4, b5, b6, b7, b8⟩ := hh
  exact ⟨c1, c2, r1, r2, by rw [a1, b1], by rw [a2, b2], by rw [a3, b3], by rw [a4, b4],
    by rw [a5, b5], by rw [a6, b6], by rw [a7, b7], a8, b8⟩

/-- Witness of C21: the administrator `carol` resyncs stale counters at time
30 and again at time 31. -/
theorem ResyncCounters_twice_witness :
    ((ResyncCounters resyncOk 30 (some "carol") storeAdmin staleCounters).response.isSuccess
      = true ∧
    (ResyncCounters resyncOk 31 (some "carol") storeAdmin
      (ResyncCounters resyncOk 30 (some "carol") storeAdmin staleCounters).system_counters
      ).response.isSuccess = true ∧
    getCountersOk.userSelectErr = false ∧ getCountersOk.selectErr = false) ∧
    ((ResyncCounters resyncOk 31 (some "carol") storeAdmin
        (ResyncCounters resyncOk 30 (some "carol") storeAdmin staleCounters).system_counters
        ).system_counters
      = (ResyncCounters resyncOk 30 (some "carol") storeAdmin staleCounters).system_counters.map
          (fun c => if c.ID = 1 then { c with UpdatedAt := 31 } else c) ∧
    ∃ c1 c2 : Counters,
      (GetCounters getCountersOk (some "carol") storeAdmin
        (ResyncCounters resyncOk 30 (some "carol") storeAdmin staleCounters).system_counters
        ).reply = CountersReply.counters c1 ∧
      (GetCounters getCountersOk (some "carol") storeAdmin
        (ResyncCounters resyncOk 31 (some "carol") storeAdmin
          (ResyncCounters resyncOk 30 (some "carol") storeAdmin staleCounters).system_counters
          ).system_counters).reply = CountersReply.counters c2 ∧
      c1.Users = c2.Users ∧ c1.Videos = c2.Videos ∧ c1.Comments = c2.Comments ∧
      c1.Replies = c2.Replies ∧ c1.Upvotes = c2.Upvotes ∧ c1.Downvotes = c2.Downvotes ∧
      c1.Views = c2.Views ∧ c1.UpdatedAt = 30 ∧ c2.UpdatedAt = 31) :=
  ⟨by decide,
    ResyncCounters_twice resyncOk resyncOk getCountersOk 30 31 (some "carol") storeAdmin
      staleCounters (by decide) (by decide) rfl rfl⟩

/-- C22: `GetCounters` leaves the store and `system_counters` as they were.
It answers that the counters are not initialized exactly when the caller passes
`requireAdmin`, the `SELECT` executes, and `system_counters` has no row with id
1; when the caller passes `requireAdmin` and the `SELECT` executes, it answers
with the fields of the first row with id 1, unchanged, if there is one.  After
a `ResyncCounters` call that answered with success, no `GetCounters` call on
the resulting table answers that the counters are not initialized. -/
theorem GetCounters_plain_read (g : GetCountersFaults) (claims : Option String) (db : Store)
    (counters : List SystemCounters) :
    (GetCounters g claims db counters).store = db ∧
    (GetCounters g claims db counters).system_counters = counters ∧
    ((GetCounters g claims db counters).reply = notInitialized ↔
      ((∃ u, requireAdmin g.userSelectErr claims db = Except.ok u) ∧ g.selectErr = false ∧
        ∀ c ∈ counters, c.ID ≠ 1)) ∧
    (∀ u c, requireAdmin g.userSelectErr claims db = Except.ok u → g.selectErr = false →
      counters.find? (fun c => decide (c.ID = 1)) = some c →
      (GetCounters g claims db counters).reply = CountersReply.counters (Counters.ofRow c)) ∧
    (∀ (f : ResyncFaults) (now : Nat) (admin : Option String),
      (ResyncCounters f now admin db counters).response.isSuccess = true →
      (GetCounters g claims (ResyncCounters f now admin db counters).store
        (ResyncCounters f now admin db counters).system_counters).reply ≠ notInitialized) := by
  have key : ∀ t : List SystemCounters, ((GetCounters g claims db t).reply = notInitialized ↔
      ((∃ u, requireAdmin g.userSelectErr claims db = Except.ok u) ∧ g.selectErr = false ∧
        ∀ c ∈ t, c.ID ≠ 1)) := by
    intro t
    unfold GetCounters notInitialized
    cases hq : requireAdmin g.userSelectErr claims db with
    | error e =>
      have := (requireAdmin_error_ne _ _ _ e hq).1
      simp only [CountersReply.response.injEq, this, false_iff]
      rintro ⟨⟨u, hu⟩, _⟩
      cases hu
    | ok u =>
      cases hs : g.selectErr with
      | true => simp [queryRow]
      | false =>
        simp only [queryRow, Bool.false_eq_true, if_false]
        cases hf : t.find? (fun c => decide (c.ID = 1)) with
        | none =>
          simp only [true_iff]
          refine ⟨⟨u, rfl⟩, trivial, ?_⟩
          intro c hc hid
          have := List.find?_eq_none.mp hf c hc
          simp [hid] at this
        | some c =>
          have hm := List.mem_of_find?_eq_some hf
          have hp := List.find?_some hf
          constructor
          · intro h
            simp at h
          · rintro ⟨_, _, h⟩
            exact absurd (by simpa using hp) (h c hm)
  refine ⟨?_, ?_, key counters, ?_, ?_⟩
  · unfold GetCounters
    cases requireAdmin g.userSelectErr claims db with
    | error e => rfl
    | ok u =>
      simp only
      cases queryRow g.selectErr (fun c => decide (c.ID = 1)) counters <;> rfl
  · unfold GetCounters
    cases requireAdmin g.userSelectErr claims db with
    | error e => rfl
    | ok u =>
      simp only
      cases queryRow g.selectErr (fun c => decide (c.ID = 1)) counters <;> rfl
  · intro u c hu hs hf
    unfold GetCounters
    simp only [hu, hs, queryRow, Bool.false_eq_true, if_false, hf]
    rfl
  · intro f now admin h
    obtain ⟨e1, e2⟩ := ResyncCounters_success f now admin db counters h
    rw [e1, e2]
    intro hn
    obtain ⟨_, _, hno⟩ := (key _).mp hn
    obtain ⟨c, hc, hid⟩ := exists_row_one_ensureCounterRow now counters
    refine hno _ (List.mem_map.mpr ⟨c, hc, rfl⟩) ?_
    simp [hid]

/-- Witness of C22: the administrator `carol` reads the stale counters, and
reads them again after resyncing them. -/
theorem GetCounters_plain_read_witness :
    (GetCounters getCountersOk (some "carol") storeAdmin staleCounters).store = storeAdmin ∧
    (GetCounters getCountersOk (some "carol") storeAdmin staleCounters).system_counters
      = staleCounters ∧
    (GetCounters getCountersOk (some "carol") storeAdmin staleCounters).reply
      = CountersReply.counters
          { Users := 40, Videos := 0, Comments := 7, Replies := 0, Upvotes := 3, Downvotes := 0
            Views := 9, UpdatedAt := 1 } ∧
    (GetCounters getCountersOk (some "carol") storeAdmin []).reply = notInitialized ∧
    (GetCounters getCountersOk (some "carol")
      (ResyncCounters resyncOk 30 (some "carol") storeAdmin []).store
      (ResyncCounters resyncOk 30 (some "carol") storeAdmin []).system_counters).reply
      ≠ notInitialized :=
  ⟨(GetCounters_plain_read getCountersOk (some "carol") storeAdmin staleCounters).1,
    (GetCounters_plain_read getCountersOk (some "carol") storeAdmin staleCounters).2.1,
    (GetCounters_plain_read getCountersOk (some "carol") storeAdmin staleCounters).2.2.2.1
      carol
      { ID := 1, UsersCount := 40, VideosCount := 0, CommentsCount := 7, RepliesCount := 0
        UpvotesCount := 3, DownvotesCount := 0, ViewsCount := 9, UpdatedAt := 1 } rfl rfl rfl,
    (GetCounters_plain_read getCountersOk (some "carol") storeAdmin []).2.2.1.mpr
      ⟨⟨carol, rfl⟩, rfl, by decide⟩,
    (GetCounters_plain_read getCountersOk (some "carol") storeAdmin []).2.2.2.2
      resyncOk 30 (some "carol") (by decide)⟩

/-! ## Deletion, the index notification and the staged identity fields -/

/-- C23: when the row `Delete` reads for `videoID` belongs to someone other
than the caller, the handler answers 403 (500 if the lookup itself fails),
leaves every table of the store as it was, the published row and the
`total_videos` of its owner included, and leaves the bucket untouched: no
`DeleteFile` call is made. -/
theorem Delete_not_owner (f : DeleteFaults) (s3 : S3) (uid videoID : String) (db : Store)
    (video : Videos) (hid : videoID ≠ "")
    (hrow : db.videos.find? (fun v => decide (v.VideoID = videoID)) = some video)
    (hown : video.UserUID ≠ uid) :
    (Delete f s3 (some uid) videoID db).response
      = (if f.selectErr then Response.error 500 "Failed to fetch video"
         else Response.error 403 "Forbidden: you do not own this video") ∧
    (Delete f s3 (some uid) videoID db).store = db ∧
    (Delete f s3 (some uid) videoID db).s3 = s3 := by
  unfold Delete
  simp only [hid, if_false, queryRow]
  cases hs : f.selectErr with
  | true => simp
  | false => simp [hrow, hown]

/-- Witness of C23: `bob` asks to delete the video `c1` of `alice`. -/
theorem Delete_not_owner_witness :
    ("c1" ≠ "" ∧
     storeNoVotes.videos.find? (fun v => decide (v.VideoID = "c1")) = some publishedClean ∧
     publishedClean.UserUID ≠ "bob") ∧
    ((Delete deleteOk bucketC1 (some "bob") "c1" storeNoVotes).response
      = (if deleteOk.selectErr then Response.error 500 "Failed to fetch video"
         else Response.error 403 "Forbidden: you do not own this video") ∧
    (Delete deleteOk bucketC1 (some "bob") "c1" storeNoVotes).store = storeNoVotes ∧
    (Delete deleteOk bucketC1 (some "bob") "c1" storeNoVotes).s3 = bucketC1) :=
  ⟨by decide,
    Delete_not_owner deleteOk bucketC1 "bob" "c1" storeNoVotes publishedClean (by decide)
      (by decide) (by decide)⟩

/-- C24: when the owner calls `Delete`, the lookup and the `DELETE FROM videos`
execute, then whatever the bucket holds and whichever storage calls fail, the
handler answers with success and no row of `videos` has this id any more; the
store is the one after the cascading delete, with `total_videos` of the owner
lowered by one unless the `UPDATE users` fails, which does not change the
answer. -/
theorem Delete_owner_independent_of_storage (f : DeleteFaults) (s3 : S3) (uid videoID : String)
    (db : Store) (video : Videos) (hid : videoID ≠ "")
    (hrow : db.videos.find? (fun v => decide (v.VideoID = videoID)) = some video)
    (hown : video.UserUID = uid) (hs : f.selectErr = false) (hd : f.deleteErr = false) :
    (Delete f s3 (some uid) videoID db).response
      = Response.success [("message", "video deleted")] ∧
    ¬ isPublished videoID (Delete f s3 (some uid) videoID db).store ∧
    (Delete f s3 (some uid) videoID db).store
      = (if f.updateErr then deleteVideoCascade videoID db
         else { deleteVideoCascade videoID db with
                users := addTotalVideos uid (-1) (deleteVideoCascade videoID db).users }) := by
  have hnot : ∀ t : List Videos, ¬ ∃ v ∈ t.filter (fun v => v.VideoID ≠ videoID),
      v.VideoID = videoID := by
    rintro t ⟨v, hv, hvid⟩
    have := (List.mem_filter.mp hv).2
    simp [hvid] at this
  unfold Delete isPublished
  simp only [hid, if_false, queryRow, hs, hrow, hd, hown, Bool.false_eq_true, ne_eq,
    not_true_eq_false]
  cases hu : f.updateErr with
  | true => exact ⟨trivial, hnot db.videos, by simp⟩
  | false => exact ⟨trivial, hnot db.videos, by simp⟩

/-- Witness of C24: `alice` deletes her video `c1` while every storage call
fails and the `UPDATE users` fails too. -/
theorem Delete_owner_independent_of_storage_witness :
    ("c1" ≠ "" ∧
     storeNoVotes.videos.find? (fun v => decide (v.VideoID = "c1")) = some publishedClean ∧
     publishedClean.UserUID = "alice" ∧ deleteUpdateFails.selectErr = false ∧
     deleteUpdateFails.deleteErr = false) ∧
    ((Delete deleteUpdateFails bucketFailing (some "alice") "c1" storeNoVotes).response
      = Response.success [("message", "video deleted")] ∧
    ¬ isPublished "c1" (Delete deleteUpdateFails bucketFailing (some "alice") "c1"
      storeNoVotes).store ∧
    (Delete deleteUpdateFails bucketFailing (some "alice") "c1" storeNoVotes).store
      = (if deleteUpdateFails.updateErr then deleteVideoCascade "c1" storeNoVotes
         else { deleteVideoCascade "c1" storeNoVotes with
                users := addTotalVideos "alice" (-1)
                  (deleteVideoCascade "c1" storeNoVotes).users })) :=
  ⟨by decide,
    Delete_owner_independent_of_storage deleteUpdateFails bucketFailing "alice" "c1"
      storeNoVotes publishedClean (by decide) (by decide) (by decide) rfl rfl⟩

/-- C25: two `UploadACK` calls with the same caller, id, clock, store and
bucket, whose statements fail alike and which differ at most in the outcome of
the detached `Search.IndexVideo` call, give the same response, the same store
and the same bucket. -/
theorem UploadACK_index_outcome_irrelevant (f g : AckFaults) (s3 : S3) (now : Nat)
    (claims : Option String) (videoID : String) (db : Store)
    (h1 : f.selectErr = g.selectErr) (h2 : f.deleteErr = g.deleteErr)
    (h3 : f.insertErr = g.insertErr) (h4 : f.updateErr = g.updateErr) :
    (UploadACK f s3 now claims videoID db).response
      = (UploadACK g s3 now claims videoID db).response ∧
    (UploadACK f s3 now claims videoID db).store = (UploadACK g s3 now claims videoID db).store ∧
    (UploadACK f s3 now claims videoID db).s3 = (UploadACK g s3 now claims videoID db).s3 := by
  unfold UploadACK
  rw [h1, h2, h3, h4]
  cases claims with
  | none => exact ⟨rfl, rfl, rfl⟩
  | some uid =>
    simp only
    split
    · exact ⟨rfl, rfl, rfl⟩
    · split
      · exact ⟨rfl, rfl, rfl⟩
      · split
        · exact ⟨rfl, rfl, rfl⟩
        · cases queryRow g.selectErr (fun v => decide (v.VideoID = videoID)) db.video_on_upload with
          | errNoRows => exact ⟨rfl, rfl, rfl⟩
          | dbError => exact ⟨rfl, rfl, rfl⟩
          | row fetched =>
            simp only
            split
            · exact ⟨rfl, rfl, rfl⟩
            · split
              · exact ⟨rfl, rfl, rfl⟩
              · split
                · exact ⟨rfl, rfl, rfl⟩
                · split
                  · exact ⟨rfl, rfl, rfl⟩
                  · exact ⟨rfl, rfl, rfl⟩

/-- Witness of C25: `alice` acknowledges `c1` once with the index call
succeeding and once with it failing. -/
theorem UploadACK_index_outcome_irrelevant_witness :
    (ackOk.selectErr = ackIndexFails.selectErr ∧ ackOk.deleteErr = ackIndexFails.deleteErr ∧
     ackOk.insertErr = ackIndexFails.insertErr ∧ ackOk.updateErr = ackIndexFails.updateErr ∧
     ackOk.indexErr ≠ ackIndexFails.indexErr) ∧
    ((UploadACK ackOk bucketC1 9 (some "alice") "c1" storeStaged).response
      = (UploadACK ackIndexFails bucketC1 9 (some "alice") "c1" storeStaged).response ∧
    (UploadACK ackOk bucketC1 9 (some "alice") "c1" storeStaged).store
      = (UploadACK ackIndexFails bucketC1 9 (some "alice") "c1" storeStaged).store ∧
    (UploadACK ackOk bucketC1 9 (some "alice") "c1" storeStaged).s3
      = (UploadACK ackIndexFails bucketC1 9 (some "alice") "c1" storeStaged).s3) :=
  ⟨by decide,
    UploadACK_index_outcome_irrelevant ackOk ackIndexFails bucketC1 9 (some "alice") "c1"
      storeStaged rfl rfl rfl rfl⟩

/-- C30: when the caller is a known user and the `INSERT` executes, `Upload`
appends one row to `video_on_upload` whose `video_id`, `video_url`,
`video_thumbnail`, `user_uid`, `user_username`, `created_at` and `updated_at`
are the generated id, `"videos/"` followed by the id, `"thumbnails/videos/"`
followed by the id and `".jpg"`, the caller, the stored username of the caller
and the clock, whatever the request body says: two bodies give rows that agree
in these fields.  The two paths are the ones `UploadACK` checks for the same
id: it answers that the video file is not found when `IsFileExists` reports
the first path missing, that the thumbnail file is not found when the first is
present and the second is reported missing, and neither of the two when both
are present. -/
theorem Upload_identity_fields (f : UploadFaults) (s3 : S3) (now : Nat) (videoID uid : String)
    (body1 body2 : Videos) (db : Store) (user : User)
    (huser : db.users.find? (fun u => decide (u.UID = uid)) = some user)
    (hf : f.userSelectErr = false) (hi : f.insertErr = false) :
    ∃ r1 r2 : Videos,
      (Upload f s3 now videoID (some uid) (some body1) db).store.video_on_upload
        = db.video_on_upload ++ [r1] ∧
      (Upload f s3 now videoID (some uid) (some body2) db).store.video_on_upload
        = db.video_on_upload ++ [r2] ∧
      (r1.VideoID = videoID ∧ r2.VideoID = videoID) ∧
      (r1.VideoURL = "videos/" ++ videoID ∧ r2.VideoURL = "videos/" ++ videoID) ∧
      (r1.VideoThumbnail = "thumbnails/videos/" ++ videoID ++ ".jpg" ∧
        r2.VideoThumbnail = "thumbnails/videos/" ++ videoID ++ ".jpg") ∧
      (r1.UserUID = uid ∧ r2.UserUID = uid) ∧
      (r1.UserUsername = user.Username ∧ r2.UserUsername = user.Username) ∧
      (r1.CreatedAt = now ∧ r2.CreatedAt = now) ∧
      (r1.UpdatedAt = now ∧ r2.UpdatedAt = now) ∧
      ∀ (g : AckFaults) (bucket : S3) (later : Nat) (caller : String) (db1 : Store),
        videoID ≠ "" →
        (reportsMissing (IsFileExists bucket r1.VideoURL) = true →
          (UploadACK g bucket later (some caller) videoID db1).response
            = Response.error 404 "Video file not found") ∧
        (reportsMissing (IsFileExists bucket r1.VideoURL) = false →
          reportsMissing (IsFileExists bucket r1.VideoThumbnail) = true →
          (UploadACK g bucket later (some caller) videoID db1).response
            = Response.error 404 "Thumbnail file not found") ∧
        (reportsMissing (IsFileExists bucket r1.VideoURL) = false →
          reportsMissing (IsFileExists bucket r1.VideoThumbnail) = false →
          (UploadACK g bucket later (some caller) videoID db1).response
            ≠ Response.error 404 "Video file not found" ∧
          (UploadACK g bucket later (some caller) videoID db1).response
            ≠ Response.error 404 "Thumbnail file not found") := by
  have hstore : ∀ body : Videos,
      (Upload f s3 now videoID (some uid) (some body) db).store.video_on_upload
        = db.video_on_upload ++ [{ body with
            VideoID := videoID
            VideoURL := "videos/" ++ videoID
            VideoThumbnail := "thumbnails/videos/" ++ videoID ++ ".jpg"
            UserUID := uid
            UserUsername := user.Username
            CreatedAt := now
            UpdatedAt := now }] := by
    intro body
    unfold Upload
    simp only [queryRow, hf, huser, hi, Bool.false_eq_true, if_false]
    cases GeneratePresignedUploadURL s3 ("videos/" ++ videoID) with
    | error e => rfl
    | ok u1 =>
      simp only
      cases GeneratePresignedUploadURL s3 ("thumbnails/videos/" ++ videoID ++ ".jpg") with
      | error e => rfl
      | ok u2 => rfl
  refine ⟨_, _, hstore body1, hstore body2, ⟨rfl, rfl⟩, ⟨rfl, rfl⟩, ⟨rfl, rfl⟩, ⟨rfl, rfl⟩,
    ⟨rfl, rfl⟩, ⟨rfl, rfl⟩, ⟨rfl, rfl⟩, ?_⟩
  intro g bucket later caller db1 hid
  simp only [reportsMissing]
  refine ⟨?_, ?_, ?_⟩
  · intro h1
    unfold UploadACK
    simp [hid, h1]
  · intro h1 h2
    unfold UploadACK
    simp [hid, h1, h2]
  · intro h1 h2
    unfold UploadACK
    simp only [hid, if_false, h1, h2, Bool.false_eq_true]
    cases queryRow g.selectErr (fun v => decide (v.VideoID = videoID)) db1.video_on_upload with
    | errNoRows => simp
    | dbError => simp
    | row fetched =>
      simp only
      split
      · simp
      · split
        · simp
        · split
          · simp
          · split
            · simp
            · simp

/-- Witness of C30: `alice` uploads under id `c1` at time 5, once with the
body `stagedC1` and once with a body that names another video, other paths and
another owner. -/
theorem Upload_identity_fields_witness :
    (storeAlice.users.find? (fun u => decide (u.UID = "alice")) = some alice ∧
     uploadOk.userSelectErr = false ∧ uploadOk.insertErr = false) ∧
    ∃ r1 r2 : Videos,
      (Upload uploadOk bucketEmpty 5 "c1" (some "alice") (some stagedC1) storeAlice
        ).store.video_on_upload = storeAlice.video_on_upload ++ [r1] ∧
      (Upload uploadOk bucketEmpty 5 "c1" (some "alice") (some bodyForged) storeAlice
        ).store.video_on_upload = storeAlice.video_on_upload ++ [r2] ∧
      (r1.VideoID = "c1" ∧ r2.VideoID = "c1") ∧
      (r1.VideoURL = "videos/" ++ "c1" ∧ r2.VideoURL = "videos/" ++ "c1") ∧
      (r1.VideoThumbnail = "thumbnails/videos/" ++ "c1" ++ ".jpg" ∧
        r2.VideoThumbnail = "thumbnails/videos/" ++ "c1" ++ ".jpg") ∧
      (r1.UserUID = "alice" ∧ r2.UserUID = "alice") ∧
      (r1.UserUsername = alice.Username ∧ r2.UserUsername = alice.Username) ∧
      (r1.CreatedAt = 5 ∧ r2.CreatedAt = 5) ∧
      (r1.UpdatedAt = 5 ∧ r2.UpdatedAt = 5) ∧
      ∀ (g : AckFaults) (bucket : S3) (later : Nat) (caller : String) (db1 : Store),
        "c1" ≠ "" →
        (reportsMissing (IsFileExists bucket r1.VideoURL) = true →
          (UploadACK g bucket later (some caller) "c1" db1).response
            = Response.error 404 "Video file not found") ∧
        (reportsMissing (IsFileExists bucket r1.VideoURL) = false →
          reportsMissing (IsFileExists bucket r1.VideoThumbnail) = true →
          (UploadACK g bucket later (some caller) "c1" db1).response
            = Response.error 404 "Thumbnail file not found") ∧
        (reportsMissing (IsFileExists bucket r1.VideoURL) = false →
          reportsMissing (IsFileExists bucket r1.VideoThumbnail) = false →
          (UploadACK g bucket later (some caller) "c1" db1).response
            ≠ Response.error 404 "Video file not found" ∧
          (UploadACK g bucket later (some caller) "c1" db1).response
            ≠ Response.error 404 "Thumbnail file not found") :=
  ⟨by decide,
    Upload_identity_fields uploadOk bucketEmpty 5 "c1" "alice" stagedC1 bodyForged storeAlice
      alice (by decide) rfl rfl⟩

/-! ## Lemmas on `TrimSpace`, `ToLower` and `UpdateUser` -/

theorem dropWhile_append_singleton_of_not {α : Type} (p : α → Bool) (x : α)
    (hx : p x = false) (m : List α) : ∃ n, List.dropWhile p (m ++ [x]) = n ++ [x] := by
  induction m with
  | nil => exact ⟨[], by simp [List.dropWhile, hx]⟩
  | cons a m ih =>
    cases ha : p a with
    | true =>
      obtain ⟨n, hn⟩ := ih
      exact ⟨n, by simp [List.dropWhile, ha, hn]⟩
    | false => exact ⟨a :: m, by simp [List.dropWhile, ha]⟩

theorem dropWhile_dropWhile {α : Type} (p : α → Bool) (l : List α) :
    List.dropWhile p (List.dropWhile p l) = List.dropWhile p l := by
  induction l with
  | nil => rfl
  | cons a l ih =>
    cases ha : p a with
    | true => simp [List.dropWhile, ha, ih]
    | false => simp [List.dropWhile, ha]

theorem dropWhile_trimRunes (p : Char → Bool) (l : List Char) :
    List.dropWhile p (trimRunes p l) = trimRunes p l := by
  unfold trimRunes
  cases h : List.dropWhile p l with
  | nil => rfl
  | cons x a =>
    have hx : p x = false := by
      have := List.head_dropWhile_not p l (by rw [h]; simp)
      simpa [h] using this
    rw [List.reverse_cons]
    obtain ⟨n, hn⟩ := dropWhile_append_singleton_of_not p x hx a.reverse
    rw [hn, List.reverse_append, List.reverse_singleton, List.singleton_append,
      List.dropWhile_cons_of_neg (by simp [hx])]

theorem trimRunes_trimRunes (p : Char → Bool) (l : List Char) :
    trimRunes p (trimRunes p l) = trimRunes p l := by
  have h := dropWhile_trimRunes p l
  show ((List.dropWhile p (trimRunes p l)).reverse.dropWhile p).reverse = trimRunes p l
  rw [h]
  unfold trimRunes
  rw [List.reverse_reverse, dropWhile_dropWhile]

theorem trimRunes_map (p : Char → Bool) (g : Char → Char) (h : ∀ c, p (g c) = p c)
    (l : List Char) : trimRunes p (l.map g) = (trimRunes p l).map g := by
  have hc : p ∘ g = p := funext h
  unfold trimRunes
  rw [List.dropWhile_map, hc, ← List.map_reverse, List.dropWhile_map, hc, ← List.map_reverse]

theorem TrimSpace_ToLower (lib : Stdlib) (hs : ∀ c, lib.isSpace (lib.toLower c) = lib.isSpace c)
    (s : String) : TrimSpace lib (ToLower lib s) = ToLower lib (TrimSpace lib s) := by
  unfold TrimSpace ToLower
  simp only [trimRunes_map lib.isSpace lib.toLower hs]

theorem TrimSpace_TrimSpace (lib : Stdlib) (s : String) :
    TrimSpace lib (TrimSpace lib s) = TrimSpace lib s := by
  unfold TrimSpace
  simp only [trimRunes_trimRunes]

theorem ToLower_ToLower (lib : Stdlib) (hl : ∀ c, lib.toLower (lib.toLower c) = lib.toLower c)
    (s : String) : ToLower lib (ToLower lib s) = ToLower lib s := by
  unfold ToLower
  simp only [List.map_map]
  congr 1
  apply List.map_congr_left
  intro c _
  exact hl c

theorem ValidateRole_eq_none (lib : Stdlib) (role : String) :
    ValidateRole lib role = none ↔
      (TrimSpace lib (ToLower lib role) = "user" ∨
        TrimSpace lib (ToLower lib role) = "creator") := by
  unfold ValidateRole UserRole CreatorRole
  by_cases h1 : TrimSpace lib (ToLower lib role) = "user"
  · simp [h1]
  · by_cases h2 : TrimSpace lib (ToLower lib role) = "creator"
    · simp [h2]
    · simp [h1, h2]

theorem ValidateRole_normalised (lib : Stdlib)
    (hl : ∀ c, lib.toLower (lib.toLower c) = lib.toLower c)
    (hs : ∀ c, lib.isSpace (lib.toLower c) = lib.isSpace c) (r : String) :
    ValidateRole lib (ToLower lib (TrimSpace lib r)) = none ↔
      (ToLower lib (TrimSpace lib r) = "user" ∨ ToLower lib (TrimSpace lib r) = "creator") := by
  rw [ValidateRole_eq_none, ToLower_ToLower lib hl, TrimSpace_ToLower lib hs, TrimSpace_TrimSpace]

theorem roleUpdate_ok (lib : Stdlib) (payload : UpdatePayload) (r : Option String)
    (h : roleUpdate lib payload = Except.ok r) :
    r = none ∨ ∃ role, payload.Role = some role ∧ r = some (ToLower lib (TrimSpace lib role)) ∧
      ValidateRole lib (ToLower lib (TrimSpace lib role)) = none := by
  unfold roleUpdate at h
  cases hp : payload.Role with
  | none =>
    simp only [hp, Except.ok.injEq] at h
    exact Or.inl h.symm
  | some role =>
    simp only [hp] at h
    cases hv : ValidateRole lib (ToLower lib (TrimSpace lib role)) with
    | some err => simp [hv] at h
    | none =>
      simp only [hv, Except.ok.injEq] at h
      exact Or.inr ⟨role, rfl, h.symm, hv⟩

theorem collectUpdates_ok (lib : Stdlib) (f : UpdateFaults) (existing : User)
    (payload : UpdatePayload) (db : Store) (up : UserUpdates)
    (h : collectUpdates lib f existing payload db = Except.ok up) :
    roleUpdate lib payload = Except.ok up.role := by
  unfold collectUpdates at h
  cases h1 : nameUpdate lib payload with
  | error e => simp [h1] at h
  | ok name =>
    cases h2 : roleUpdate lib payload with
    | error e => simp [h1, h2] at h
    | ok role =>
      cases h3 : bioUpdate lib payload with
      | error e => simp [h1, h2, h3] at h
      | ok bio =>
        cases h4 : emailUpdate lib f existing payload db with
        | error e => simp [h1, h2, h3, h4] at h
        | ok email =>
          simp only [h1, h2, h3, h4, Except.ok.injEq] at h
          rw [← h]

theorem nameUpdate_error (lib : Stdlib) (payload : UpdatePayload) (e : Response × List String)
    (h : nameUpdate lib payload = Except.error e) : ∃ status message,
      e.1 = Response.error status message := by
  unfold nameUpdate at h
  cases hp : payload.Name with
  | none => simp [hp] at h
  | some n =>
    simp only [hp] at h
    cases hv : ValidateName lib (TrimSpace lib n) with
    | none => simp [hv] at h
    | some err =>
      simp only [hv, Except.error.injEq] at h
      exact ⟨400, err, by rw [← h]⟩

theorem roleUpdate_error (lib : Stdlib) (payload : UpdatePayload) (e : Response × List String)
    (h : roleUpdate lib payload = Except.error e) : ∃ status message,
      e.1 = Response.error status message := by
  unfold roleUpdate at h
  cases hp : payload.Role with
  | none => simp [hp] at h
  | some n =>
    simp only [hp] at h
    cases hv : ValidateRole lib (ToLower lib (TrimSpace lib n)) with
    | none => simp [hv] at h
    | some err =>
      simp only [hv, Except.error.injEq] at h
      exact ⟨400, err, by rw [← h]⟩

theorem collectUpdates_role_rejected (lib : Stdlib) (f : UpdateFaults) (existing : User)
    (payload : UpdatePayload) (db : Store) (role : String) (hp : payload.Role = some role)
    (hv : ValidateRole lib (ToLower lib (TrimSpace lib role)) ≠ none) :
    ∃ e status message, collectUpdates lib f existing payload db = Except.error e ∧
      e.1 = Response.error status message := by
  unfold collectUpdates
  cases h1 : nameUpdate lib payload with
  | error e =>
    obtain ⟨status, message, he⟩ := nameUpdate_error lib payload e h1
    exact ⟨e, status, message, rfl, he⟩
  | ok name =>
    cases h2 : roleUpdate lib payload with
    | error e =>
      obtain ⟨status, message, he⟩ := roleUpdate_error lib payload e h2
      exact ⟨e, status, message, rfl, he⟩
    | ok r =>
      rcases roleUpdate_ok lib payload r h2 with hr | ⟨role1, hp1, _, hv1⟩
      · rw [hr] at h2
        unfold roleUpdate at h2
        simp only [hp] at h2
        cases hv2 : ValidateRole lib (ToLower lib (TrimSpace lib role)) with
        | none => exact absurd hv2 hv
        | some err => simp [hv2] at h2
      · rw [hp] at hp1
        cases hp1
        exact absurd hv1 hv

theorem applyUpdates_roles (now : Nat) (uid : String) (up : UserUpdates)
    (hr : up.role = none ∨ up.role = some "user" ∨ up.role = some "creator")
    (users : List User) :
    List.Forall₂ (fun u v => v.UID = u.UID ∧
        (v.Role = u.Role ∨ v.Role = "user" ∨ v.Role = "creator") ∧
        (v.Role = "admin" → u.Role = "admin"))
      users (applyUpdates now uid up users) := by
  unfold applyUpdates
  rw [List.forall₂_map_right_iff]
  apply List.forall₂_same.mpr
  intro u _
  by_cases hu : u.UID = uid
  · simp only [hu, if_true]
    rcases hr with h | h | h
    · simp [h]
    · simp [h]
    · simp [h]
  · simp [hu]

theorem forall₂_roles_refl (users : List User) :
    List.Forall₂ (fun u v => v.UID = u.UID ∧
        (v.Role = u.Role ∨ v.Role = "user" ∨ v.Role = "creator") ∧
        (v.Role = "admin" → u.Role = "admin"))
      users users :=
  List.forall₂_same.mpr (fun _ _ => ⟨rfl, Or.inl rfl, id⟩)

theorem UpdateUser_users (lib : Stdlib)
    (hl : ∀ c, lib.toLower (lib.toLower c) = lib.toLower c)
    (hs : ∀ c, lib.isSpace (lib.toLower c) = lib.isSpace c)
    (f : UpdateFaults) (now : Nat) (claims : Option String) (body : UpdateBody) (db : Store) :
    List.Forall₂ (fun u v => v.UID = u.UID ∧
        (v.Role = u.Role ∨ v.Role = "user" ∨ v.Role = "creator") ∧
        (v.Role = "admin" → u.Role = "admin"))
      db.users (UpdateUser lib f now claims body db).store.users := by
  unfold UpdateUser
  cases claims with
  | none => exact forall₂_roles_refl _
  | some uid =>
    simp only
    cases queryRow f.selectErr (fun u => decide (u.UID = uid)) db.users with
    | errNoRows => exact forall₂_roles_refl _
    | dbError => exact forall₂_roles_refl _
    | row existing =>
      cases body with
      | unreadable => exact forall₂_roles_refl _
      | malformed => exact forall₂_roles_refl _
      | decoded payload =>
        simp only
        cases hc : collectUpdates lib f existing payload db with
        | error e => exact forall₂_roles_refl _
        | ok up =>
          have hr : up.role = none ∨ up.role = some "user" ∨ up.role = some "creator" := by
            rcases roleUpdate_ok lib payload up.role (collectUpdates_ok lib f existing payload db
              up hc) with h | ⟨role, _, h, hv⟩
            · exact Or.inl h
            · rw [h]
              rcases (ValidateRole_normalised lib hl hs role).mp hv with h1 | h1
              · exact Or.inr (Or.inl (by rw [h1]))
              · exact Or.inr (Or.inr (by rw [h1]))
          simp only
          split
          · exact forall₂_roles_refl _
          · split
            · exact forall₂_roles_refl _
            · split <;> exact applyUpdates_roles now existing.UID up hr db.users

theorem UpdateUser_of_collect_error (lib : Stdlib) (f : UpdateFaults) (now : Nat)
    (claims : Option String) (payload : UpdatePayload) (db : Store)
    (h : ∀ existing, ∃ e status message,
      collectUpdates lib f existing payload db = Except.error e ∧
      e.1 = Response.error status message) :
    (UpdateUser lib f now claims (UpdateBody.decoded payload) db).store = db ∧
    ∃ status message, (UpdateUser lib f now claims (UpdateBody.decoded payload) db).reply
      = UserReply.response (Response.error status message) := by
  unfold UpdateUser
  cases claims with
  | none => exact ⟨rfl, _, _, rfl⟩
  | some uid =>
    simp only
    cases queryRow f.selectErr (fun u => decide (u.UID = uid)) db.users with
    | errNoRows => exact ⟨rfl, _, _, rfl⟩
    | dbError => exact ⟨rfl, _, _, rfl⟩
    | row existing =>
      obtain ⟨e, status, message, he, hm⟩ := h existing
      simp only [he]
      exact ⟨trivial, status, message, by rw [hm]⟩

theorem asciiLib_toLower_idem (c : Char) :
    asciiLib.toLower (asciiLib.toLower c) = asciiLib.toLower c := by
  show c.toLower.toLower = c.toLower
  by_cases h : c.toNat ≥ 65 ∧ c.toNat ≤ 90
  · have e : c.toLower = Char.ofNat (c.toNat + 32) := by simp [Char.toLower, h]
    rw [e]
    obtain ⟨h1, h2⟩ := h
    generalize c.toNat = n at h1 h2
    interval_cases n <;> rfl
  · have e : c.toLower = c := by simp [Char.toLower, h]
    rw [e, e]

theorem asciiLib_isSpace_toLower (c : Char) :
    asciiLib.isSpace (asciiLib.toLower c) = asciiLib.isSpace c := by
  show c.toLower.isWhitespace = c.isWhitespace
  by_cases h : c.toNat ≥ 65 ∧ c.toNat ≤ 90
  · have e : c.toLower = Char.ofNat (c.toNat + 32) := by simp [Char.toLower, h]
    rw [e]
    have hc : c = Char.ofNat c.toNat := (Char.ofNat_toNat c).symm
    obtain ⟨h1, h2⟩ := h
    rw [hc]
    generalize c.toNat = n at h1 h2
    interval_cases n <;> rfl
  · have e : c.toLower = c := by simp [Char.toLower, h]
    rw [e]

/-! ## The role written by `UpdateUser` -/

/-- C27: for a standard library whose `unicode.ToLower` maps every rune to a
rune it leaves alone and never changes whether a rune is white space:
`ValidateRole` returns nil exactly for the inputs whose trimmed, lower-cased
form is `"user"` or `"creator"`; whatever the request, `UpdateUser` leaves the
rows of `users` in place with their `uid`, and the `role` of each row afterwards
is the one it had or one of `"user"` and `"creator"`, so a row has the role
`"admin"` afterwards only if it had it before; and a payload whose role
normalises to anything else is answered with an error and the store is left
as it was. -/
theorem UpdateUser_never_grants_admin (lib : Stdlib)
    (hl : ∀ c, lib.toLower (lib.toLower c) = lib.toLower c)
    (hs : ∀ c, lib.isSpace (lib.toLower c) = lib.isSpace c) :
    (∀ role : String, ValidateRole lib role = none ↔
      (ToLower lib (TrimSpace lib role) = "user" ∨
        ToLower lib (TrimSpace lib role) = "creator")) ∧
    (∀ (f : UpdateFaults) (now : Nat) (claims : Option String) (body : UpdateBody) (db : Store),
      List.Forall₂ (fun u v => v.UID = u.UID ∧
          (v.Role = u.Role ∨ v.Role = "user" ∨ v.Role = "creator") ∧
          (v.Role = "admin" → u.Role = "admin"))
        db.users (UpdateUser lib f now claims body db).store.users) ∧
    (∀ (f : UpdateFaults) (now : Nat) (claims : Option String) (payload : UpdatePayload)
        (db : Store) (role : String),
      payload.Role = some role →
      ToLower lib (TrimSpace lib role) ≠ "user" →
      ToLower lib (TrimSpace lib role) ≠ "creator" →
      (UpdateUser lib f now claims (UpdateBody.decoded payload) db).store = db ∧
      ∃ status message, (UpdateUser lib f now claims (UpdateBody.decoded payload) db).reply
        = UserReply.response (Response.error status message)) := by
  refine ⟨?_, ?_, ?_⟩
  · intro role
    rw [ValidateRole_eq_none, TrimSpace_ToLower lib hs]
  · intro f now claims body db
    exact UpdateUser_users lib hl hs f now claims body db
  · intro f now claims payload db role hp h1 h2
    apply UpdateUser_of_collect_error
    intro existing
    apply collectUpdates_role_rejected lib f existing payload db role hp
    intro hv
    rcases (ValidateRole_normalised lib hl hs role).mp hv with h | h
    · exact h1 h
    · exact h2 h

/-- Witness of C27: on ASCII text, `bob` obtains the role `creator` by asking
for `"  Creator "`, and is refused, with the store unchanged, when asking for
`" ADMIN"`. -/
theorem UpdateUser_never_grants_admin_witness :
    ((∀ c, asciiLib.toLower (asciiLib.toLower c) = asciiLib.toLower c) ∧
     (∀ c, asciiLib.isSpace (asciiLib.toLower c) = asciiLib.isSpace c)) ∧
    ((UpdateUser asciiLib updateOk 40 (some "bob") (UpdateBody.decoded (roleOnly "  Creator "))
        storeNoVotes).store.users.map (fun u => (u.UID, u.Role))
      = [("alice", "user"), ("bob", "creator")] ∧
     ToLower asciiLib (TrimSpace asciiLib " ADMIN") = "admin") ∧
    (ValidateRole asciiLib " ADMIN" ≠ none ∧
     List.Forall₂ (fun u v => v.UID = u.UID ∧
          (v.Role = u.Role ∨ v.Role = "user" ∨ v.Role = "creator") ∧
          (v.Role = "admin" → u.Role = "admin"))
        storeNoVotes.users
        (UpdateUser asciiLib updateOk 40 (some "bob") (UpdateBody.decoded (roleOnly "  Creator "))
          storeNoVotes).store.users ∧
     ((UpdateUser asciiLib updateOk 40 (some "bob") (UpdateBody.decoded (roleOnly " ADMIN"))
        storeNoVotes).store = storeNoVotes ∧
      ∃ status message,
        (UpdateUser asciiLib updateOk 40 (some "bob") (UpdateBody.decoded (roleOnly " ADMIN"))
          storeNoVotes).reply = UserReply.response (Response.error status message))) :=
  ⟨⟨asciiLib_toLower_idem, asciiLib_isSpace_toLower⟩, by decide,
    fun h => absurd
      (((UpdateUser_never_grants_admin asciiLib asciiLib_toLower_idem
        asciiLib_isSpace_toLower).1 " ADMIN").mp h) (by decide),
    (UpdateUser_never_grants_admin asciiLib asciiLib_toLower_idem asciiLib_isSpace_toLower).2.1
      updateOk 40 (some "bob") (UpdateBody.decoded (roleOnly "  Creator ")) storeNoVotes,
    (UpdateUser_never_grants_admin asciiLib asciiLib_toLower_idem asciiLib_isSpace_toLower).2.2
      updateOk 40 (some "bob") (roleOnly " ADMIN") storeNoVotes " ADMIN" rfl (by decide)
      (by decide)⟩

/-! ## `StringArray`: round trip and totality of `Scan` -/

/-- Counterexample to C28 as stated: `Scan` applied to the text `Value`
produces for a list with an empty element, for a list with an element that
contains a double quote, and for a list with an element outside ASCII, returns
nil but leaves another list than the one `Value` was given: the empty element
is gone, the double quote is gone, and the two bytes of `é` have become the
four bytes of `Ã©`. -/
theorem Scan_Value_loses_items :
    StringArray.Scan unmarshalNothing
        (ScanValue.string (StringArray.Value [utf8 "a", utf8 "", utf8 "b"]))
      = ScanResult.ok [utf8 "a", utf8 "b"] ∧
    [utf8 "a", utf8 "b"] ≠ [utf8 "a", utf8 "", utf8 "b"] ∧
    StringArray.Scan unmarshalNothing (ScanValue.string (StringArray.Value [utf8 "x\x22y"]))
      = ScanResult.ok [utf8 "xy"] ∧
    [utf8 "xy"] ≠ [utf8 "x\x22y"] ∧
    StringArray.Scan unmarshalNothing (ScanValue.string (StringArray.Value [utf8 "\u00e9"]))
      = ScanResult.ok [utf8 "\u00c3\u00a9"] ∧
    [utf8 "\u00c3\u00a9"] ≠ [utf8 "\u00e9"] := by
  decide

/-- C28, amended: for every list of strings each of which is non-empty, holds
no double quote and only bytes below 128 (commas, braces and every other ASCII
character are allowed), `Scan` applied to the text produced by `Value`, passed
as a `string` or as a `[]byte`, returns nil and leaves a list equal to the
original one. -/
theorem Scan_Value_round_trip (unmarshal : Bytes → Except String StringArray)
    (a : StringArray) (h : ∀ item ∈ a, plainItem item) :
    StringArray.Scan unmarshal (ScanValue.string a.Value) = ScanResult.ok a ∧
    StringArray.Scan unmarshal (ScanValue.bytes a.Value) = ScanResult.ok a :=
  ⟨Scan_Value_of_bytes unmarshal a h _ (Or.inl rfl),
    Scan_Value_of_bytes unmarshal a h _ (Or.inr rfl)⟩

/-- Witness of C28: a list whose elements hold a comma and braces. -/
theorem Scan_Value_round_trip_witness :
    (∀ item ∈ [utf8 "a,b", utf8 "\x7bc\x7d"], plainItem item) ∧
    (StringArray.Scan unmarshalNothing
        (ScanValue.string (StringArray.Value [utf8 "a,b", utf8 "\x7bc\x7d"]))
      = ScanResult.ok [utf8 "a,b", utf8 "\x7bc\x7d"] ∧
    StringArray.Scan unmarshalNothing
        (ScanValue.bytes (StringArray.Value [utf8 "a,b", utf8 "\x7bc\x7d"]))
      = ScanResult.ok [utf8 "a,b", utf8 "\x7bc\x7d"]) :=
  ⟨by decide,
    Scan_Value_round_trip unmarshalNothing [utf8 "a,b", utf8 "\x7bc\x7d"] (by decide)⟩

/-- C29 fails on the one-byte input `{`, passed as a `string` or as a
`[]byte`: the guard at line 46 holds, and the slice expression
`bytes[1 : len(bytes)-1]` at line 48 asks for `bytes[1:0]`, whose bounds check
fails, so `Scan` returns neither a value nor an error.  It is the only such
input: on every other input `Scan` returns a value or an error. -/
theorem Scan_single_brace_out_of_bounds :
    (∀ unmarshal : Bytes → Except String StringArray,
      StringArray.Scan unmarshal (ScanValue.string [openBrace]) = ScanResult.outOfBounds 1 0 ∧
      StringArray.Scan unmarshal (ScanValue.bytes [openBrace]) = ScanResult.outOfBounds 1 0) ∧
    (∀ (unmarshal : Bytes → Except String StringArray) (value : ScanValue) (low high : Nat),
      StringArray.Scan unmarshal value = ScanResult.outOfBounds low high →
      value = ScanValue.string [openBrace] ∨ value = ScanValue.bytes [openBrace]) := by
  refine ⟨fun unmarshal => ⟨rfl, rfl⟩, ?_⟩
  intro unmarshal value low high h
  cases value with
  | null => cases h
  | other => cases h
  | bytes b => exact Or.inr (by rw [Scan_outOfBounds_bytes unmarshal b low high h])
  | string b => exact Or.inl (by rw [Scan_outOfBounds_bytes unmarshal b low high h])

/-! ## Lemmas on concurrent calls of `Upvote` -/

theorem mem_set_of_ne {α : Type} (l : List α) (i : Nat) (p q r : α)
    (hq : q ∈ l) (hp : l[i]? = some p) (hne : q ≠ p) : q ∈ l.set i r := by
  induction l generalizing i with
  | nil => cases hq
  | cons a l ih =>
    cases i with
    | zero =>
      simp only [List.getElem?_cons_zero, Option.some.injEq] at hp
      rcases List.mem_cons.mp hq with h | h
      · exact absurd (h.trans hp) hne
      · exact List.mem_cons_of_mem _ h
    | succ i =>
      simp only [List.getElem?_cons_succ] at hp
      rcases List.mem_cons.mp hq with h | h
      · rw [h]; exact List.mem_cons_self _ _
      · exact List.mem_cons_of_mem _ (ih i h hp)

theorem mem_set_new {α : Type} (l : List α) (i : Nat) (p r : α) (hp : l[i]? = some p) :
    r ∈ l.set i r := by
  induction l generalizing i with
  | nil => simp at hp
  | cons a l ih =>
    cases i with
    | zero => exact List.mem_cons_self _ _
    | succ i =>
      simp only [List.getElem?_cons_succ] at hp
      exact List.mem_cons_of_mem _ (ih i hp)

theorem mem_old_of_getElem {α : Type} (l : List α) (i : Nat) (p : α) (hp : l[i]? = some p) :
    p ∈ l := by
  induction l generalizing i with
  | nil => simp at hp
  | cons a l ih =>
    cases i with
    | zero =>
      simp only [List.getElem?_cons_zero, Option.some.injEq] at hp
      rw [← hp]; exact List.mem_cons_self _ _
    | succ i =>
      simp only [List.getElem?_cons_succ] at hp
      exact List.mem_cons_of_mem _ (ih i hp)

theorem mem_of_mem_set {α : Type} (l : List α) (i : Nat) (q r : α) (hq : q ∈ l.set i r) :
    q = r ∨ q ∈ l := by
  induction l generalizing i with
  | nil => simp at hq
  | cons a l ih =>
    cases i with
    | zero =>
      rcases List.mem_cons.mp hq with h | h
      · exact Or.inl h
      · exact Or.inr (List.mem_cons_of_mem _ h)
    | succ i =>
      rcases List.mem_cons.mp hq with h | h
      · exact Or.inr (by rw [h]; exact List.mem_cons_self _ _)
      · rcases ih i h with h1 | h1
        · exact Or.inl h1
        · exact Or.inr (List.mem_cons_of_mem _ h1)

theorem set_same {α : Type} (l : List α) (i : Nat) (p : α) (hp : l[i]? = some p) :
    l.set i p = l := by
  induction l generalizing i with
  | nil => rfl
  | cons a l ih =>
    cases i with
    | zero =>
      simp only [List.getElem?_cons_zero, Option.some.injEq] at hp
      rw [List.set_cons_zero, hp]
    | succ i =>
      simp only [List.getElem?_cons_succ] at hp
      rw [List.set_cons_succ, ih i hp]

theorem countP_set_add {α : Type} (f : α → Bool) (l : List α) (i : Nat) (p r : α)
    (hp : l[i]? = some p) :
    (l.set i r).countP f + (if f p then 1 else 0) = l.countP f + (if f r then 1 else 0) := by
  induction l generalizing i with
  | nil => simp at hp
  | cons a l ih =>
    cases i with
    | zero =>
      simp only [List.getElem?_cons_zero, Option.some.injEq] at hp
      rw [List.set_cons_zero, List.countP_cons, List.countP_cons, hp]
      omega
    | succ i =>
      simp only [List.getElem?_cons_succ] at hp
      have := ih i hp
      rw [List.set_cons_succ, List.countP_cons, List.countP_cons]
      omega

theorem addVideoUpvotes_zero (videoID : String) (vs : List Videos) :
    addVideoUpvotes videoID 0 vs = vs := by
  unfold addVideoUpvotes
  conv_rhs => rw [← List.map_id vs]
  apply List.map_congr_left
  intro v _
  by_cases h : v.VideoID = videoID
  · rw [if_pos h]
    cases v
    simp
  · rw [if_neg h]
    rfl

theorem addVideoUpvotes_add (videoID : String) (a b : Int) (vs : List Videos) :
    addVideoUpvotes videoID b (addVideoUpvotes videoID a vs) = addVideoUpvotes videoID (a + b) vs := by
  unfold addVideoUpvotes
  rw [List.map_map]
  apply List.map_congr_left
  intro v _
  by_cases h : v.VideoID = videoID
  · simp [h, add_assoc]
  · simp [h]

theorem upvotedCalls_set (points : List UpvotePoint) (i : Nat) (p r : UpvotePoint)
    (hp : points[i]? = some p) :
    upvotedCalls (points.set i r)
        + (if p = UpvotePoint.done upvotedResponse then 1 else 0)
      = upvotedCalls points + (if r = UpvotePoint.done upvotedResponse then 1 else 0) := by
  have h := countP_set_add (fun q => decide (q = UpvotePoint.done upvotedResponse)) points i p r hp
  simpa [upvotedCalls] using h

theorem RaceInvariant_quiet (uid videoID : String) (db : Store) (s : InFlight) (i : Nat)
    (p r : UpvotePoint) (hinv : RaceInvariant uid videoID db s) (hp : s.points[i]? = some p)
    (hcp : p ≠ UpvotePoint.done upvotedResponse) (hcr : r ≠ UpvotePoint.done upvotedResponse)
    (hvalid : r.early = true ∨ r.inserted = true ∨ r.sawVote = true)
    (hedge : r.inserted = true ∨ r.sawVote = true → upvoteEdges uid videoID s.store = 1)
    (hins : p.inserted = true → r.inserted = true) :
    RaceInvariant uid videoID db { points := s.points.set i r, store := s.store } := by
  obtain ⟨i1, i2, i3, i4, i5, i6⟩ := hinv
  refine ⟨i1, ?_, ?_, i4, ?_, ?_⟩
  · have h := upvotedCalls_set s.points i p r hp
    rw [if_neg hcp, if_neg hcr] at h
    simp only [Nat.add_zero] at h
    show s.store.videos = addVideoUpvotes videoID (upvotedCalls (s.points.set i r)) db.videos
    rw [h]
    exact i2
  · intro q hq
    rcases mem_of_mem_set s.points i q r hq with h | h
    · rw [h]; exact hvalid
    · exact i3 q h
  · rintro ⟨q, hq, hk⟩
    rcases mem_of_mem_set s.points i q r hq with h | h
    · rw [h] at hk; exact hedge hk
    · exact i5 ⟨q, h, hk⟩
  · intro he
    obtain ⟨q, hq, hk⟩ := i6 he
    by_cases hqp : q = p
    · exact ⟨r, mem_set_new s.points i p r hp, hins (by rw [← hqp]; exact hk)⟩
    · exact ⟨q, mem_set_of_ne s.points i p q r hq hp hqp, hk⟩

theorem upvoteEdges_insertUpvote (uid videoID : String) (now : Nat) (st : Store)
    (h : upvoteEdges uid videoID st ≤ 1) :
    upvoteEdges uid videoID { st with upvotes := insertUpvote uid videoID now st.upvotes } = 1 := by
  unfold upvoteEdges at h ⊢
  cases hf : st.upvotes.find?
      (fun u => decide (u.UpvotedBy = uid) && decide (u.UpvotedTo = videoID)) with
  | none => exact countP_pair_insertUpvote uid videoID now st.upvotes hf
  | some u =>
    have h1 := countP_of_find_isSome _ st.upvotes (by rw [hf]; rfl)
    have hpu := List.find?_some hf
    have hany : st.upvotes.any
        (fun u => decide (u.UpvotedBy = uid) && decide (u.UpvotedTo = videoID)) = true := by
      rw [List.any_eq_true]
      exact ⟨u, List.mem_of_find?_eq_some hf, hpu⟩
    show (insertUpvote uid videoID now st.upvotes).countP _ = 1
    unfold insertUpvote
    rw [if_pos hany]
    omega

theorem RaceInvariant_insert (uid videoID : String) (now : Nat) (db : Store) (s : InFlight)
    (i : Nat) (hinv : RaceInvariant uid videoID db s)
    (hp : s.points[i]? = some UpvotePoint.insert) :
    RaceInvariant uid videoID db
      { points := s.points.set i UpvotePoint.increment,
        store := { s.store with upvotes := insertUpvote uid videoID now s.store.upvotes } } := by
  obtain ⟨i1, i2, i3, i4, i5, i6⟩ := hinv
  have he := upvoteEdges_insertUpvote uid videoID now s.store i4
  refine ⟨i1, ?_, ?_, ?_, fun _ => he, ?_⟩
  · have h := upvotedCalls_set s.points i UpvotePoint.insert UpvotePoint.increment hp
    rw [if_neg (by decide), if_neg (by decide)] at h
    simp only [Nat.add_zero] at h
    show s.store.videos
      = addVideoUpvotes videoID (upvotedCalls (s.points.set i UpvotePoint.increment)) db.videos
    rw [h]
    exact i2
  · intro q hq
    rcases mem_of_mem_set s.points i q _ hq with h | h
    · rw [h]; exact Or.inr (Or.inl (by decide))
    · exact i3 q h
  · rw [he]
  · intro _
    exact ⟨UpvotePoint.increment, mem_set_new s.points i _ _ hp, by decide⟩

theorem RaceInvariant_increment (uid videoID : String) (db : Store) (s : InFlight)
    (i : Nat) (hinv : RaceInvariant uid videoID db s)
    (hp : s.points[i]? = some UpvotePoint.increment) :
    RaceInvariant uid videoID db
      { points := s.points.set i (UpvotePoint.done upvotedResponse),
        store := { s.store with videos := addVideoUpvotes videoID 1 s.store.videos } } := by
  obtain ⟨i1, i2, i3, i4, i5, i6⟩ := hinv
  have he : upvoteEdges uid videoID s.store = 1 :=
    i5 ⟨UpvotePoint.increment, mem_old_of_getElem s.points i _ hp, Or.inl (by decide)⟩
  refine ⟨i1, ?_, ?_, i4, fun _ => he, ?_⟩
  · have h := upvotedCalls_set s.points i UpvotePoint.increment
      (UpvotePoint.done upvotedResponse) hp
    rw [if_neg (by decide), if_pos rfl] at h
    simp only [Nat.add_zero] at h
    show addVideoUpvotes videoID 1 s.store.videos
      = addVideoUpvotes videoID
          (upvotedCalls (s.points.set i (UpvotePoint.done upvotedResponse))) db.videos
    rw [h, i2, addVideoUpvotes_add]
    congr 1
  · intro q hq
    rcases mem_of_mem_set s.points i q _ hq with h | h
    · rw [h]; exact Or.inr (Or.inl (by decide))
    · exact i3 q h
  · intro _
    exact ⟨UpvotePoint.done upvotedResponse, mem_set_new s.points i _ _ hp, by decide⟩

theorem RaceInvariant_step (uid videoID : String) (db : Store) (s : InFlight)
    (entry : Nat × Nat)
    (hpub : (db.videos.find? (fun v => decide (v.VideoID = videoID))).isSome = true)
    (hdown : downvoteEdges uid videoID db = 0)
    (hinv : RaceInvariant uid videoID db s) :
    RaceInvariant uid videoID db (scheduleStep uid videoID s entry) := by
  unfold scheduleStep
  cases hp : s.points[entry.1]? with
  | none => exact hinv
  | some p =>
    simp only
    have hvideo : ∃ v, s.store.videos.find? (fun v => decide (v.VideoID = videoID)) = some v := by
      have := find_addVideoUpvotes_isSome videoID (upvotedCalls s.points) db.videos hpub
      rw [← hinv.2.1] at this
      exact Option.isSome_iff_exists.mp this
    have hdel : deleteDownvotes uid videoID s.store.downvotes = s.store.downvotes := by
      have h1 := congrArg Store.downvotes hinv.1
      have h2 : s.store.downvotes = db.downvotes := h1
      rw [h2]
      exact deleteDownvotes_eq_self uid videoID db hdown
    have hpvalid := hinv.2.2.1 p (mem_old_of_getElem s.points entry.1 p hp)
    cases p with
    | videoLookup =>
      obtain ⟨v, hv⟩ := hvideo
      simp only [upvoteStatement, hv]
      exact RaceInvariant_quiet uid videoID db s entry.1 _ _ hinv hp (by decide) (by decide)
        (Or.inl (by decide)) (fun h => absurd h (by decide)) (fun h => absurd h (by decide))
    | voteLookup =>
      cases hf : s.store.upvotes.find?
          (fun u => decide (u.UpvotedBy = uid) && decide (u.UpvotedTo = videoID)) with
      | none =>
        simp only [upvoteStatement, hf]
        exact RaceInvariant_quiet uid videoID db s entry.1 _ _ hinv hp (by decide) (by decide)
          (Or.inl (by decide)) (fun h => absurd h (by decide)) (fun h => absurd h (by decide))
      | some u =>
        have h1 : 1 ≤ upvoteEdges uid videoID s.store :=
          countP_of_find_isSome _ s.store.upvotes (by rw [hf]; rfl)
        have h2 := hinv.2.2.2.1
        simp only [upvoteStatement, hf]
        exact RaceInvariant_quiet uid videoID db s entry.1 _ _ hinv hp (by decide) (by decide)
          (Or.inr (Or.inr (by decide))) (fun _ => by omega) (fun h => absurd h (by decide))
    | votedDelete =>
      simp only [upvoteStatement, hdel, Nat.sub_self, gt_iff_lt, Nat.lt_irrefl, if_false]
      exact RaceInvariant_quiet uid videoID db s entry.1 _ _ hinv hp (by decide) (by decide)
        (Or.inr (Or.inr (by decide)))
        (fun _ => hinv.2.2.2.2.1 ⟨_, mem_old_of_getElem s.points entry.1 _ hp, Or.inr (by decide)⟩)
        (fun h => absurd h (by decide))
    | votedDecrement => exact absurd hpvalid (by decide)
    | freshDelete =>
      simp only [upvoteStatement, hdel, Nat.sub_self, gt_iff_lt, Nat.lt_irrefl, if_false]
      exact RaceInvariant_quiet uid videoID db s entry.1 _ _ hinv hp (by decide) (by decide)
        (Or.inl (by decide)) (fun h => absurd h (by decide)) (fun h => absurd h (by decide))
    | freshDecrement => exact absurd hpvalid (by decide)
    | insert =>
      simp only [upvoteStatement]
      exact RaceInvariant_insert uid videoID entry.2 db s entry.1 hinv hp
    | increment =>
      simp only [upvoteStatement]
      exact RaceInvariant_increment uid videoID db s entry.1 hinv hp
    | done response =>
      simp only [upvoteStatement]
      rw [set_same s.points entry.1 _ hp]
      exact hinv

theorem RaceInvariant_run (uid videoID : String) (db : Store) (schedule : List (Nat × Nat))
    (s : InFlight)
    (hpub : (db.videos.find? (fun v => decide (v.VideoID = videoID))).isSome = true)
    (hdown : downvoteEdges uid videoID db = 0)
    (hinv : RaceInvariant uid videoID db s) :
    RaceInvariant uid videoID db (runSchedule uid videoID schedule s) := by
  unfold runSchedule
  induction schedule generalizing s with
  | nil => exact hinv
  | cons entry rest ih =>
    rw [List.foldl_cons]
    exact ih _ (RaceInvariant_step uid videoID db s entry hpub hdown hinv)

theorem length_points_run (uid videoID : String) (schedule : List (Nat × Nat)) (s : InFlight) :
    (runSchedule uid videoID schedule s).points.length = s.points.length := by
  unfold runSchedule
  induction schedule generalizing s with
  | nil => rfl
  | cons entry rest ih =>
    rw [List.foldl_cons, ih]
    unfold scheduleStep
    cases s.points[entry.1]? with
    | none => rfl
    | some p => simp

theorem RaceInvariant_start (uid videoID : String) (db : Store) (n : Nat)
    (hup : upvoteEdges uid videoID db = 0) :
    RaceInvariant uid videoID db
      { points := List.replicate n UpvotePoint.videoLookup, store := db } := by
  have hmem : ∀ p ∈ List.replicate n UpvotePoint.videoLookup, p = UpvotePoint.videoLookup :=
    fun p hp => (List.mem_replicate.mp hp).2
  refine ⟨rfl, ?_, ?_, ?_, ?_, ?_⟩
  · have h0 : upvotedCalls (List.replicate n UpvotePoint.videoLookup) = 0 := by
      unfold upvotedCalls
      rw [List.countP_eq_zero]
      intro p hp
      rw [hmem p hp]
      decide
    show db.videos = _
    rw [h0]
    exact (addVideoUpvotes_zero videoID db.videos).symm
  · intro p hp
    rw [hmem p hp]
    exact Or.inl (by decide)
  · show upvoteEdges uid videoID db ≤ 1
    omega
  · rintro ⟨p, hp, hk⟩
    rw [hmem p hp] at hk
    exact absurd hk (by decide)
  · intro h
    have h1 : upvoteEdges uid videoID db = 1 := h
    omega

theorem upvoteStatement_alone (uid videoID : String) (now : Nat) (db : Store)
    (hid : videoID ≠ "") :
    (fun ps : UpvotePoint × Store => upvoteStatement uid videoID now ps.1 ps.2)^[6]
        (UpvotePoint.videoLookup, db)
      = (UpvotePoint.done (Upvote voteOk now (some uid) videoID db).response,
          (Upvote voteOk now (some uid) videoID db).store) := by
  unfold Upvote
  simp only [hid, if_false, queryRow, voteOk, Bool.false_eq_true, Function.iterate_succ,
    Function.iterate_zero, Function.comp_apply, id_eq]
  cases hv : db.videos.find? (fun v => decide (v.VideoID = videoID)) with
  | none => simp [upvoteStatement, hv]
  | some v =>
    cases hu : db.upvotes.find?
        (fun u => decide (u.UpvotedBy = uid) && decide (u.UpvotedTo = videoID)) with
    | some u =>
      by_cases hr : db.downvotes.length - (deleteDownvotes uid videoID db.downvotes).length > 0
      · simp [upvoteStatement, hv, hu, hr]
      · simp [upvoteStatement, hv, hu, hr]
    | none =>
      by_cases hr : db.downvotes.length - (deleteDownvotes uid videoID db.downvotes).length > 0
      · simp [upvoteStatement, hv, hu, hr]
      · simp [upvoteStatement, hv, hu, hr]

theorem runSchedule_append (uid videoID : String) (a b : List (Nat × Nat)) (s : InFlight) :
    runSchedule uid videoID (a ++ b) s = runSchedule uid videoID b (runSchedule uid videoID a s) := by
  unfold runSchedule
  rw [List.foldl_append]

theorem replicate_step (i m : Nat) (p r : UpvotePoint) :
    (List.replicate i r ++ List.replicate (m + 1) p)[i]? = some p ∧
    (List.replicate i r ++ List.replicate (m + 1) p).set i r
      = List.replicate (i + 1) r ++ List.replicate m p := by
  induction i with
  | zero => simp [List.replicate_succ]
  | succ i ih =>
    obtain ⟨h1, h2⟩ := ih
    constructor
    · rw [List.replicate_succ, List.cons_append, List.getElem?_cons_succ]
      exact h1
    · rw [List.replicate_succ, List.cons_append, List.set_cons_succ, h2]
      rfl

theorem runSchedule_round (uid videoID : String) (t n : Nat) (p r : UpvotePoint)
    (g : Store → Store) (P : Store → Prop)
    (hstep : ∀ st, P st → upvoteStatement uid videoID t p st = (r, g st) ∧ P (g st))
    (db : Store) (hP : P db) (i : Nat) (hi : i ≤ n) :
    runSchedule uid videoID ((List.range i).map (fun j => (j, t)))
        { points := List.replicate n p, store := db }
      = { points := List.replicate i r ++ List.replicate (n - i) p, store := g^[i] db } ∧
    P (g^[i] db) := by
  induction i with
  | zero => exact ⟨by simp [runSchedule], hP⟩
  | succ i ih =>
    obtain ⟨h1, h2⟩ := ih (by omega)
    obtain ⟨h3, h4⟩ := hstep _ h2
    rw [List.range_succ, List.map_append, runSchedule_append, h1]
    obtain ⟨m, hm⟩ : ∃ m, n - i = m + 1 := ⟨n - i - 1, by omega⟩
    have hm2 : n - (i + 1) = m := by omega
    obtain ⟨e1, e2⟩ := replicate_step i m p r
    rw [hm, hm2, Function.iterate_succ_apply']
    refine ⟨?_, h4⟩
    simp only [List.map_cons, List.map_nil, runSchedule, List.foldl_cons, List.foldl_nil,
      scheduleStep, e1, h3, e2]

theorem runSchedule_full_round (uid videoID : String) (t n : Nat) (p r : UpvotePoint)
    (g : Store → Store) (P : Store → Prop)
    (hstep : ∀ st, P st → upvoteStatement uid videoID t p st = (r, g st) ∧ P (g st))
    (db : Store) (hP : P db) :
    runSchedule uid videoID ((List.range n).map (fun j => (j, t)))
        { points := List.replicate n p, store := db }
      = { points := List.replicate n r, store := g^[n] db } := by
  have h := (runSchedule_round uid videoID t n p r g P hstep db hP n (le_refl n)).1
  rw [h]
  simp

theorem insertUpvote_insertUpvote (uid videoID : String) (now : Nat) (l : List Upvotes) :
    insertUpvote uid videoID now (insertUpvote uid videoID now l) = insertUpvote uid videoID now l := by
  by_cases h : l.any (fun u => decide (u.UpvotedBy = uid) && decide (u.UpvotedTo = videoID)) = true
  · have e : insertUpvote uid videoID now l = l := by
      unfold insertUpvote
      rw [if_pos h]
    rw [e, e]
  · have e : insertUpvote uid videoID now l
        = l ++ [{ UpvotedBy := uid, UpvotedTo := videoID, UpvotedAt := now }] := by
      unfold insertUpvote
      rw [if_neg h]
    rw [e]
    unfold insertUpvote
    rw [if_pos (by simp)]

theorem iterate_of_idempotent {α : Type} (g : α → α) (hg : ∀ x, g (g x) = g x) (n : Nat)
    (x : α) : g^[n + 1] x = g x := by
  induction n with
  | zero => rfl
  | succ n ih => rw [Function.iterate_succ_apply', ih, hg]

theorem iterate_addVideoUpvotes (videoID : String) (n : Nat) (st : Store) :
    (fun s : Store => { s with videos := addVideoUpvotes videoID 1 s.videos })^[n] st
      = { st with videos := addVideoUpvotes videoID n st.videos } := by
  induction n with
  | zero =>
    show st = { st with videos := addVideoUpvotes videoID ((0 : Nat) : Int) st.videos }
    rw [Nat.cast_zero, addVideoUpvotes_zero]
  | succ n ih =>
    rw [Function.iterate_succ_apply', ih]
    show { st with videos := addVideoUpvotes videoID 1 (addVideoUpvotes videoID n st.videos) }
      = { st with videos := addVideoUpvotes videoID ((n + 1 : Nat) : Int) st.videos }
    rw [addVideoUpvotes_add, Nat.cast_succ]

theorem lockStep_result (uid videoID : String) (n : Nat) (db : Store)
    (hpub : (db.videos.find? (fun v => decide (v.VideoID = videoID))).isSome = true)
    (hup : upvoteEdges uid videoID db = 0) (hdown : downvoteEdges uid videoID db = 0) :
    runSchedule uid videoID (lockStep (n + 1) 5)
        { points := List.replicate (n + 1) UpvotePoint.videoLookup, store := db }
      = { points := List.replicate (n + 1) (UpvotePoint.done upvotedResponse),
          store := { db with
            upvotes := insertUpvote uid videoID 20 db.upvotes
            videos := addVideoUpvotes videoID ((n + 1 : Nat) : Int) db.videos } } := by
  have e : lockStep (n + 1) 5
      = (List.range (n + 1)).map (fun j => (j, 20)) ++ ((List.range (n + 1)).map (fun j => (j, 20))
        ++ ((List.range (n + 1)).map (fun j => (j, 20)) ++ ((List.range (n + 1)).map (fun j => (j, 20))
        ++ (List.range (n + 1)).map (fun j => (j, 20))))) := by
    simp [lockStep, List.replicate]
  obtain ⟨v, hv⟩ := Option.isSome_iff_exists.mp hpub
  have hnone : db.upvotes.find?
      (fun u => decide (u.UpvotedBy = uid) && decide (u.UpvotedTo = videoID)) = none := by
    unfold upvoteEdges at hup
    rw [List.countP_eq_zero] at hup
    rw [List.find?_eq_none]
    exact hup
  have hdel := deleteDownvotes_eq_self uid videoID db hdown
  have r1 := runSchedule_full_round uid videoID 20 (n + 1) UpvotePoint.videoLookup
    UpvotePoint.voteLookup id (fun st => st = db)
    (fun st hst => ⟨by subst hst; simp [upvoteStatement, hv], hst⟩) db rfl
  have r2 := runSchedule_full_round uid videoID 20 (n + 1) UpvotePoint.voteLookup
    UpvotePoint.freshDelete id (fun st => st = db)
    (fun st hst => ⟨by subst hst; simp [upvoteStatement, hnone], hst⟩) db rfl
  have r3 := runSchedule_full_round uid videoID 20 (n + 1) UpvotePoint.freshDelete
    UpvotePoint.insert id (fun st => st = db)
    (fun st hst => ⟨by subst hst; simp [upvoteStatement, hdel], hst⟩) db rfl
  have r4 := runSchedule_full_round uid videoID 20 (n + 1) UpvotePoint.insert
    UpvotePoint.increment
    (fun st => { st with upvotes := insertUpvote uid videoID 20 st.upvotes }) (fun _ => True)
    (fun st _ => ⟨rfl, trivial⟩) db trivial
  have r5 := runSchedule_full_round uid videoID 20 (n + 1) UpvotePoint.increment
    (UpvotePoint.done upvotedResponse)
    (fun st => { st with videos := addVideoUpvotes videoID 1 st.videos }) (fun _ => True)
    (fun st _ => ⟨rfl, trivial⟩)
    { db with upvotes := insertUpvote uid videoID 20 db.upvotes } trivial
  rw [Function.iterate_id] at r1 r2 r3
  rw [iterate_of_idempotent _ (fun st => by
    show { st with upvotes := insertUpvote uid videoID 20 (insertUpvote uid videoID 20 st.upvotes) }
      = { st with upvotes := insertUpvote uid videoID 20 st.upvotes }
    rw [insertUpvote_insertUpvote])] at r4
  rw [iterate_addVideoUpvotes] at r5
  rw [e, runSchedule_append, runSchedule_append, runSchedule_append, runSchedule_append, r1]
  simp only [id_eq]
  rw [r2]
  simp only [id_eq]
  rw [r3]
  simp only [id_eq]
  rw [r4, r5]

/-! ## Concurrent upvotes -/

/-- C26 fails when the calls advance in lock step: `bob` sends 50 calls of
`Upvote` on the published video `c1`, on which he holds no reaction and whose
`video_upvotes` is 0, each statement running atomically and succeeding.  All
50 calls complete and the `upvotes` table holds exactly one row for the pair,
but `video_upvotes` is 50, not 1: every call ran its lookup before any
`INSERT`, the `INSERT ... ON CONFLICT DO NOTHING` of 49 of them added no row,
and each of them went on to the increment of line 153, which does not look at
the result of the `INSERT`. -/
theorem fifty_upvotes_in_lock_step_count_fifty :
    (upvoteEdges "bob" "c1" storeNoVotes = 0 ∧ downvoteEdges "bob" "c1" storeNoVotes = 0 ∧
      storeNoVotes.videos.map (fun v => (v.VideoID, v.VideoUpvotes)) = [("c1", 0)]) ∧
    allDone (runSchedule "bob" "c1" (lockStep 50 5)
      { points := List.replicate 50 UpvotePoint.videoLookup, store := storeNoVotes }) = true ∧
    upvoteEdges "bob" "c1" (runSchedule "bob" "c1" (lockStep 50 5)
      { points := List.replicate 50 UpvotePoint.videoLookup, store := storeNoVotes }).store
      = 1 ∧
    (runSchedule "bob" "c1" (lockStep 50 5)
      { points := List.replicate 50 UpvotePoint.videoLookup, store := storeNoVotes }
      ).store.videos.map (fun v => (v.VideoID, v.VideoUpvotes)) = [("c1", 50)] := by
  have h := lockStep_result "bob" "c1" 49 storeNoVotes (by decide) (by decide) (by decide)
  have e : (49 : Nat) + 1 = 50 := rfl
  rw [e] at h
  rw [h]
  decide

/-- How far the count can drift.  `n` calls of `Upvote` by `uid` on a
published `videoID` on which `uid` holds no reaction run concurrently, every
database statement running atomically and succeeding.  For every interleaving
of the statements after which all calls have answered: every call answered
with success; the `upvotes` table holds exactly one row for the pair;
`video_upvotes` of the video has grown by the number of calls that answered
"Video upvoted", which is at least 1 and at most `n`; every table other than
`upvotes` and `videos` is as it was. -/
theorem concurrent_upvotes (uid videoID : String) (n : Nat) (schedule : List (Nat × Nat))
    (db : Store) (hn : 0 < n) (hpub : isPublished videoID db)
    (hup : upvoteEdges uid videoID db = 0) (hdown : downvoteEdges uid videoID db = 0)
    (hdone : allDone (runSchedule uid videoID schedule
      { points := List.replicate n UpvotePoint.videoLookup, store := db }) = true) :
    (∀ p ∈ (runSchedule uid videoID schedule
        { points := List.replicate n UpvotePoint.videoLookup, store := db }).points,
      p = UpvotePoint.done upvotedResponse ∨ p = UpvotePoint.done alreadyResponse) ∧
    upvoteEdges uid videoID (runSchedule uid videoID schedule
      { points := List.replicate n UpvotePoint.videoLookup, store := db }).store = 1 ∧
    1 ≤ upvotedCalls (runSchedule uid videoID schedule
      { points := List.replicate n UpvotePoint.videoLookup, store := db }).points ∧
    upvotedCalls (runSchedule uid videoID schedule
      { points := List.replicate n UpvotePoint.videoLookup, store := db }).points ≤ n ∧
    (runSchedule uid videoID schedule
      { points := List.replicate n UpvotePoint.videoLookup, store := db }).store.videos
      = addVideoUpvotes videoID (upvotedCalls (runSchedule uid videoID schedule
          { points := List.replicate n UpvotePoint.videoLookup, store := db }).points)
          db.videos ∧
    { (runSchedule uid videoID schedule
        { points := List.replicate n UpvotePoint.videoLookup, store := db }).store with
      upvotes := db.upvotes, videos := db.videos } = db := by
  have hfind : (db.videos.find? (fun v => decide (v.VideoID = videoID))).isSome = true := by
    obtain ⟨v, hv, hvid⟩ := hpub
    rw [List.find?_isSome]
    exact ⟨v, hv, by simpa using hvid⟩
  have hinv := RaceInvariant_run uid videoID db schedule _ hfind hdown
    (RaceInvariant_start uid videoID db n hup)
  have hlen := length_points_run uid videoID schedule
    { points := List.replicate n UpvotePoint.videoLookup, store := db }
  generalize runSchedule uid videoID schedule
    { points := List.replicate n UpvotePoint.videoLookup, store := db } = final at hinv hlen hdone ⊢
  obtain ⟨i1, i2, i3, i4, i5, i6⟩ := hinv
  simp only [List.length_replicate] at hlen
  have hall : ∀ p ∈ final.points,
      p = UpvotePoint.done upvotedResponse ∨ p = UpvotePoint.done alreadyResponse := by
    intro p hp
    unfold allDone at hdone
    rw [List.all_eq_true] at hdone
    have hd := hdone p hp
    have hv := i3 p hp
    cases p with
    | done response =>
      rcases hv with h | h | h
      · exact absurd h (by simp [UpvotePoint.early])
      · exact Or.inl (by simpa [UpvotePoint.inserted] using h)
      · exact Or.inr (by simpa [UpvotePoint.sawVote] using h)
    | videoLookup => exact absurd hd (by decide)
    | voteLookup => exact absurd hd (by decide)
    | votedDelete => exact absurd hd (by decide)
    | votedDecrement => exact absurd hd (by decide)
    | freshDelete => exact absurd hd (by decide)
    | freshDecrement => exact absurd hd (by decide)
    | insert => exact absurd hd (by decide)
    | increment => exact absurd hd (by decide)
  have hne : ∃ p, p ∈ final.points := by
    cases hpts : final.points with
    | nil => rw [hpts] at hlen; simp at hlen; omega
    | cons p t => exact ⟨p, List.mem_cons_self _ _⟩
  obtain ⟨p0, hp0⟩ := hne
  have hedge : upvoteEdges uid videoID final.store = 1 := by
    apply i5
    refine ⟨p0, hp0, ?_⟩
    rcases hall p0 hp0 with h | h
    · rw [h]; exact Or.inl (by decide)
    · rw [h]; exact Or.inr (by decide)
  refine ⟨hall, hedge, ?_, ?_, i2, i1⟩
  · obtain ⟨q, hq, hk⟩ := i6 hedge
    have hq2 : q = UpvotePoint.done upvotedResponse := by
      rcases hall q hq with h | h
      · exact h
      · rw [h] at hk; exact absurd hk (by decide)
    unfold upvotedCalls
    have : 0 < final.points.countP (fun p => decide (p = UpvotePoint.done upvotedResponse)) :=
      List.countP_pos_iff.mpr ⟨q, hq, by simp [hq2]⟩
    omega
  · unfold upvotedCalls
    have : final.points.countP (fun p => decide (p = UpvotePoint.done upvotedResponse))
        ≤ final.points.length := List.countP_le_length _
    omega

/-- An instance of `concurrent_upvotes`: three calls of `bob` on `c1`, two of
which look for the vote before either inserts it. -/
theorem concurrent_upvotes_witness :
    (0 < 3 ∧ isPublished "c1" storeNoVotes ∧ upvoteEdges "bob" "c1" storeNoVotes = 0 ∧
      downvoteEdges "bob" "c1" storeNoVotes = 0 ∧
      allDone (runSchedule "bob" "c1" mixedSchedule
        { points := List.replicate 3 UpvotePoint.videoLookup, store := storeNoVotes }) = true) ∧
    ((∀ p ∈ (runSchedule "bob" "c1" mixedSchedule
        { points := List.replicate 3 UpvotePoint.videoLookup, store := storeNoVotes }).points,
      p = UpvotePoint.done upvotedResponse ∨ p = UpvotePoint.done alreadyResponse) ∧
    upvoteEdges "bob" "c1" (runSchedule "bob" "c1" mixedSchedule
      { points := List.replicate 3 UpvotePoint.videoLookup, store := storeNoVotes }).store = 1 ∧
    1 ≤ upvotedCalls (runSchedule "bob" "c1" mixedSchedule
      { points := List.replicate 3 UpvotePoint.videoLookup, store := storeNoVotes }).points ∧
    upvotedCalls (runSchedule "bob" "c1" mixedSchedule
      { points := List.replicate 3 UpvotePoint.videoLookup, store := storeNoVotes }).points ≤ 3 ∧
    (runSchedule "bob" "c1" mixedSchedule
      { points := List.replicate 3 UpvotePoint.videoLookup, store := storeNoVotes }).store.videos
      = addVideoUpvotes "c1" (upvotedCalls (runSchedule "bob" "c1" mixedSchedule
          { points := List.replicate 3 UpvotePoint.videoLookup, store := storeNoVotes }).points)
          storeNoVotes.videos ∧
    { (runSchedule "bob" "c1" mixedSchedule
        { points := List.replicate 3 UpvotePoint.videoLookup, store := storeNoVotes }).store with
      upvotes := storeNoVotes.upvotes, videos := storeNoVotes.videos } = storeNoVotes) :=
  ⟨by decide,
    concurrent_upvotes "bob" "c1" 3 mixedSchedule storeNoVotes (by decide) (by decide)
      (by decide) (by decide) (by decide)⟩

end Hifi
